import Mathlib

/-!
Sliding menu (`framework/views/slidingMenu.js`)

A shallow embedding of the sliding-menu controller: the distance model
`SlidingMenuViewModel`, and the parts of `SlidingMenuView` that drive it
(gesture handling, `open`/`close`, the door lock and the animator calls).

The program is embedded twice.  The first embedding holds finite numbers
only: JavaScript numbers are exact rationals (`ℚ`), every finite double is a
rational, and the arithmetic used by the code (`maxDistance - 1`,
`maxDistance / 2`, `deltaX + maxDistance`, `-deltaX`, comparisons, `Math.min`,
`Math.max`) is taken without rounding.  The second embedding (namespace `JS`)
holds the values the code can store in its fields: numbers with `NaN` and the
infinities, and strings, with the strict equality, the comparisons, the
conversions between strings and numbers and the operator `+` of the language.
The two agree on finite numbers.

Effects (signals published with `emit`, callback invocations, animator calls)
are recorded in traces, in the order in which the code performs them.
-/

namespace SlidingMenu

/-- The `options` object handed to `open`/`close`: an optional completion
callback (callbacks are identified by a tag) and an optional `animation`
setting. -/
structure Options where
  callback : Option Nat
  animation : Option String
deriving DecidableEq, Repr

/-- What `emit` publishes on the model: the event name with its payload. -/
inductive Signal where
  | close (options : Options)
  | «open» (options : Options)
  | translate (distance maxDistance : ℚ)
deriving DecidableEq, Repr

/-- An observable effect of a model operation. -/
inductive Effect where
  | emit (signal : Signal)
  | call (callback : Nat)
deriving DecidableEq, Repr

/-- Running `options.callback || function() {}`: a present callback is
invoked, an absent one is replaced by a function that does nothing. -/
def invokeCallback (options : Options) : List Effect :=
  match options.callback with
  | some c => [Effect.call c]
  | none => []

/-- The state of `SlidingMenuViewModel`. -/
structure SlidingMenuViewModel where
  _distance : ℚ
  _maxDistance : ℚ
deriving DecidableEq, Repr

namespace SlidingMenuViewModel

/-- Method `isClosed`: `this._distance === 0`. -/
def isClosed (m : SlidingMenuViewModel) : Bool :=
  decide (m._distance = 0)

/-- Method `isOpened`: `this._distance === this._maxDistance`. -/
def isOpened (m : SlidingMenuViewModel) : Bool :=
  decide (m._distance = m._maxDistance)

/-- Method `setMaxDistance`: the model after the call, and the exception the call
raised, if any.  The call throws when `maxDistance <= 0`; otherwise it
re-snaps the distance when the model is opened and stores the new maximum. -/
def setMaxDistance (m : SlidingMenuViewModel) (maxDistance : ℚ) :
    SlidingMenuViewModel × Option String :=
  if maxDistance ≤ 0 then
    (m, some "maxDistance must be greater then zero.")
  else
    let m1 : SlidingMenuViewModel :=
      if m.isOpened then { m with _distance := maxDistance } else m
    ({ m1 with _maxDistance := maxDistance }, none)

/-- Method `init`: the argument is `options.maxDistance`, `none` standing for a value
that is not a number.  The prototype has `_distance = 0` and `_maxDistance`
undefined, so `isOpened()` is false inside the first `setMaxDistance` and the
distance stays `0`. -/
def init (maxDistance : Option ℚ) : Except String SlidingMenuViewModel :=
  match maxDistance with
  | none => Except.error "options.maxDistance must be number"
  | some md =>
    if md ≤ 0 then
      Except.error "maxDistance must be greater then zero."
    else
      Except.ok { _distance := 0, _maxDistance := md }

/-- Method `shouldOpen`: `!this.isOpened() && this._distance >= this._maxDistance / 2`. -/
def shouldOpen (m : SlidingMenuViewModel) : Bool :=
  !m.isOpened && decide (m._distance ≥ m._maxDistance / 2)

/-- Method `shouldClose`: `!this.isClosed() && this._distance < this._maxDistance / 2`. -/
def shouldClose (m : SlidingMenuViewModel) : Bool :=
  !m.isClosed && decide (m._distance < m._maxDistance / 2)

/-- Method `close`: a model that is not closed gets distance `0` and emits
`close` with the options; a closed one only runs the callback. -/
def close (m : SlidingMenuViewModel) (options : Options) :
    SlidingMenuViewModel × List Effect :=
  if !m.isClosed then
    ({ m with _distance := 0 }, [Effect.emit (Signal.close options)])
  else
    (m, invokeCallback options)

/-- Method `open`: a model that is not opened gets distance `maxDistance` and
emits `open` with the options; an opened one only runs the callback. -/
def «open» (m : SlidingMenuViewModel) (options : Options) :
    SlidingMenuViewModel × List Effect :=
  if !m.isOpened then
    ({ m with _distance := m._maxDistance }, [Effect.emit (Signal.open options)])
  else
    (m, invokeCallback options)

/-- Method `openOrClose`. -/
def openOrClose (m : SlidingMenuViewModel) (options : Options) :
    SlidingMenuViewModel × List Effect :=
  if m.shouldOpen then m.open options
  else if m.shouldClose then m.close options
  else (m, [])

/-- Method `getX`. -/
def getX (m : SlidingMenuViewModel) : ℚ := m._distance

/-- Method `getMaxDistance`. -/
def getMaxDistance (m : SlidingMenuViewModel) : ℚ := m._maxDistance

/-- Method `translate`: `Math.max(1, Math.min(this._maxDistance - 1, x))`, then the
`translate` signal with the new distance and the maximum. -/
def translate (m : SlidingMenuViewModel) (x : ℚ) :
    SlidingMenuViewModel × List Effect :=
  let m1 : SlidingMenuViewModel := { m with _distance := max 1 (min (m._maxDistance - 1) x) }
  (m1, [Effect.emit (Signal.translate m1._distance m1._maxDistance)])

end SlidingMenuViewModel

/-- An operation of the model, as a caller issues it. -/
inductive Op where
  | «open» (options : Options)
  | close (options : Options)
  | translate (x : ℚ)
  | setMaxDistance (maxDistance : ℚ)
deriving DecidableEq, Repr

namespace SlidingMenuViewModel

/-- One operation on the model: the model afterwards, and the exception
raised, if any. -/
def step (m : SlidingMenuViewModel) : Op → SlidingMenuViewModel × Option String
  | Op.open options => ((m.open options).1, none)
  | Op.close options => ((m.close options).1, none)
  | Op.translate x => ((m.translate x).1, none)
  | Op.setMaxDistance maxDistance => m.setMaxDistance maxDistance

/-- A sequence of operations, stopping at the first one that raises. -/
def run (m : SlidingMenuViewModel) : List Op → SlidingMenuViewModel × Option String
  | [] => (m, none)
  | op :: ops =>
    match m.step op with
    | (m1, none) => run m1 ops
    | (m1, some e) => (m1, some e)

/-- The condition under which the range of the distance is kept by a
sequence: the maximum never drops below `1`, and it is changed only while the
model is opened or to a value that is not below the current distance. -/
def keepsRange (m : SlidingMenuViewModel) : List Op → Bool
  | [] => true
  | op :: ops =>
    (match op with
     | Op.setMaxDistance maxDistance =>
       decide (1 ≤ maxDistance) && (m.isOpened || decide (m._distance ≤ maxDistance))
     | _ => true) &&
    keepsRange (m.step op).1 ops

end SlidingMenuViewModel

/-! ## The view -/

/-- The argument of the view's `open`/`close`: nothing, a bare function, or an
options object. -/
inductive OptionsArg where
  | undefined
  | function (callback : Nat)
  | object (options : Options)
deriving DecidableEq, Repr

/-- The statement `options = options || {}` followed by
`options = typeof options == 'function' ? {callback: options} : options`. -/
def normalizeOptions : OptionsArg → Options
  | OptionsArg.undefined => { callback := none, animation := none }
  | OptionsArg.function c => { callback := some c, animation := none }
  | OptionsArg.object o => o

/-- The functions handed to `waitUnlock`: `this._logic.close(options)` and
`this._logic.open(options)`. -/
inductive Waiter where
  | close (options : Options)
  | «open» (options : Options)
deriving DecidableEq, Repr

/-- Modelled from the spec: the `DoorLock` class, which is not among the
sources.  Section 3 gives it `locked: boolean` plus a queue of pending
`waitUnlock` callbacks run in FIFO order; section 4.3 says that release
"drains exactly one queued waiter" and also that a waiter that relocks
"blocks the next waiter".  `drainAll = false` drains one waiter per release,
`drainAll = true` keeps draining until the guard is locked again or the queue
is empty. -/
structure DoorLock where
  locked : Bool
  waitList : List Waiter
  drainAll : Bool
deriving DecidableEq, Repr

/-- The two transitions the animator plays. -/
inductive Transition where
  | opening
  | closing
deriving DecidableEq, Repr

/-- A completion callback held by the animator: the function built in `_open`
or `_close`, with the `options` it closes over. -/
structure Completion where
  kind : Transition
  options : Options
deriving DecidableEq, Repr

/-- What the view does to its collaborators, in order of execution. -/
inductive ViewEffect where
  | emit (name : String)
  | lock
  | unlock
  | openMenu (instant : Bool)
  | closeMenu (instant : Bool)
  | translateMenu (distance maxDistance : ℚ)
  | done (kind : Transition)
  | tapOn
  | tapOff
  | call (callback : Nat)
  | stopDetect
  | preventDefault
deriving DecidableEq, Repr

/-- A value of an attribute in `_attrs`. -/
inductive AttrValue where
  | undefined
  | number (q : ℚ)
  | string (s : String)
deriving DecidableEq, Repr

/-- The state of `SlidingMenuView` together with its collaborators:
`running` holds the completion callbacks the animator has been given and has
not invoked yet, `tapBound` tells whether `_bindedCloseMenu` listens for
`tap` on the main page, `clientWidth` is `_mainPage[0].clientWidth`. -/
structure SlidingMenuView where
  _logic : SlidingMenuViewModel
  _doorLock : DoorLock
  _isRightMenu : Bool
  _lastDistance : Option ℚ
  swipeTargetWidth : AttrValue
  clientWidth : ℚ
  running : List Completion
  tapBound : Bool
  trace : List ViewEffect
deriving DecidableEq, Repr

namespace SlidingMenuView

/-- Append effects to the trace. -/
def log (v : SlidingMenuView) (es : List ViewEffect) : SlidingMenuView :=
  { v with trace := v.trace ++ es }

/-- Modelled from the spec: `DoorLock.lock()` (section 4.3), which takes the
guard; the unlock token it returns is the `unlock` below. -/
def lock (v : SlidingMenuView) : SlidingMenuView :=
  { v with _doorLock := { v._doorLock with locked := true },
           trace := v.trace ++ [ViewEffect.lock] }

/-- Method `_close`: take the guard and hand the animator `closeMenu` with the
completion callback. -/
def _close (v : SlidingMenuView) (options : Options) : SlidingMenuView :=
  let v1 := v.lock
  let instant := decide (options.animation = some "none")
  { v1 with running := v1.running ++ [{ kind := Transition.closing, options := options }],
            trace := v1.trace ++ [ViewEffect.closeMenu instant] }

/-- Method `_open`: take the guard and hand the animator `openMenu` with the
completion callback. -/
def _open (v : SlidingMenuView) (options : Options) : SlidingMenuView :=
  let v1 := v.lock
  let instant := decide (options.animation = some "none")
  { v1 with running := v1.running ++ [{ kind := Transition.opening, options := options }],
            trace := v1.trace ++ [ViewEffect.openMenu instant] }

/-- Method `_translate`: forward the payload to `animator.translateMenu`. -/
def _translate (v : SlidingMenuView) (distance maxDistance : ℚ) : SlidingMenuView :=
  v.log [ViewEffect.translateMenu distance maxDistance]

/-- The listeners installed on the model in `init`: `translate` goes to
`_translate`, `open` to `_open`, `close` to `_close`; a callback invoked by
the model is recorded. -/
def listen (v : SlidingMenuView) : Effect → SlidingMenuView
  | Effect.emit (Signal.close options) => v._close options
  | Effect.emit (Signal.open options) => v._open options
  | Effect.emit (Signal.translate distance maxDistance) => v._translate distance maxDistance
  | Effect.call c => v.log [ViewEffect.call c]

/-- Store the outcome of a model operation and run the listeners on what it
emitted. -/
def afterLogic (v : SlidingMenuView) (r : SlidingMenuViewModel × List Effect) :
    SlidingMenuView :=
  r.2.foldl listen { v with _logic := r.1 }

/-- Run a function that was handed to `waitUnlock`. -/
def runWaiter (v : SlidingMenuView) : Waiter → SlidingMenuView
  | Waiter.close options => v.afterLogic (v._logic.close options)
  | Waiter.open options => v.afterLogic (v._logic.open options)

/-- Modelled from the spec: `DoorLock.waitUnlock(fn)` (section 4.3): "if
unlocked, invokes `fn` immediately; if locked, enqueues `fn`". -/
def waitUnlock (v : SlidingMenuView) (w : Waiter) : SlidingMenuView :=
  if v._doorLock.locked then
    { v with _doorLock := { v._doorLock with waitList := v._doorLock.waitList ++ [w] } }
  else
    v.runWaiter w

/-- Modelled from the spec: the draining of the wait queue on release
(section 4.3): while the guard is free and a waiter is queued, the oldest
waiter is removed and run; the first argument bounds the number of waiters
run. -/
def drain : Nat → SlidingMenuView → SlidingMenuView
  | 0, v => v
  | n + 1, v =>
    if v._doorLock.locked then v
    else
      match v._doorLock.waitList with
      | [] => v
      | w :: rest =>
        drain n (runWaiter { v with _doorLock := { v._doorLock with waitList := rest } } w)

/-- Modelled from the spec: the unlock token returned by `lock()` (section
4.3): "transitions to unlocked and drains" the queue, one waiter or all of
them according to `drainAll`. -/
def unlock (v : SlidingMenuView) : SlidingMenuView :=
  let v1 : SlidingMenuView :=
    { v with _doorLock := { v._doorLock with locked := false },
             trace := v.trace ++ [ViewEffect.unlock] }
  drain (if v1._doorLock.drainAll then v1._doorLock.waitList.length else 1) v1

/-- View `close`. -/
def close (v : SlidingMenuView) (arg : OptionsArg) : SlidingMenuView :=
  let options := normalizeOptions arg
  let v1 : SlidingMenuView :=
    { v with tapBound := false,
             trace := v.trace ++ [ViewEffect.tapOff, ViewEffect.emit "preclose"] }
  v1.waitUnlock (Waiter.close options)

/-- View `open`. -/
def «open» (v : SlidingMenuView) (arg : OptionsArg) : SlidingMenuView :=
  let options := normalizeOptions arg
  let v1 := v.log [ViewEffect.emit "preopen"]
  v1.waitUnlock (Waiter.open options)

/-- View `toggle`. -/
def toggle (v : SlidingMenuView) (arg : OptionsArg) : SlidingMenuView :=
  if v._logic.isClosed then v.open arg else v.close arg

/-- The callback `_callback = options.callback || function() {}` of a
completion, as a view effect. -/
def callbackEffects (options : Options) : List ViewEffect :=
  match options.callback with
  | some c => [ViewEffect.call c]
  | none => []

/-- The animator invokes the completion callback it holds at position `i`
(nothing happens when there is none).  For `_open`: `unlock()`, then the tap
listener, `postopen` and the callback; for `_close`: `unlock()`, `postclose`
and the callback. -/
def animationDone (v : SlidingMenuView) (i : Nat) : SlidingMenuView :=
  match v.running.get? i with
  | none => v
  | some c =>
    let v1 : SlidingMenuView :=
      { v with running := v.running.eraseIdx i,
               trace := v.trace ++ [ViewEffect.done c.kind] }
    let v2 := v1.unlock
    match c.kind with
    | Transition.opening =>
      { v2 with tapBound := true,
                trace := v2.trace ++
                  ([ViewEffect.tapOn, ViewEffect.emit "postopen"] ++ callbackEffects c.options) }
    | Transition.closing =>
      { v2 with trace := v2.trace ++
                  ([ViewEffect.emit "postclose"] ++ callbackEffects c.options) }

end SlidingMenuView

/-! ## Gesture events -/

/-- The event types `_handleEvent` is bound to. -/
inductive EventType where
  | touch
  | dragleft
  | dragright
  | swipeleft
  | swiperight
  | release
deriving DecidableEq, Repr

/-- The per-gesture object `event.gesture.startEvent`, with the two
properties the view caches on it (`none`: the property is not there yet).  A
cached width of `none` is `NaN`. -/
structure StartEvent where
  isOpened : Option Bool
  _swipeTargetWidth : Option (Option ℚ)
deriving DecidableEq, Repr

/-- The part of `event.gesture` the view reads; `pageX` is `center.pageX`. -/
structure Gesture where
  deltaX : ℚ
  pageX : ℚ
  startEvent : StartEvent
deriving DecidableEq, Repr

/-- A gesture event.  `target` lists, from `event.target` upwards through
`parentNode`, the value of the `sliding-menu-ignore` attribute of each node
(`none` where there is no such attribute or no `getAttribute`). -/
structure Event where
  type : EventType
  target : List (Option String)
  gesture : Gesture
deriving DecidableEq, Repr

/-- The characters `parseInt` skips at the start of its argument. -/
def isStrWhiteSpaceChar (c : Char) : Bool :=
  let n := c.toNat
  n == 9 || n == 10 || n == 11 || n == 12 || n == 13 || n == 32 || n == 160 ||
  n == 5760 || (8192 ≤ n && n ≤ 8202) || n == 8232 || n == 8233 || n == 8239 ||
  n == 8287 || n == 12288 || n == 65279

/-- The value of a run of decimal digits. -/
def digitsValue (ds : List Char) : Nat :=
  ds.foldl (fun acc c => 10 * acc + (c.toNat - 48)) 0

/-- The call `parseInt(s, 10)` on a string: white space is skipped, a sign is read,
then the longest run of decimal digits; `none` is `NaN`. -/
def parseIntChars (s : List Char) : Option ℚ :=
  let s1 := s.dropWhile isStrWhiteSpaceChar
  let negative := decide (s1.head? = some '-')
  let s2 := if s1.head? = some '-' ∨ s1.head? = some '+' then s1.tail else s1
  let ds := s2.takeWhile Char.isDigit
  if ds.isEmpty then none
  else some (if negative then -((digitsValue ds : ℕ) : ℚ) else ((digitsValue ds : ℕ) : ℚ))

/-- The call `s.replace('px', '')`: the first occurrence of `px` is removed. -/
def removeFirstPx : List Char → List Char
  | [] => []
  | c :: rest =>
    if c = 'p' ∧ rest.head? = some 'x' then rest.tail else c :: removeFirstPx rest

/-- The call `parseInt(q, 10)` on a number: the decimal text of the number starts with
its integer part, so the result is the number truncated towards zero (numbers
that print in exponent form are outside the model). -/
def parseIntNumber (q : ℚ) : ℚ :=
  if 0 ≤ q then ((Rat.floor q : ℤ) : ℚ) else ((Rat.ceil q : ℤ) : ℚ)

namespace SlidingMenuView

/-- Method `_isInsideIgnoredElement`: some node from the target upwards carries a
non-empty `sliding-menu-ignore` attribute. -/
def _isInsideIgnoredElement (target : List (Option String)) : Bool :=
  target.any (fun a => match a with
    | some s => decide (s ≠ "")
    | none => false)

/-- Method `_getSwipeTargetWidth`; `none` is `NaN`. -/
def _getSwipeTargetWidth (v : SlidingMenuView) : Option ℚ :=
  match v.swipeTargetWidth with
  | AttrValue.undefined => some v.clientWidth
  | AttrValue.number q =>
    let width := parseIntNumber q
    if width < 0 ∨ q = 0 then some v.clientWidth else some width
  | AttrValue.string s =>
    let targetWidth := removeFirstPx s.toList
    match parseIntChars targetWidth with
    | some width =>
      if width < 0 ∨ targetWidth = [] then some v.clientWidth else some width
    | none =>
      if targetWidth = [] then some v.clientWidth else none

/-- Method `_isInsideSwipeTargetArea`: the answer and the start event with the width
cached on it.  A comparison with `NaN` is false. -/
def _isInsideSwipeTargetArea (v : SlidingMenuView) (event : Event) : Bool × StartEvent :=
  let x := event.gesture.pageX
  let startEvent : StartEvent :=
    match event.gesture.startEvent._swipeTargetWidth with
    | some _ => event.gesture.startEvent
    | none => { event.gesture.startEvent with _swipeTargetWidth := some v._getSwipeTargetWidth }
  match startEvent._swipeTargetWidth with
  | some (some targetWidth) =>
    (if v._isRightMenu then decide (v.clientWidth - x < targetWidth)
     else decide (x < targetWidth), startEvent)
  | _ => (false, startEvent)

/-- Method `_handleEvent`: the view afterwards, and `event.gesture.startEvent`
afterwards. -/
def _handleEvent (v : SlidingMenuView) (event : Event) : SlidingMenuView × StartEvent :=
  if v._doorLock.locked then (v, event.gesture.startEvent)
  else
    let v1 := if _isInsideIgnoredElement event.target then v.log [ViewEffect.stopDetect] else v
    match event.type with
    | EventType.touch =>
      if v1._logic.isClosed then
        let r := v1._isInsideSwipeTargetArea event
        (if !r.1 then v1.log [ViewEffect.stopDetect] else v1, r.2)
      else (v1, event.gesture.startEvent)
    | EventType.dragleft | EventType.dragright =>
      let v2 := v1.log [ViewEffect.preventDefault]
      let deltaX := event.gesture.deltaX
      let deltaDistance := if v2._isRightMenu then -deltaX else deltaX
      let startEvent : StartEvent :=
        match event.gesture.startEvent.isOpened with
        | some _ => event.gesture.startEvent
        | none => { event.gesture.startEvent with isOpened := some v2._logic.isOpened }
      if deltaDistance < 0 ∧ v2._logic.isClosed = true then (v2, startEvent)
      else if deltaDistance > 0 ∧ v2._logic.isOpened = true then (v2, startEvent)
      else
        let distance :=
          if startEvent.isOpened = some true then deltaDistance + v2._logic.getMaxDistance
          else deltaDistance
        (v2.afterLogic (v2._logic.translate distance), startEvent)
    | EventType.swipeleft =>
      let v2 := v1.log [ViewEffect.preventDefault]
      let v3 := if v2._isRightMenu then v2.open OptionsArg.undefined
                else v2.close OptionsArg.undefined
      (v3.log [ViewEffect.stopDetect], event.gesture.startEvent)
    | EventType.swiperight =>
      let v2 := v1.log [ViewEffect.preventDefault]
      let v3 := if v2._isRightMenu then v2.close OptionsArg.undefined
                else v2.open OptionsArg.undefined
      (v3.log [ViewEffect.stopDetect], event.gesture.startEvent)
    | EventType.release =>
      let v2 : SlidingMenuView := { v1 with _lastDistance := none }
      (if v2._logic.shouldOpen then v2.open OptionsArg.undefined
       else if v2._logic.shouldClose then v2.close OptionsArg.undefined
       else v2, event.gesture.startEvent)

end SlidingMenuView

/-- What reaches the view in the course of transitions: calls of `open` and
`close`, and the animator invoking a completion callback. -/
inductive Input where
  | «open» (arg : OptionsArg)
  | close (arg : OptionsArg)
  | animationDone (i : Nat)
deriving DecidableEq, Repr

namespace SlidingMenuView

/-- One input. -/
def step (v : SlidingMenuView) : Input → SlidingMenuView
  | Input.open arg => v.open arg
  | Input.close arg => v.close arg
  | Input.animationDone i => v.animationDone i

/-- A sequence of inputs, in order. -/
def run (v : SlidingMenuView) (inputs : List Input) : SlidingMenuView :=
  inputs.foldl step v

end SlidingMenuView

/-- Reading a trace from the left with the state of the guard: `lock` while
the guard is held is a violation. -/
def lockDiscipline : Bool → List ViewEffect → Bool
  | _, [] => true
  | locked, ViewEffect.lock :: rest => !locked && lockDiscipline true rest
  | _, ViewEffect.unlock :: rest => lockDiscipline false rest
  | locked, _ :: rest => lockDiscipline locked rest

/-- Reading a trace from the left with the number of animations in flight:
`openMenu` or `closeMenu` while one is in flight is a violation; `done` ends
one. -/
def oneAtATime : Nat → List ViewEffect → Bool
  | _, [] => true
  | n, ViewEffect.openMenu _ :: rest => decide (n = 0) && oneAtATime (n + 1) rest
  | n, ViewEffect.closeMenu _ :: rest => decide (n = 0) && oneAtATime (n + 1) rest
  | n, ViewEffect.done _ :: rest => oneAtATime (n - 1) rest
  | n, _ :: rest => oneAtATime n rest

/-- The state of the guard after a trace: `lock` takes it, `unlock` frees
it. -/
def lockAfter : Bool → List ViewEffect → Bool
  | locked, [] => locked
  | _, ViewEffect.lock :: rest => lockAfter true rest
  | _, ViewEffect.unlock :: rest => lockAfter false rest
  | locked, _ :: rest => lockAfter locked rest

/-- The number of animations in flight after a trace. -/
def flightAfter : Nat → List ViewEffect → Nat
  | n, [] => n
  | n, ViewEffect.openMenu _ :: rest => flightAfter (n + 1) rest
  | n, ViewEffect.closeMenu _ :: rest => flightAfter (n + 1) rest
  | n, ViewEffect.done _ :: rest => flightAfter (n - 1) rest
  | n, _ :: rest => flightAfter n rest

/-- Effects that touch neither the guard nor the animations in flight. -/
def ViewEffect.neutral : ViewEffect → Bool
  | ViewEffect.lock => false
  | ViewEffect.unlock => false
  | ViewEffect.openMenu _ => false
  | ViewEffect.closeMenu _ => false
  | ViewEffect.done _ => false
  | _ => true

/-- The trace of a view agrees with its state: the guard was never taken
while held, no animation was started while another was in flight, and the
guard and the list of running animations are what the trace says. -/
def SlidingMenuView.TraceOk (v : SlidingMenuView) : Prop :=
  lockDiscipline false v.trace = true ∧ lockAfter false v.trace = v._doorLock.locked ∧
  oneAtATime 0 v.trace = true ∧ flightAfter 0 v.trace = v.running.length

/-- The guard is held exactly while one animation is in flight. -/
def SlidingMenuView.Settled (v : SlidingMenuView) : Prop :=
  (v._doorLock.locked = false ∧ v.running = []) ∨
  (v._doorLock.locked = true ∧ v.running.length = 1)

/-! ## The animator registry -/

/-- An object offered to or stored in the animator registry: an instance of
`SlidingMenuAnimator` or of one of its subclasses, identified by a tag, or any
other value. -/
inductive JSObject where
  | animator (id : Nat)
  | other
deriving DecidableEq, Repr

/-- Modelled from the spec: the result of `copy()` of the animator capability
(section 6), which "returns an independent instance"; the class
`SlidingMenuAnimator` is not among the sources.  A copy records the instance
it was made from. -/
structure AnimatorCopy where
  source : Nat
deriving DecidableEq, Repr

/-- The call `animator.copy()`: defined on an animator; on anything else
(`undefined`, an object without the method) the call has no result. -/
def copyOf : Option JSObject → Option AnimatorCopy
  | some (JSObject.animator id) => some { source := id }
  | _ => none

/-- The object `SlidingMenuView._animatorDict`, as the map from a property
key to the value stored under it (its own properties; what the key would find
on the prototype chain of the object is outside the model). -/
def AnimatorDict : Type := String → Option JSObject

/-- The preset registry: `default` and `reveal` are two instances of
`RevealSlidingMenuAnimator`, `overlay` and `push` one instance each of their
classes. -/
def _animatorDict : AnimatorDict := fun key =>
  if key = "default" then some (JSObject.animator 0)
  else if key = "overlay" then some (JSObject.animator 1)
  else if key = "reveal" then some (JSObject.animator 2)
  else if key = "push" then some (JSObject.animator 3)
  else none

/-- Static method `registerSlidingMenuAnimator`: the registry afterwards, and
the exception raised, if any (the message is given without its quotation
marks). -/
def registerSlidingMenuAnimator (dict : AnimatorDict) (name : String) (animator : JSObject) :
    AnimatorDict × Option String :=
  match animator with
  | JSObject.animator _ => (fun key => if key = name then some animator else dict key, none)
  | JSObject.other => (dict, some "animator param must be an instance of SlidingMenuAnimator")

/-- The property key that `this._attrs.type` selects: an absent attribute
reads as the key `undefined`. -/
def typeKey : Option String → String
  | some s => s
  | none => "undefined"

/-- Method `_getAnimatorOption`, for the registry and the value of
`this._attrs.type`. -/
def _getAnimatorOption (dict : AnimatorDict) (type : Option String) : Option AnimatorCopy :=
  let animator := dict (typeKey type)
  let animator :=
    match animator with
    | some (JSObject.animator _) => animator
    | _ => dict "default"
  copyOf animator

/-! ## Construction of the view and the setup window -/

/-- Method `init` of the view, up to the point where the deferred setup is
scheduled with `setTimeout`.  The arguments are `attrs.side`,
`attrs.swipeTargetWidth`, the width of the main page, the number that
`_normalizeMaxSlideDistanceAttr()` returns, and the way the guard drains its
queue.  The model is built with `Math.max(maxDistance, 1)`, and the last act
is `this._doorLock.lock()`. -/
def SlidingMenuView.init (side swipeTargetWidth : AttrValue) (clientWidth maxDistance : ℚ)
    (drainAll : Bool) : Except String SlidingMenuView :=
  match SlidingMenuViewModel.init (some (max maxDistance 1)) with
  | Except.error e => Except.error e
  | Except.ok logic =>
    Except.ok (SlidingMenuView.lock
      { _logic := logic,
        _doorLock := { locked := false, waitList := [], drainAll := drainAll },
        _isRightMenu := decide (side = AttrValue.string "right"),
        _lastDistance := none,
        swipeTargetWidth := swipeTargetWidth,
        clientWidth := clientWidth,
        running := [],
        tapBound := false,
        trace := [] })

/-- What may be delivered to a view from outside: a gesture event, or a call
of `open`, `close` or `toggle`. -/
inductive Call where
  | event (e : Event)
  | «open» (arg : OptionsArg)
  | close (arg : OptionsArg)
  | toggle (arg : OptionsArg)
deriving DecidableEq, Repr

/-- One delivery. -/
def SlidingMenuView.deliver (v : SlidingMenuView) : Call → SlidingMenuView
  | Call.event e => (v._handleEvent e).1
  | Call.open arg => v.open arg
  | Call.close arg => v.close arg
  | Call.toggle arg => v.toggle arg

/-- A sequence of deliveries, in order. -/
def SlidingMenuView.deliverAll (v : SlidingMenuView) (calls : List Call) : SlidingMenuView :=
  calls.foldl SlidingMenuView.deliver v

/-- The animator operations that move the menu. -/
def ViewEffect.isAnimatorOp : ViewEffect → Bool
  | ViewEffect.openMenu _ => true
  | ViewEffect.closeMenu _ => true
  | ViewEffect.translateMenu _ _ => true
  | _ => false

/-- Effects that are possible while the view waits for its deferred setup:
anything but an animator operation and the release of the guard. -/
def ViewEffect.allowedBeforeSetup (e : ViewEffect) : Bool :=
  !e.isAnimatorOp && decide (e ≠ ViewEffect.unlock)

/-! ## The deferred setup -/

/-- A JavaScript number where `NaN` and the infinities matter: the results of
`parseInt` and `parseFloat` on the `maxSlideDistance` attribute. -/
inductive JSNumber where
  | finite (q : ℚ)
  | nan
  | infinity (negative : Bool)
deriving DecidableEq, Repr

/-- What `_normalizeMaxSlideDistanceAttr` can return: a number, or the
attribute string itself. -/
inductive JSValue where
  | number (n : JSNumber)
  | string (s : String)
deriving DecidableEq, Repr

/-- The call `s.replace('%', '')`: the first percent sign is removed. -/
def removeFirstPercent : List Char → List Char
  | [] => []
  | c :: rest => if c = '%' then rest else c :: removeFirstPercent rest

/-- The exponent part of a decimal literal, at the start of the given text:
`e` or `E`, a sign or none, and at least one digit; `0` when there is no such
part. -/
def exponentPart (r : List Char) : ℤ :=
  if r.head? = some 'e' ∨ r.head? = some 'E' then
    let t := r.tail
    let t2 := if t.head? = some '-' ∨ t.head? = some '+' then t.tail else t
    let ds := t2.takeWhile Char.isDigit
    if ds.isEmpty then 0
    else if t.head? = some '-' then -((digitsValue ds : ℕ) : ℤ)
    else ((digitsValue ds : ℕ) : ℤ)
  else 0

/-- The call `parseFloat(s)`: white space is skipped, a sign is read, then
`Infinity` or the longest decimal literal (digits, a fraction, an exponent);
`NaN` when there is neither.  The value is exact (no rounding, no overflow to
an infinity). -/
def parseFloatChars (s : List Char) : JSNumber :=
  let s1 := s.dropWhile isStrWhiteSpaceChar
  let negative := decide (s1.head? = some '-')
  let s2 := if s1.head? = some '-' ∨ s1.head? = some '+' then s1.tail else s1
  if s2.take 8 = ['I', 'n', 'f', 'i', 'n', 'i', 't', 'y'] then JSNumber.infinity negative
  else
    let intDigits := s2.takeWhile Char.isDigit
    let r1 := s2.dropWhile Char.isDigit
    let fracDigits := if r1.head? = some '.' then r1.tail.takeWhile Char.isDigit else []
    let r2 := if r1.head? = some '.' then r1.tail.dropWhile Char.isDigit else r1
    if intDigits.isEmpty && fracDigits.isEmpty then JSNumber.nan
    else
      let mantissa : ℚ :=
        ((digitsValue intDigits : ℕ) : ℚ) +
          ((digitsValue fracDigits : ℕ) : ℚ) / (10 : ℚ) ^ fracDigits.length
      let e := exponentPart r2
      let value : ℚ :=
        if 0 ≤ e then mantissa * (10 : ℚ) ^ e.toNat else mantissa / (10 : ℚ) ^ (-e).toNat
      JSNumber.finite (if negative then -value else value)

/-- The expression `n / 100 * clientWidth` on a number `n`. -/
def percentOf (n : JSNumber) (clientWidth : ℚ) : JSNumber :=
  match n with
  | JSNumber.finite q => JSNumber.finite (q / 100 * clientWidth)
  | JSNumber.nan => JSNumber.nan
  | JSNumber.infinity negative =>
    if clientWidth = 0 then JSNumber.nan
    else if 0 < clientWidth then JSNumber.infinity negative
    else JSNumber.infinity (!negative)

/-- Method `_normalizeMaxSlideDistanceAttr`, for the value of
`this._attrs.maxSlideDistance` (`none`: the attribute is not in `_attrs`) and
the width of the main page kept in the view.  The test
`indexOf('px', length - 2) !== -1` holds when the string ends in `px`, the
test `indexOf('%', length - 1) > 0` when it ends in a percent sign that is not
its first character; `Except.error` is a raised exception. -/
def SlidingMenuView._normalizeMaxSlideDistanceAttr (v : SlidingMenuView)
    (maxSlideDistance : Option AttrValue) : Except String JSValue :=
  match maxSlideDistance with
  | none => Except.ok (JSValue.number (JSNumber.finite (9 / 10 * v.clientWidth)))
  | some (AttrValue.string s) =>
    let cs := s.toList
    if cs.drop (cs.length - 2) = ['p', 'x'] then
      Except.ok (JSValue.number
        (match parseIntChars (removeFirstPx cs) with
         | some q => JSNumber.finite q
         | none => JSNumber.nan))
    else if cs.drop (cs.length - 1) = ['%'] ∧ 0 < cs.length - 1 then
      Except.ok (JSValue.number (percentOf (parseFloatChars (removeFirstPercent cs)) v.clientWidth))
    else Except.ok (JSValue.string s)
  | some _ => Except.error "invalid state"

/-- How a run of the deferred setup callback ends: it ran to its end, with
the animator it chose and the `width` it handed to `animator.setup`; or an
exception left it, with the view as it is then; or `setMaxDistance` was handed
a value that is not a finite number (`NaN`, an infinity, a string), which the
distance model of this development, holding rationals, does not cover. -/
inductive SetupOutcome where
  | completed (animator : AnimatorCopy) (width : String) (v : SlidingMenuView)
  | raised (message : String) (v : SlidingMenuView)
  | notFinite (value : JSValue)
deriving DecidableEq, Repr

/-- The value `this._attrs.maxSlideDistance || '90%'`, for an attribute that
is absent or a string. -/
def setupWidth : Option AttrValue → String
  | some (AttrValue.string s) => if s = "" then "90%" else s
  | _ => "90%"

/-- The function that `init` schedules with `setTimeout`:
`setMaxDistance(this._normalizeMaxSlideDistanceAttr())`, the opacity of the
menu page (not recorded), `this._animator = this._getAnimatorOption()`,
`this._animator.setup(...)` and, last, `unlock()` with the token taken in
`init`.  The arguments are the attributes `maxSlideDistance` and `type` and
the registry at the time the callback runs. -/
def SlidingMenuView.deferredSetup (v : SlidingMenuView) (maxSlideDistance : Option AttrValue)
    (dict : AnimatorDict) (type : Option String) : SetupOutcome :=
  match v._normalizeMaxSlideDistanceAttr maxSlideDistance with
  | Except.error e => SetupOutcome.raised e v
  | Except.ok (JSValue.number (JSNumber.finite maxDistance)) =>
    match v._logic.setMaxDistance maxDistance with
    | (logic, some e) => SetupOutcome.raised e { v with _logic := logic }
    | (logic, none) =>
      match _getAnimatorOption dict type with
      | none => SetupOutcome.raised "TypeError" { v with _logic := logic }
      | some animator =>
        SetupOutcome.completed animator (setupWidth maxSlideDistance)
          (SlidingMenuView.unlock { v with _logic := logic })
  | Except.ok value => SetupOutcome.notFinite value

/-! ## JavaScript values

The second half of the development repeats the program on JavaScript values:
numbers with `NaN` and the infinities, and strings.  The distance model above
holds finite numbers only; the one below holds whatever the code stores. -/

namespace JSNumber

/-- The comparison `a <= b` on numbers: false when either is `NaN`. -/
def le : JSNumber → JSNumber → Bool
  | JSNumber.finite p, JSNumber.finite q => decide (p ≤ q)
  | JSNumber.finite _, JSNumber.infinity negative => !negative
  | JSNumber.infinity negative, JSNumber.finite _ => negative
  | JSNumber.infinity negative, JSNumber.infinity negative2 => negative || !negative2
  | JSNumber.nan, _ => false
  | _, JSNumber.nan => false

/-- The comparison `a < b` on numbers: false when either is `NaN`. -/
def lt : JSNumber → JSNumber → Bool
  | JSNumber.finite p, JSNumber.finite q => decide (p < q)
  | JSNumber.finite _, JSNumber.infinity negative => !negative
  | JSNumber.infinity negative, JSNumber.finite _ => negative
  | JSNumber.infinity negative, JSNumber.infinity negative2 => negative && !negative2
  | JSNumber.nan, _ => false
  | _, JSNumber.nan => false

/-- The sum `a + b` of two numbers. -/
def add : JSNumber → JSNumber → JSNumber
  | JSNumber.finite p, JSNumber.finite q => JSNumber.finite (p + q)
  | JSNumber.finite _, JSNumber.infinity negative => JSNumber.infinity negative
  | JSNumber.infinity negative, JSNumber.finite _ => JSNumber.infinity negative
  | JSNumber.infinity negative, JSNumber.infinity negative2 =>
    if negative = negative2 then JSNumber.infinity negative else JSNumber.nan
  | JSNumber.nan, _ => JSNumber.nan
  | _, JSNumber.nan => JSNumber.nan

/-- The difference `a - 1`. -/
def pred : JSNumber → JSNumber
  | JSNumber.finite p => JSNumber.finite (p - 1)
  | JSNumber.infinity negative => JSNumber.infinity negative
  | JSNumber.nan => JSNumber.nan

/-- The quotient `a / 2`. -/
def half : JSNumber → JSNumber
  | JSNumber.finite p => JSNumber.finite (p / 2)
  | JSNumber.infinity negative => JSNumber.infinity negative
  | JSNumber.nan => JSNumber.nan

/-- The call `Math.min(a, b)` on numbers: `NaN` when either is `NaN`. -/
def min (a b : JSNumber) : JSNumber :=
  if a = JSNumber.nan ∨ b = JSNumber.nan then JSNumber.nan
  else if le a b then a else b

/-- The call `Math.max(a, b)` on numbers: `NaN` when either is `NaN`. -/
def max (a b : JSNumber) : JSNumber :=
  if a = JSNumber.nan ∨ b = JSNumber.nan then JSNumber.nan
  else if le a b then b else a

end JSNumber

/-- The value of a run of digits in the given radix (letters count from
ten, in either case). -/
def radixValue (radix : Nat) (ds : List Char) : Nat :=
  ds.foldl (fun acc c =>
    radix * acc +
      (if c.isDigit then c.toNat - 48
       else if c.isLower then c.toNat - 87
       else c.toNat - 55)) 0

/-- A digit of the given radix (at most sixteen). -/
def isRadixDigit (radix : Nat) (c : Char) : Bool :=
  (c.isDigit && decide (c.toNat - 48 < radix)) ||
  (decide (97 ≤ c.toNat) && decide (c.toNat - 87 < radix)) ||
  (decide (65 ≤ c.toNat) && decide (c.toNat ≤ 70) && decide (c.toNat - 55 < radix))

/-- What follows the exponent part of a decimal literal at the start of the
given text (the text itself when there is no such part). -/
def afterExponentPart (r : List Char) : List Char :=
  if r.head? = some 'e' ∨ r.head? = some 'E' then
    let t := r.tail
    let t2 := if t.head? = some '-' ∨ t.head? = some '+' then t.tail else t
    if (t2.takeWhile Char.isDigit).isEmpty then r else t2.dropWhile Char.isDigit
  else r

/-- What `parseFloat` leaves unread of a text without leading white space:
the part after the sign and after `Infinity` or the longest decimal literal;
the whole text when it starts with neither. -/
def afterFloat (s1 : List Char) : List Char :=
  let s2 := if s1.head? = some '-' ∨ s1.head? = some '+' then s1.tail else s1
  if s2.take 8 = ['I', 'n', 'f', 'i', 'n', 'i', 't', 'y'] then s2.drop 8
  else
    let intDigits := s2.takeWhile Char.isDigit
    let r1 := s2.dropWhile Char.isDigit
    let fracDigits := if r1.head? = some '.' then r1.tail.takeWhile Char.isDigit else []
    let r2 := if r1.head? = some '.' then r1.tail.dropWhile Char.isDigit else r1
    if intDigits.isEmpty && fracDigits.isEmpty then s1
    else afterExponentPart r2

/-- The conversion of a string to a number (`ToNumber`): white space at both
ends is dropped; the empty text is `0`; a text that is, as a whole, a signed
decimal literal or `Infinity`, or an unsigned literal with prefix `0x`, `0o`
or `0b`, has its value; every other text is `NaN`. -/
def stringToNumber (s : String) : JSNumber :=
  let cs := ((s.toList.dropWhile isStrWhiteSpaceChar).reverse.dropWhile
    isStrWhiteSpaceChar).reverse
  if cs = [] then JSNumber.finite 0
  else if cs.take 2 = ['0', 'x'] ∨ cs.take 2 = ['0', 'X'] then
    if (cs.drop 2) ≠ [] ∧ (cs.drop 2).all (isRadixDigit 16)
    then JSNumber.finite ((radixValue 16 (cs.drop 2) : ℕ) : ℚ) else JSNumber.nan
  else if cs.take 2 = ['0', 'o'] ∨ cs.take 2 = ['0', 'O'] then
    if (cs.drop 2) ≠ [] ∧ (cs.drop 2).all (isRadixDigit 8)
    then JSNumber.finite ((radixValue 8 (cs.drop 2) : ℕ) : ℚ) else JSNumber.nan
  else if cs.take 2 = ['0', 'b'] ∨ cs.take 2 = ['0', 'B'] then
    if (cs.drop 2) ≠ [] ∧ (cs.drop 2).all (isRadixDigit 2)
    then JSNumber.finite ((radixValue 2 (cs.drop 2) : ℕ) : ℚ) else JSNumber.nan
  else if afterFloat cs = [] then parseFloatChars cs
  else JSNumber.nan

/-- The digits of the fraction `q` (with `0 <= q < 1`), at most `n` of them,
without the zeros that would end the text. -/
def fractionDigits : Nat → ℚ → List Char
  | 0, _ => []
  | n + 1, q =>
    if q = 0 then []
    else Char.ofNat (48 + (Rat.floor (q * 10)).toNat) ::
      fractionDigits n (q * 10 - ((Rat.floor (q * 10) : ℤ) : ℚ))

/-- The conversion of a number to a string (`ToString`): exact for `NaN`, the
infinities and the integers below `10 ^ 21` in size.  For a number that is not
an integer the text is its decimal expansion, cut after twenty digits of the
fraction; the exponent forms are not produced. -/
def numberToString : JSNumber → String
  | JSNumber.nan => "NaN"
  | JSNumber.infinity negative => if negative then "-Infinity" else "Infinity"
  | JSNumber.finite q =>
    let a := |q|
    let whole := (Rat.floor a).toNat
    let fraction := fractionDigits 20 (a - (whole : ℚ))
    (if q < 0 then "-" else "") ++ toString whole ++
      (if fraction = [] then "" else "." ++ String.mk fraction)

/-- A value the distance model stores or is handed: a number or a string. -/
def JSValue.toNumber : JSValue → JSNumber
  | JSValue.number n => n
  | JSValue.string s => stringToNumber s

/-- The strict equality `a === b`. -/
def JSValue.strictEquals : JSValue → JSValue → Bool
  | JSValue.number (JSNumber.finite p), JSValue.number (JSNumber.finite q) => decide (p = q)
  | JSValue.number (JSNumber.infinity negative), JSValue.number (JSNumber.infinity negative2) =>
    decide (negative = negative2)
  | JSValue.string s, JSValue.string t => decide (s = t)
  | _, _ => false

/-- The operator `a + b` with a number on the left: the sum of two numbers,
the joined texts when the right operand is a string. -/
def JSValue.plus (a : JSNumber) : JSValue → JSValue
  | JSValue.number b => JSValue.number (JSNumber.add a b)
  | JSValue.string s => JSValue.string (numberToString a ++ s)

/-! ## The distance model on JavaScript values -/

namespace JS

/-- What `emit` publishes on the model: the event name with its payload; the
payload of `translate` holds the two fields of the model as they are. -/
inductive Signal where
  | close (options : Options)
  | «open» (options : Options)
  | translate (distance maxDistance : JSValue)
deriving DecidableEq, Repr

/-- An observable effect of a model operation. -/
inductive Effect where
  | emit (signal : Signal)
  | call (callback : Nat)
deriving DecidableEq, Repr

/-- Running `options.callback || function() {}`: a present callback is
invoked, an absent one is replaced by a function that does nothing. -/
def invokeCallback (options : Options) : List Effect :=
  match options.callback with
  | some c => [Effect.call c]
  | none => []

/-- The state of `SlidingMenuViewModel` with the values the code stores:
`_distance` and `_maxDistance` hold a number, `NaN` and the infinities
included, or a string. -/
structure SlidingMenuViewModel where
  _distance : JSValue
  _maxDistance : JSValue
deriving DecidableEq, Repr

namespace SlidingMenuViewModel

/-- Method `isClosed`: `this._distance === 0`. -/
def isClosed (m : SlidingMenuViewModel) : Bool :=
  m._distance.strictEquals (JSValue.number (JSNumber.finite 0))

/-- Method `isOpened`: `this._distance === this._maxDistance`. -/
def isOpened (m : SlidingMenuViewModel) : Bool :=
  m._distance.strictEquals m._maxDistance

/-- Method `setMaxDistance`: the model after the call, and the exception the
call raised, if any.  The call throws when `maxDistance <= 0`; otherwise it
re-snaps the distance when the model is opened and stores the new maximum. -/
def setMaxDistance (m : SlidingMenuViewModel) (maxDistance : JSValue) :
    SlidingMenuViewModel × Option String :=
  if JSNumber.le maxDistance.toNumber (JSNumber.finite 0) then
    (m, some "maxDistance must be greater then zero.")
  else
    let m1 : SlidingMenuViewModel :=
      if m.isOpened then { m with _distance := maxDistance } else m
    ({ m1 with _maxDistance := maxDistance }, none)

/-- Method `init`: the argument is `options.maxDistance`; a string stands for
every value whose type is not `number`.  The prototype has `_distance = 0`
and `_maxDistance` undefined, so `isOpened()` is false inside the first
`setMaxDistance` and the distance stays `0`. -/
def init (maxDistance : JSValue) : Except String SlidingMenuViewModel :=
  match maxDistance with
  | JSValue.string _ => Except.error "options.maxDistance must be number"
  | JSValue.number n =>
    if JSNumber.le n (JSNumber.finite 0) then
      Except.error "maxDistance must be greater then zero."
    else
      Except.ok { _distance := JSValue.number (JSNumber.finite 0),
                  _maxDistance := JSValue.number n }

/-- Method `shouldOpen`: `!this.isOpened() && this._distance >= this._maxDistance / 2`. -/
def shouldOpen (m : SlidingMenuViewModel) : Bool :=
  !m.isOpened && JSNumber.le (JSNumber.half m._maxDistance.toNumber) m._distance.toNumber

/-- Method `shouldClose`: `!this.isClosed() && this._distance < this._maxDistance / 2`. -/
def shouldClose (m : SlidingMenuViewModel) : Bool :=
  !m.isClosed && JSNumber.lt m._distance.toNumber (JSNumber.half m._maxDistance.toNumber)

/-- Method `close`: a model that is not closed gets distance `0` and emits
`close` with the options; a closed one only runs the callback. -/
def close (m : SlidingMenuViewModel) (options : Options) :
    SlidingMenuViewModel × List Effect :=
  if !m.isClosed then
    ({ m with _distance := JSValue.number (JSNumber.finite 0) },
     [Effect.emit (Signal.close options)])
  else
    (m, invokeCallback options)

/-- Method `open`: a model that is not opened gets distance `maxDistance` and
emits `open` with the options; an opened one only runs the callback. -/
def «open» (m : SlidingMenuViewModel) (options : Options) :
    SlidingMenuViewModel × List Effect :=
  if !m.isOpened then
    ({ m with _distance := m._maxDistance }, [Effect.emit (Signal.open options)])
  else
    (m, invokeCallback options)

/-- Method `getMaxDistance`. -/
def getMaxDistance (m : SlidingMenuViewModel) : JSValue := m._maxDistance

/-- Method `translate`: `Math.max(1, Math.min(this._maxDistance - 1, x))`,
with both operands of `Math.min` converted to numbers, then the `translate`
signal with the new distance and the maximum. -/
def translate (m : SlidingMenuViewModel) (x : JSValue) :
    SlidingMenuViewModel × List Effect :=
  let distance : JSNumber :=
    JSNumber.max (JSNumber.finite 1)
      (JSNumber.min (JSNumber.pred m._maxDistance.toNumber) x.toNumber)
  let m1 : SlidingMenuViewModel := { m with _distance := JSValue.number distance }
  (m1, [Effect.emit (Signal.translate m1._distance m1._maxDistance)])

end SlidingMenuViewModel

/-- An operation of the model, with the values a caller hands it. -/
inductive Op where
  | «open» (options : Options)
  | close (options : Options)
  | translate (x : JSValue)
  | setMaxDistance (maxDistance : JSValue)
deriving DecidableEq, Repr

/-- A number other than `NaN`. -/
def isNumeric : JSValue → Bool
  | JSValue.number JSNumber.nan => false
  | JSValue.number _ => true
  | JSValue.string _ => false

namespace SlidingMenuViewModel

/-- One operation on the model: the model afterwards, and the exception
raised, if any. -/
def step (m : SlidingMenuViewModel) : Op → SlidingMenuViewModel × Option String
  | Op.open options => ((m.open options).1, none)
  | Op.close options => ((m.close options).1, none)
  | Op.translate x => ((m.translate x).1, none)
  | Op.setMaxDistance maxDistance => m.setMaxDistance maxDistance

/-- A sequence of operations, stopping at the first one that raises. -/
def run (m : SlidingMenuViewModel) : List Op → SlidingMenuViewModel × Option String
  | [] => (m, none)
  | op :: ops =>
    match m.step op with
    | (m1, none) => run m1 ops
    | (m1, some e) => (m1, some e)

/-- Every argument of `translate` and `setMaxDistance` in the sequence is a
number other than `NaN`. -/
def numericArgs : List Op → Bool
  | [] => true
  | Op.translate x :: ops => isNumeric x && numericArgs ops
  | Op.setMaxDistance maxDistance :: ops => isNumeric maxDistance && numericArgs ops
  | _ :: ops => numericArgs ops

/-- The condition under which the range of the distance is kept by a
sequence: the maximum never drops below `1`, and it is changed only while the
model is opened or to a value that is not below the current distance. -/
def keepsRange (m : SlidingMenuViewModel) : List Op → Bool
  | [] => true
  | op :: ops =>
    (match op with
     | Op.setMaxDistance maxDistance =>
       JSNumber.le (JSNumber.finite 1) maxDistance.toNumber &&
         (m.isOpened || JSNumber.le m._distance.toNumber maxDistance.toNumber)
     | _ => true) &&
    keepsRange (m.step op).1 ops

end SlidingMenuViewModel

end JS

/-- A state of the model on finite numbers, as a state of the model on
JavaScript values. -/
def SlidingMenuViewModel.toJS (m : SlidingMenuViewModel) : JS.SlidingMenuViewModel :=
  { _distance := JSValue.number (JSNumber.finite m._distance),
    _maxDistance := JSValue.number (JSNumber.finite m._maxDistance) }

/-- An effect of the model on finite numbers, as an effect of the model on
JavaScript values. -/
def Effect.toJS : Effect → JS.Effect
  | Effect.emit (Signal.close options) => JS.Effect.emit (JS.Signal.close options)
  | Effect.emit (Signal.open options) => JS.Effect.emit (JS.Signal.open options)
  | Effect.emit (Signal.translate distance maxDistance) =>
    JS.Effect.emit (JS.Signal.translate (JSValue.number (JSNumber.finite distance))
      (JSValue.number (JSNumber.finite maxDistance)))
  | Effect.call c => JS.Effect.call c

/-! ## The view on JavaScript values -/

namespace JS

/-- What the view does to its collaborators, in order of execution; `setup`
is the call `animator.setup(...)` of the deferred setup, with the animator
chosen and the options `isRight` and `width`. -/
inductive ViewEffect where
  | emit (name : String)
  | lock
  | unlock
  | openMenu (instant : Bool)
  | closeMenu (instant : Bool)
  | translateMenu (distance maxDistance : JSValue)
  | done (kind : Transition)
  | tapOn
  | tapOff
  | call (callback : Nat)
  | stopDetect
  | preventDefault
  | setup (animator : AnimatorCopy) (isRight : Bool) (width : String)
deriving DecidableEq, Repr

/-- The state of `SlidingMenuView` together with its collaborators, with the
distance model on JavaScript values: `running` holds the completion callbacks
the animator has been given and has not invoked yet, `tapBound` tells whether
`_bindedCloseMenu` listens for `tap` on the main page, `clientWidth` is
`_mainPage[0].clientWidth`. -/
structure SlidingMenuView where
  _logic : SlidingMenuViewModel
  _doorLock : DoorLock
  _isRightMenu : Bool
  _lastDistance : Option ℚ
  swipeTargetWidth : AttrValue
  clientWidth : ℚ
  running : List Completion
  tapBound : Bool
  trace : List ViewEffect
deriving DecidableEq, Repr

namespace SlidingMenuView

/-- Append effects to the trace. -/
def log (v : SlidingMenuView) (es : List ViewEffect) : SlidingMenuView :=
  { v with trace := v.trace ++ es }

/-- Modelled from the spec: `DoorLock.lock()` (section 4.3), which takes the
guard; the unlock token it returns is the `unlock` below. -/
def lock (v : SlidingMenuView) : SlidingMenuView :=
  { v with _doorLock := { v._doorLock with locked := true },
           trace := v.trace ++ [ViewEffect.lock] }

/-- Method `_close`: take the guard and hand the animator `closeMenu` with the
completion callback. -/
def _close (v : SlidingMenuView) (options : Options) : SlidingMenuView :=
  let v1 := v.lock
  let instant := decide (options.animation = some "none")
  { v1 with running := v1.running ++ [{ kind := Transition.closing, options := options }],
            trace := v1.trace ++ [ViewEffect.closeMenu instant] }

/-- Method `_open`: take the guard and hand the animator `openMenu` with the
completion callback. -/
def _open (v : SlidingMenuView) (options : Options) : SlidingMenuView :=
  let v1 := v.lock
  let instant := decide (options.animation = some "none")
  { v1 with running := v1.running ++ [{ kind := Transition.opening, options := options }],
            trace := v1.trace ++ [ViewEffect.openMenu instant] }

/-- Method `_translate`: forward the payload to `animator.translateMenu`. -/
def _translate (v : SlidingMenuView) (distance maxDistance : JSValue) : SlidingMenuView :=
  v.log [ViewEffect.translateMenu distance maxDistance]

/-- The listeners installed on the model in `init`: `translate` goes to
`_translate`, `open` to `_open`, `close` to `_close`; a callback invoked by
the model is recorded. -/
def listen (v : SlidingMenuView) : Effect → SlidingMenuView
  | Effect.emit (Signal.close options) => v._close options
  | Effect.emit (Signal.open options) => v._open options
  | Effect.emit (Signal.translate distance maxDistance) => v._translate distance maxDistance
  | Effect.call c => v.log [ViewEffect.call c]

/-- Store the outcome of a model operation and run the listeners on what it
emitted. -/
def afterLogic (v : SlidingMenuView) (r : SlidingMenuViewModel × List Effect) :
    SlidingMenuView :=
  r.2.foldl listen { v with _logic := r.1 }

/-- Run a function that was handed to `waitUnlock`. -/
def runWaiter (v : SlidingMenuView) : Waiter → SlidingMenuView
  | Waiter.close options => v.afterLogic (v._logic.close options)
  | Waiter.open options => v.afterLogic (v._logic.open options)

/-- Modelled from the spec: `DoorLock.waitUnlock(fn)` (section 4.3): "if
unlocked, invokes `fn` immediately; if locked, enqueues `fn`". -/
def waitUnlock (v : SlidingMenuView) (w : Waiter) : SlidingMenuView :=
  if v._doorLock.locked then
    { v with _doorLock := { v._doorLock with waitList := v._doorLock.waitList ++ [w] } }
  else
    v.runWaiter w

/-- Modelled from the spec: the draining of the wait queue on release
(section 4.3): while the guard is free and a waiter is queued, the oldest
waiter is removed and run; the first argument bounds the number of waiters
run. -/
def drain : Nat → SlidingMenuView → SlidingMenuView
  | 0, v => v
  | n + 1, v =>
    if v._doorLock.locked then v
    else
      match v._doorLock.waitList with
      | [] => v
      | w :: rest =>
        drain n (runWaiter { v with _doorLock := { v._doorLock with waitList := rest } } w)

/-- Modelled from the spec: the unlock token returned by `lock()` (section
4.3): "transitions to unlocked and drains" the queue, one waiter or all of
them according to `drainAll`. -/
def unlock (v : SlidingMenuView) : SlidingMenuView :=
  let v1 : SlidingMenuView :=
    { v with _doorLock := { v._doorLock with locked := false },
             trace := v.trace ++ [ViewEffect.unlock] }
  drain (if v1._doorLock.drainAll then v1._doorLock.waitList.length else 1) v1

/-- View `close`. -/
def close (v : SlidingMenuView) (arg : OptionsArg) : SlidingMenuView :=
  let options := normalizeOptions arg
  let v1 : SlidingMenuView :=
    { v with tapBound := false,
             trace := v.trace ++ [ViewEffect.tapOff, ViewEffect.emit "preclose"] }
  v1.waitUnlock (Waiter.close options)

/-- View `open`. -/
def «open» (v : SlidingMenuView) (arg : OptionsArg) : SlidingMenuView :=
  let options := normalizeOptions arg
  let v1 := v.log [ViewEffect.emit "preopen"]
  v1.waitUnlock (Waiter.open options)

/-- View `toggle`. -/
def toggle (v : SlidingMenuView) (arg : OptionsArg) : SlidingMenuView :=
  if v._logic.isClosed then v.open arg else v.close arg

/-- The callback `_callback = options.callback || function() {}` of a
completion, as a view effect. -/
def callbackEffects (options : Options) : List ViewEffect :=
  match options.callback with
  | some c => [ViewEffect.call c]
  | none => []

/-- The animator invokes the completion callback it holds at position `i`
(nothing happens when there is none).  For `_open`: `unlock()`, then the tap
listener, `postopen` and the callback; for `_close`: `unlock()`, `postclose`
and the callback. -/
def animationDone (v : SlidingMenuView) (i : Nat) : SlidingMenuView :=
  match v.running.get? i with
  | none => v
  | some c =>
    let v1 : SlidingMenuView :=
      { v with running := v.running.eraseIdx i,
               trace := v.trace ++ [ViewEffect.done c.kind] }
    let v2 := v1.unlock
    match c.kind with
    | Transition.opening =>
      { v2 with tapBound := true,
                trace := v2.trace ++
                  ([ViewEffect.tapOn, ViewEffect.emit "postopen"] ++ callbackEffects c.options) }
    | Transition.closing =>
      { v2 with trace := v2.trace ++
                  ([ViewEffect.emit "postclose"] ++ callbackEffects c.options) }

/-- Method `_getSwipeTargetWidth`; `none` is `NaN`. -/
def _getSwipeTargetWidth (v : SlidingMenuView) : Option ℚ :=
  match v.swipeTargetWidth with
  | AttrValue.undefined => some v.clientWidth
  | AttrValue.number q =>
    let width := parseIntNumber q
    if width < 0 ∨ q = 0 then some v.clientWidth else some width
  | AttrValue.string s =>
    let targetWidth := removeFirstPx s.toList
    match parseIntChars targetWidth with
    | some width =>
      if width < 0 ∨ targetWidth = [] then some v.clientWidth else some width
    | none =>
      if targetWidth = [] then some v.clientWidth else none

/-- Method `_isInsideSwipeTargetArea`: the answer and the start event with the
width cached on it.  A comparison with `NaN` is false. -/
def _isInsideSwipeTargetArea (v : SlidingMenuView) (event : Event) : Bool × StartEvent :=
  let x := event.gesture.pageX
  let startEvent : StartEvent :=
    match event.gesture.startEvent._swipeTargetWidth with
    | some _ => event.gesture.startEvent
    | none => { event.gesture.startEvent with _swipeTargetWidth := some v._getSwipeTargetWidth }
  match startEvent._swipeTargetWidth with
  | some (some targetWidth) =>
    (if v._isRightMenu then decide (v.clientWidth - x < targetWidth)
     else decide (x < targetWidth), startEvent)
  | _ => (false, startEvent)

/-- Method `_handleEvent`: the view afterwards, and `event.gesture.startEvent`
afterwards.  In the drag branch `deltaDistance + this._logic.getMaxDistance()`
is the operator `+` of the language: a sum when the maximum is a number, a
joined text when it is a string. -/
def _handleEvent (v : SlidingMenuView) (event : Event) : SlidingMenuView × StartEvent :=
  if v._doorLock.locked then (v, event.gesture.startEvent)
  else
    let v1 := if SlidingMenu.SlidingMenuView._isInsideIgnoredElement event.target
      then v.log [ViewEffect.stopDetect] else v
    match event.type with
    | EventType.touch =>
      if v1._logic.isClosed then
        let r := v1._isInsideSwipeTargetArea event
        (if !r.1 then v1.log [ViewEffect.stopDetect] else v1, r.2)
      else (v1, event.gesture.startEvent)
    | EventType.dragleft | EventType.dragright =>
      let v2 := v1.log [ViewEffect.preventDefault]
      let deltaX := event.gesture.deltaX
      let deltaDistance := if v2._isRightMenu then -deltaX else deltaX
      let startEvent : StartEvent :=
        match event.gesture.startEvent.isOpened with
        | some _ => event.gesture.startEvent
        | none => { event.gesture.startEvent with isOpened := some v2._logic.isOpened }
      if deltaDistance < 0 ∧ v2._logic.isClosed = true then (v2, startEvent)
      else if deltaDistance > 0 ∧ v2._logic.isOpened = true then (v2, startEvent)
      else
        let distance :=
          if startEvent.isOpened = some true then
            JSValue.plus (JSNumber.finite deltaDistance) v2._logic.getMaxDistance
          else JSValue.number (JSNumber.finite deltaDistance)
        (v2.afterLogic (v2._logic.translate distance), startEvent)
    | EventType.swipeleft =>
      let v2 := v1.log [ViewEffect.preventDefault]
      let v3 := if v2._isRightMenu then v2.open OptionsArg.undefined
                else v2.close OptionsArg.undefined
      (v3.log [ViewEffect.stopDetect], event.gesture.startEvent)
    | EventType.swiperight =>
      let v2 := v1.log [ViewEffect.preventDefault]
      let v3 := if v2._isRightMenu then v2.close OptionsArg.undefined
                else v2.open OptionsArg.undefined
      (v3.log [ViewEffect.stopDetect], event.gesture.startEvent)
    | EventType.release =>
      let v2 : SlidingMenuView := { v1 with _lastDistance := none }
      (if v2._logic.shouldOpen then v2.open OptionsArg.undefined
       else if v2._logic.shouldClose then v2.close OptionsArg.undefined
       else v2, event.gesture.startEvent)

/-- Method `_normalizeMaxSlideDistanceAttr`, for the value of
`this._attrs.maxSlideDistance` (`none`: the attribute is not in `_attrs`) and
the width of the main page.  The test `indexOf('px', length - 2) !== -1` holds
when the string ends in `px`, the test `indexOf('%', length - 1) > 0` when it
ends in a percent sign that is not its first character; `Except.error` is a
raised exception. -/
def _normalizeMaxSlideDistanceAttr (clientWidth : ℚ)
    (maxSlideDistance : Option AttrValue) : Except String JSValue :=
  match maxSlideDistance with
  | none => Except.ok (JSValue.number (JSNumber.finite (9 / 10 * clientWidth)))
  | some (AttrValue.string s) =>
    let cs := s.toList
    if cs.drop (cs.length - 2) = ['p', 'x'] then
      Except.ok (JSValue.number
        (match parseIntChars (removeFirstPx cs) with
         | some q => JSNumber.finite q
         | none => JSNumber.nan))
    else if cs.drop (cs.length - 1) = ['%'] ∧ 0 < cs.length - 1 then
      Except.ok (JSValue.number (percentOf (parseFloatChars (removeFirstPercent cs)) clientWidth))
    else Except.ok (JSValue.string s)
  | some _ => Except.error "invalid state"

/-- Method `init` of the view, up to the point where the deferred setup is
scheduled with `setTimeout`.  The arguments are `attrs.side`,
`attrs.swipeTargetWidth`, `attrs.maxSlideDistance`, the width of the main page
and the way the guard drains its queue.  The model is built with
`Math.max(maxDistance, 1)`, and the last act is `this._doorLock.lock()`;
`Except.error` is an exception raised by the constructor. -/
def init (side swipeTargetWidth : AttrValue) (maxSlideDistance : Option AttrValue)
    (clientWidth : ℚ) (drainAll : Bool) : Except String SlidingMenuView :=
  match _normalizeMaxSlideDistanceAttr clientWidth maxSlideDistance with
  | Except.error e => Except.error e
  | Except.ok maxDistance =>
    match SlidingMenuViewModel.init
        (JSValue.number (JSNumber.max maxDistance.toNumber (JSNumber.finite 1))) with
    | Except.error e => Except.error e
    | Except.ok logic =>
      Except.ok (lock
        { _logic := logic,
          _doorLock := { locked := false, waitList := [], drainAll := drainAll },
          _isRightMenu := decide (side = AttrValue.string "right"),
          _lastDistance := none,
          swipeTargetWidth := swipeTargetWidth,
          clientWidth := clientWidth,
          running := [],
          tapBound := false,
          trace := [] })

end SlidingMenuView

/-- How a run of the deferred setup callback ends: it ran to its end, or an
exception left it; in both cases with the view as it is then. -/
inductive SetupOutcome where
  | completed (v : SlidingMenuView)
  | raised (message : String) (v : SlidingMenuView)
deriving DecidableEq, Repr

/-- The function that `init` schedules with `setTimeout`:
`setMaxDistance(this._normalizeMaxSlideDistanceAttr())`, the opacity of the
menu page (not recorded), `this._animator = this._getAnimatorOption()`,
`this._animator.setup(...)` and, last, `unlock()` with the token taken in
`init`.  The arguments are the attributes `maxSlideDistance` and `type` and
the registry at the time the callback runs. -/
def SlidingMenuView.deferredSetup (v : SlidingMenuView) (maxSlideDistance : Option AttrValue)
    (dict : AnimatorDict) (type : Option String) : SetupOutcome :=
  match SlidingMenuView._normalizeMaxSlideDistanceAttr v.clientWidth maxSlideDistance with
  | Except.error e => SetupOutcome.raised e v
  | Except.ok maxDistance =>
    match v._logic.setMaxDistance maxDistance with
    | (logic, some e) => SetupOutcome.raised e { v with _logic := logic }
    | (logic, none) =>
      match _getAnimatorOption dict type with
      | none => SetupOutcome.raised "TypeError" { v with _logic := logic }
      | some animator =>
        SetupOutcome.completed
          (SlidingMenuView.unlock
            { v with _logic := logic,
                     trace := v.trace ++
                       [ViewEffect.setup animator v._isRightMenu
                         (setupWidth maxSlideDistance)] })

/-- One delivery to the view from outside: a gesture event, or a call of
`open`, `close` or `toggle`. -/
def SlidingMenuView.deliver (v : SlidingMenuView) : Call → SlidingMenuView
  | Call.event e => (v._handleEvent e).1
  | Call.open arg => v.open arg
  | Call.close arg => v.close arg
  | Call.toggle arg => v.toggle arg

/-- A sequence of deliveries, in order. -/
def SlidingMenuView.deliverAll (v : SlidingMenuView) (calls : List Call) : SlidingMenuView :=
  calls.foldl SlidingMenuView.deliver v

/-- The animator operations that move the menu. -/
def ViewEffect.isAnimatorOp : ViewEffect → Bool
  | ViewEffect.openMenu _ => true
  | ViewEffect.closeMenu _ => true
  | ViewEffect.translateMenu _ _ => true
  | _ => false

/-- Effects that are possible while the view waits for its deferred setup:
anything but an animator operation, the release of the guard and the call
`animator.setup(...)` itself. -/
def ViewEffect.allowedBeforeSetup : ViewEffect → Bool
  | ViewEffect.unlock => false
  | ViewEffect.setup _ _ _ => false
  | e => !e.isAnimatorOp

/-- Reading a trace from the left, with the flag telling whether
`animator.setup` has been called: an animator operation met while it has not
is a violation. -/
def setupFirst : Bool → List ViewEffect → Bool
  | _, [] => true
  | _, ViewEffect.setup _ _ _ :: rest => setupFirst true rest
  | seen, e :: rest => (seen || !e.isAnimatorOp) && setupFirst seen rest

end JS

end SlidingMenu

/-! ## Theorems: the distance model -/

namespace SlidingMenu

theorem step_pos (m m1 : SlidingMenuViewModel) (op : Op)
    (hmax : 0 < m._maxDistance) (hd : 0 ≤ m._distance)
    (h : m.step op = (m1, none)) : 0 < m1._maxDistance ∧ 0 ≤ m1._distance := by
  cases op with
  | «open» o =>
    simp only [SlidingMenuViewModel.step, SlidingMenuViewModel.open, Prod.mk.injEq,
      and_true] at h
    subst h
    split <;> simp [hmax, hd, le_of_lt hmax]
  | close o =>
    simp only [SlidingMenuViewModel.step, SlidingMenuViewModel.close, Prod.mk.injEq,
      and_true] at h
    subst h
    split <;> simp [hmax, hd]
  | translate x =>
    simp only [SlidingMenuViewModel.step, SlidingMenuViewModel.translate, Prod.mk.injEq,
      and_true] at h
    subst h
    exact ⟨hmax, le_trans (by norm_num) (le_max_left _ _)⟩
  | setMaxDistance x =>
    simp only [SlidingMenuViewModel.step, SlidingMenuViewModel.setMaxDistance] at h
    split at h
    · simp at h
    · rename_i hx
      simp only [Prod.mk.injEq, and_true] at h
      subst h
      have hx' : 0 < x := lt_of_not_ge hx
      split <;> simp [hx', hd, le_of_lt hx']

theorem run_pos (ops : List Op) (m m1 : SlidingMenuViewModel)
    (hmax : 0 < m._maxDistance) (hd : 0 ≤ m._distance)
    (h : m.run ops = (m1, none)) : 0 < m1._maxDistance ∧ 0 ≤ m1._distance := by
  induction ops generalizing m with
  | nil =>
    simp only [SlidingMenuViewModel.run, Prod.mk.injEq, and_true] at h
    subst h
    exact ⟨hmax, hd⟩
  | cons op ops ih =>
    simp only [SlidingMenuViewModel.run] at h
    rcases hs : m.step op with ⟨m2, _ | e⟩
    · rw [hs] at h
      have h2 := step_pos m m2 op hmax hd hs
      exact ih m2 h2.1 h2.2 h
    · rw [hs] at h
      simp at h

theorem init_pos (md : ℚ) (m : SlidingMenuViewModel)
    (h : SlidingMenuViewModel.init (some md) = Except.ok m) :
    m._distance = 0 ∧ m._maxDistance = md ∧ 0 < md := by
  simp only [SlidingMenuViewModel.init] at h
  split at h
  · simp at h
  · rename_i hx
    simp only [Except.ok.injEq] at h
    subst h
    exact ⟨rfl, rfl, lt_of_not_ge hx⟩

theorem step_range (m m1 : SlidingMenuViewModel) (op : Op)
    (hmax : 1 ≤ m._maxDistance) (hd : 0 ≤ m._distance) (hle : m._distance ≤ m._maxDistance)
    (hk : m.keepsRange [op] = true)
    (h : m.step op = (m1, none)) :
    1 ≤ m1._maxDistance ∧ 0 ≤ m1._distance ∧ m1._distance ≤ m1._maxDistance := by
  cases op with
  | «open» o =>
    simp only [SlidingMenuViewModel.step, SlidingMenuViewModel.open, Prod.mk.injEq,
      and_true] at h
    subst h
    split
    · exact ⟨hmax, le_trans (by norm_num) hmax, le_refl _⟩
    · exact ⟨hmax, hd, hle⟩
  | close o =>
    simp only [SlidingMenuViewModel.step, SlidingMenuViewModel.close, Prod.mk.injEq,
      and_true] at h
    subst h
    split
    · exact ⟨hmax, le_refl _, le_trans (by norm_num) hmax⟩
    · exact ⟨hmax, hd, hle⟩
  | translate x =>
    simp only [SlidingMenuViewModel.step, SlidingMenuViewModel.translate, Prod.mk.injEq,
      and_true] at h
    subst h
    refine ⟨hmax, le_trans (by norm_num) (le_max_left _ _), ?_⟩
    apply max_le hmax
    exact le_trans (min_le_left _ _) (by linarith)
  | setMaxDistance x =>
    simp only [SlidingMenuViewModel.keepsRange, Bool.and_true, Bool.and_eq_true,
      Bool.or_eq_true, decide_eq_true_eq] at hk
    simp only [SlidingMenuViewModel.step, SlidingMenuViewModel.setMaxDistance] at h
    split at h
    · simp at h
    · simp only [Prod.mk.injEq, and_true] at h
      subst h
      have hx0 : (0 : ℚ) ≤ x := le_trans (by norm_num) hk.1
      rcases hk.2 with ho | hdx
      · simp [ho, hk.1, hx0]
      · by_cases ho : m.isOpened = true
        · simp [ho, hk.1, hx0]
        · simp [ho, hk.1, hd, hdx]

theorem run_range (ops : List Op) (m m1 : SlidingMenuViewModel) (n : Nat)
    (hmax : 1 ≤ m._maxDistance) (hd : 0 ≤ m._distance) (hle : m._distance ≤ m._maxDistance)
    (hk : m.keepsRange ops = true)
    (h : m.run (ops.take n) = (m1, none)) :
    1 ≤ m1._maxDistance ∧ 0 ≤ m1._distance ∧ m1._distance ≤ m1._maxDistance := by
  induction ops generalizing m n with
  | nil =>
    simp only [List.take_nil, SlidingMenuViewModel.run, Prod.mk.injEq, and_true] at h
    subst h
    exact ⟨hmax, hd, hle⟩
  | cons op ops ih =>
    cases n with
    | zero =>
      simp only [List.take_zero, SlidingMenuViewModel.run, Prod.mk.injEq, and_true] at h
      subst h
      exact ⟨hmax, hd, hle⟩
    | succ n =>
      simp only [List.take_succ_cons, SlidingMenuViewModel.run] at h
      simp only [SlidingMenuViewModel.keepsRange, Bool.and_eq_true] at hk
      rcases hs : m.step op with ⟨m2, _ | e⟩
      · rw [hs] at h hk
        have hk1 : m.keepsRange [op] = true := by
          simp only [SlidingMenuViewModel.keepsRange, Bool.and_true]
          exact hk.1
        have h2 := step_range m m2 op hmax hd hle hk1 hs
        exact ih m2 n h2.1 h2.2.1 h2.2.2 hk.2 h
      · rw [hs] at h
        simp at h

/-- C3 (as amended): for a model with `maxDistance >= 2` and every `x`,
`translate(x)` sets the distance to a value in `[1, maxDistance - 1]` (`x`
itself when it lies in that range, `1` when below, `maxDistance - 1` when
above), leaves `maxDistance` as it is, so that neither `isOpened()` nor
`isClosed()` holds afterwards, and emits exactly one `translate` signal
carrying the new distance and `maxDistance`. -/
theorem translate_clamps (m : SlidingMenuViewModel) (x : ℚ) (h : 2 ≤ m._maxDistance) :
    1 ≤ (m.translate x).1._distance ∧
    (m.translate x).1._distance ≤ m._maxDistance - 1 ∧
    (1 ≤ x → x ≤ m._maxDistance - 1 → (m.translate x).1._distance = x) ∧
    (x < 1 → (m.translate x).1._distance = 1) ∧
    (m._maxDistance - 1 < x → (m.translate x).1._distance = m._maxDistance - 1) ∧
    (m.translate x).1._maxDistance = m._maxDistance ∧
    (m.translate x).1.isOpened = false ∧
    (m.translate x).1.isClosed = false ∧
    (m.translate x).2 =
      [Effect.emit (Signal.translate (m.translate x).1._distance m._maxDistance)] := by
  have h1 : (1 : ℚ) ≤ m._maxDistance - 1 := by linarith
  have hlo : 1 ≤ max 1 (min (m._maxDistance - 1) x) := le_max_left _ _
  have hhi : max 1 (min (m._maxDistance - 1) x) ≤ m._maxDistance - 1 :=
    max_le h1 (min_le_left _ _)
  refine ⟨hlo, hhi, ?_, ?_, ?_, rfl, ?_, ?_, rfl⟩
  · intro hx1 hx2
    show max 1 (min (m._maxDistance - 1) x) = x
    rw [min_eq_right hx2, max_eq_right hx1]
  · intro hx
    show max 1 (min (m._maxDistance - 1) x) = 1
    exact max_eq_left (le_trans (min_le_right _ _) (le_of_lt hx))
  · intro hx
    show max 1 (min (m._maxDistance - 1) x) = m._maxDistance - 1
    rw [min_eq_left (le_of_lt hx), max_eq_right h1]
  · show decide (max 1 (min (m._maxDistance - 1) x) = m._maxDistance) = false
    simp only [decide_eq_false_iff_not]
    intro he
    rw [he] at hhi
    linarith
  · show decide (max 1 (min (m._maxDistance - 1) x) = 0) = false
    simp only [decide_eq_false_iff_not]
    intro he
    rw [he] at hlo
    linarith

/-- C3 witness: with `maxDistance = 200`, `translate(-100)` gives distance `1`
and `translate(500)` gives distance `199`. -/
theorem translate_clamps_witness :
    (SlidingMenuViewModel.translate ⟨0, 200⟩ (-100)).1._distance = 1 ∧
    (SlidingMenuViewModel.translate ⟨0, 200⟩ 500).1._distance = 199 := by
  have h1 := (translate_clamps ⟨0, 200⟩ (-100) (by norm_num)).2.2.2.1 (by norm_num)
  have h2 := (translate_clamps ⟨0, 200⟩ 500 (by norm_num)).2.2.2.2.1 (by norm_num)
  refine ⟨h1, ?_⟩
  rw [h2]
  norm_num

/-- C3 counterexample: with `maxDistance = 1`, `translate(0)` sets the
distance to `1`, which is above `maxDistance - 1 = 0`, and `isOpened()` holds
afterwards. -/
theorem translate_clamps_counterexample :
    (0 : ℚ) < (⟨0, 1⟩ : SlidingMenuViewModel)._maxDistance ∧
    (SlidingMenuViewModel.translate ⟨0, 1⟩ 0).1._distance = 1 ∧
    ¬ ((SlidingMenuViewModel.translate ⟨0, 1⟩ 0).1._distance
        ≤ (⟨0, 1⟩ : SlidingMenuViewModel)._maxDistance - 1) ∧
    (SlidingMenuViewModel.translate ⟨0, 1⟩ 0).1.isOpened = true := by
  norm_num [SlidingMenuViewModel.translate, SlidingMenuViewModel.isOpened]

theorem open_of_opened (m : SlidingMenuViewModel) (options : Options)
    (h : m.isOpened = true) : m.open options = (m, invokeCallback options) := by
  simp [SlidingMenuViewModel.open, h]

theorem open_of_not_opened (m : SlidingMenuViewModel) (options : Options)
    (h : m.isOpened = false) :
    m.open options =
      ({ m with _distance := m._maxDistance }, [Effect.emit (Signal.open options)]) := by
  simp [SlidingMenuViewModel.open, h]

theorem close_of_closed (m : SlidingMenuViewModel) (options : Options)
    (h : m.isClosed = true) : m.close options = (m, invokeCallback options) := by
  simp [SlidingMenuViewModel.close, h]

theorem close_of_not_closed (m : SlidingMenuViewModel) (options : Options)
    (h : m.isClosed = false) :
    m.close options = ({ m with _distance := 0 }, [Effect.emit (Signal.close options)]) := by
  simp [SlidingMenuViewModel.close, h]

/-- C4: on a model for which `isOpened()` holds, `open(options)` leaves the
model as it is (distance and maxDistance) and its only effect is the
invocation of the callback: exactly one call of `options.callback` when there
is one, and no signal; the same holds for `close(options)` on a model for
which `isClosed()` holds. -/
theorem open_opened_close_closed (m : SlidingMenuViewModel) (options : Options) :
    (m.isOpened = true →
      m.open options = (m, invokeCallback options)) ∧
    (m.isClosed = true →
      m.close options = (m, invokeCallback options)) ∧
    (∀ c, options.callback = some c → invokeCallback options = [Effect.call c]) ∧
    (options.callback = none → invokeCallback options = []) ∧
    (∀ signal, Effect.emit signal ∉ invokeCallback options) := by
  refine ⟨?_, ?_, ?_, ?_, ?_⟩
  · exact open_of_opened m options
  · exact close_of_closed m options
  · intro c h
    simp [invokeCallback, h]
  · intro h
    simp [invokeCallback, h]
  · intro signal
    unfold invokeCallback
    split <;> simp

/-- C4 witness: an opened model (`200` of `200`) opened again and a closed
model closed again, with callback `7`. -/
theorem open_opened_close_closed_witness :
    SlidingMenuViewModel.open ⟨200, 200⟩ ⟨some 7, none⟩ = (⟨200, 200⟩, [Effect.call 7]) ∧
    SlidingMenuViewModel.close ⟨0, 200⟩ ⟨some 7, none⟩ = (⟨0, 200⟩, [Effect.call 7]) := by
  have h1 := open_opened_close_closed ⟨200, 200⟩ ⟨some 7, none⟩
  have h2 := open_opened_close_closed ⟨0, 200⟩ ⟨some 7, none⟩
  have hc := h1.2.2.1 7 rfl
  refine ⟨?_, ?_⟩
  · rw [h1.1 (by simp [SlidingMenuViewModel.isOpened]), hc]
  · rw [h2.2.1 (by simp [SlidingMenuViewModel.isClosed]), hc]

theorem shouldOpen_iff (m : SlidingMenuViewModel) :
    m.shouldOpen = true ↔
      m._distance ≥ m._maxDistance / 2 ∧ m._distance ≠ m._maxDistance := by
  simp only [SlidingMenuViewModel.shouldOpen, SlidingMenuViewModel.isOpened,
    Bool.and_eq_true, Bool.not_eq_true', decide_eq_false_iff_not, decide_eq_true_eq]
  exact and_comm

theorem shouldClose_iff (m : SlidingMenuViewModel) :
    m.shouldClose = true ↔ m._distance < m._maxDistance / 2 ∧ m._distance ≠ 0 := by
  simp only [SlidingMenuViewModel.shouldClose, SlidingMenuViewModel.isClosed,
    Bool.and_eq_true, Bool.not_eq_true', decide_eq_false_iff_not, decide_eq_true_eq]
  exact and_comm

/-- C6: `shouldOpen()` holds if and only if `distance >= maxDistance / 2` and
`distance != maxDistance`; `shouldClose()` holds if and only if
`distance < maxDistance / 2` and `distance != 0`; the two never hold
together. -/
theorem shouldOpen_shouldClose (m : SlidingMenuViewModel) :
    (m.shouldOpen = true ↔ m._distance ≥ m._maxDistance / 2 ∧ m._distance ≠ m._maxDistance) ∧
    (m.shouldClose = true ↔ m._distance < m._maxDistance / 2 ∧ m._distance ≠ 0) ∧
    ¬ (m.shouldOpen = true ∧ m.shouldClose = true) := by
  refine ⟨shouldOpen_iff m, shouldClose_iff m, ?_⟩
  rintro ⟨h1, h2⟩
  exact absurd ((shouldClose_iff m).mp h2).1 (not_lt.mpr ((shouldOpen_iff m).mp h1).1)

/-- C9: `setMaxDistance(x)` raises if and only if `x <= 0`; when it raises the
model is left as it was, and when it does not `maxDistance` is `x`
afterwards. -/
theorem setMaxDistance_raises (m : SlidingMenuViewModel) (x : ℚ) :
    ((m.setMaxDistance x).2.isSome = true ↔ x ≤ 0) ∧
    ((m.setMaxDistance x).2.isSome = true → (m.setMaxDistance x).1 = m) ∧
    ((m.setMaxDistance x).2 = none → (m.setMaxDistance x).1._maxDistance = x) := by
  by_cases hx : x ≤ 0
  · simp [SlidingMenuViewModel.setMaxDistance, hx]
  · simp [SlidingMenuViewModel.setMaxDistance, hx]

/-- C9 witness: `setMaxDistance(-5)` raises and leaves the model at `50` of
`200`; `setMaxDistance(300)` does not raise and sets `maxDistance` to `300`. -/
theorem setMaxDistance_raises_witness :
    (SlidingMenuViewModel.setMaxDistance ⟨50, 200⟩ (-5)).1 = ⟨50, 200⟩ ∧
    (SlidingMenuViewModel.setMaxDistance ⟨50, 200⟩ 300).1._maxDistance = 300 := by
  have h1 := setMaxDistance_raises ⟨50, 200⟩ (-5)
  have h2 := setMaxDistance_raises ⟨50, 200⟩ 300
  refine ⟨h1.2.1 (h1.1.mpr (by norm_num)), h2.2.2 ?_⟩
  have h3 : ¬ ((SlidingMenuViewModel.setMaxDistance ⟨50, 200⟩ 300).2.isSome = true) :=
    fun h => absurd (h2.1.mp h) (by norm_num)
  simpa using h3

/-- C10: for a model with `maxDistance > 0` (every constructed model) and
every `x > 0`: if `isOpened()` holds before `setMaxDistance(x)`, the distance
is `x` afterwards and `isOpened()` still holds; if `isClosed()` holds before,
the distance is still `0` afterwards and `isClosed()` still holds. -/
theorem setMaxDistance_keeps_state (m : SlidingMenuViewModel) (x : ℚ)
    (hm : 0 < m._maxDistance) (hx : 0 < x) :
    (m.isOpened = true →
      (m.setMaxDistance x).1._distance = x ∧ (m.setMaxDistance x).1.isOpened = true) ∧
    (m.isClosed = true →
      (m.setMaxDistance x).1._distance = 0 ∧ (m.setMaxDistance x).1.isClosed = true) := by
  have hx' : ¬ x ≤ 0 := not_le.mpr hx
  refine ⟨?_, ?_⟩
  · intro h
    simp only [SlidingMenuViewModel.setMaxDistance, hx', h, if_true, if_false]
    simp [SlidingMenuViewModel.isOpened]
  · intro h
    have hd : m._distance = 0 := by
      simpa [SlidingMenuViewModel.isClosed] using h
    have hno : m.isOpened = false := by
      simp only [SlidingMenuViewModel.isOpened, decide_eq_false_iff_not, hd]
      exact fun he => absurd he (ne_of_lt hm)
    simp only [SlidingMenuViewModel.setMaxDistance, hx', hno, if_false]
    simp [SlidingMenuViewModel.isClosed, hd]

/-- C10 witness: an opened model (`200` of `200`) and a closed model (`0` of
`200`) resized to `300`. -/
theorem setMaxDistance_keeps_state_witness :
    (SlidingMenuViewModel.setMaxDistance ⟨200, 200⟩ 300).1._distance = 300 ∧
    (SlidingMenuViewModel.setMaxDistance ⟨0, 200⟩ 300).1._distance = 0 := by
  have h1 := setMaxDistance_keeps_state ⟨200, 200⟩ 300 (by norm_num) (by norm_num)
  have h2 := setMaxDistance_keeps_state ⟨0, 200⟩ 300 (by norm_num) (by norm_num)
  exact ⟨(h1.1 (by simp [SlidingMenuViewModel.isOpened])).1,
    (h2.2 (by simp [SlidingMenuViewModel.isClosed])).1⟩

/-! ## Theorems: the view -/

theorem view_open_of_opened (v : SlidingMenuView) (arg : OptionsArg)
    (hl : v._doorLock.locked = false) (ho : v._logic.isOpened = true) :
    v.open arg =
      { v with trace := v.trace ++
          ([ViewEffect.emit "preopen"] ++
            SlidingMenuView.callbackEffects (normalizeOptions arg)) } := by
  simp only [SlidingMenuView.open, SlidingMenuView.log, SlidingMenuView.waitUnlock, hl,
    SlidingMenuView.runWaiter, SlidingMenuView.afterLogic, open_of_opened _ _ ho,
    invokeCallback, SlidingMenuView.callbackEffects]
  cases hcb : (normalizeOptions arg).callback <;>
    simp [SlidingMenuView.listen, SlidingMenuView.log]

theorem view_open_of_not_opened (v : SlidingMenuView) (arg : OptionsArg)
    (hl : v._doorLock.locked = false) (ho : v._logic.isOpened = false) :
    v.open arg =
      { v with
        _logic := { v._logic with _distance := v._logic._maxDistance },
        _doorLock := { v._doorLock with locked := true },
        running := v.running ++
          [{ kind := Transition.opening, options := normalizeOptions arg }],
        trace := v.trace ++
          [ViewEffect.emit "preopen", ViewEffect.lock,
           ViewEffect.openMenu (decide ((normalizeOptions arg).animation = some "none"))] } := by
  simp [SlidingMenuView.open, SlidingMenuView.log, SlidingMenuView.waitUnlock, hl,
    SlidingMenuView.runWaiter, SlidingMenuView.afterLogic, open_of_not_opened _ _ ho,
    SlidingMenuView.listen, SlidingMenuView._open, SlidingMenuView.lock]

theorem view_close_of_closed (v : SlidingMenuView) (arg : OptionsArg)
    (hl : v._doorLock.locked = false) (hc : v._logic.isClosed = true) :
    v.close arg =
      { v with
        tapBound := false,
        trace := v.trace ++
          ([ViewEffect.tapOff, ViewEffect.emit "preclose"] ++
            SlidingMenuView.callbackEffects (normalizeOptions arg)) } := by
  simp only [SlidingMenuView.close, SlidingMenuView.waitUnlock, hl,
    SlidingMenuView.runWaiter, SlidingMenuView.afterLogic, close_of_closed _ _ hc,
    invokeCallback, SlidingMenuView.callbackEffects]
  cases hcb : (normalizeOptions arg).callback <;>
    simp [SlidingMenuView.listen, SlidingMenuView.log]

theorem view_close_of_not_closed (v : SlidingMenuView) (arg : OptionsArg)
    (hl : v._doorLock.locked = false) (hc : v._logic.isClosed = false) :
    v.close arg =
      { v with
        _logic := { v._logic with _distance := 0 },
        _doorLock := { v._doorLock with locked := true },
        tapBound := false,
        running := v.running ++
          [{ kind := Transition.closing, options := normalizeOptions arg }],
        trace := v.trace ++
          [ViewEffect.tapOff, ViewEffect.emit "preclose", ViewEffect.lock,
           ViewEffect.closeMenu (decide ((normalizeOptions arg).animation = some "none"))] } := by
  simp [SlidingMenuView.close, SlidingMenuView.waitUnlock, hl,
    SlidingMenuView.runWaiter, SlidingMenuView.afterLogic, close_of_not_closed _ _ hc,
    SlidingMenuView.listen, SlidingMenuView._close, SlidingMenuView.lock]

theorem handleEvent_release (v : SlidingMenuView) (event : Event)
    (ht : event.type = EventType.release) (hl : v._doorLock.locked = false) :
    (v._handleEvent event).1 =
      (if v._logic.shouldOpen then
        SlidingMenuView.open
          { v with _lastDistance := none,
                   trace := v.trace ++
                     (if SlidingMenuView._isInsideIgnoredElement event.target
                      then [ViewEffect.stopDetect] else []) }
          OptionsArg.undefined
      else if v._logic.shouldClose then
        SlidingMenuView.close
          { v with _lastDistance := none,
                   trace := v.trace ++
                     (if SlidingMenuView._isInsideIgnoredElement event.target
                      then [ViewEffect.stopDetect] else []) }
          OptionsArg.undefined
      else
        { v with _lastDistance := none,
                 trace := v.trace ++
                   (if SlidingMenuView._isInsideIgnoredElement event.target
                    then [ViewEffect.stopDetect] else []) }) := by
  unfold SlidingMenuView._handleEvent
  simp only [hl, ht, Bool.false_eq_true, if_false]
  by_cases hi : SlidingMenuView._isInsideIgnoredElement event.target = true
  · simp only [hi, if_true, SlidingMenuView.log]
  · simp only [hi, if_false, Bool.false_eq_true, List.append_nil]

/-- C7: a `release` event handled with the guard unlocked and
`maxDistance > 0`.  If the distance is neither `0` nor `maxDistance`, the
release commits: for `distance >= maxDistance / 2` it requests `open()`
(`preopen`, the guard, `animator.openMenu`) and the distance becomes
`maxDistance`; for `distance < maxDistance / 2` it requests `close()`
(`preclose`, the guard, `animator.closeMenu`) and the distance becomes `0`.
If the distance is `0` or `maxDistance`, neither is requested and the model,
the guard, the animator and the tap listener are left as they were.  In every
case the only other effect is `stopDetect` for a target inside an ignored
element. -/
theorem release_commits (v : SlidingMenuView) (event : Event)
    (ht : event.type = EventType.release) (hl : v._doorLock.locked = false)
    (hm : 0 < v._logic._maxDistance) :
    (v._logic._distance ≠ 0 → v._logic._distance ≠ v._logic._maxDistance →
      v._logic._maxDistance / 2 ≤ v._logic._distance →
      (v._handleEvent event).1._logic._distance = v._logic._maxDistance ∧
      (v._handleEvent event).1._logic._maxDistance = v._logic._maxDistance ∧
      (v._handleEvent event).1.trace =
        v.trace ++
          (if SlidingMenuView._isInsideIgnoredElement event.target
           then [ViewEffect.stopDetect] else []) ++
          [ViewEffect.emit "preopen", ViewEffect.lock, ViewEffect.openMenu false]) ∧
    (v._logic._distance ≠ 0 → v._logic._distance ≠ v._logic._maxDistance →
      v._logic._distance < v._logic._maxDistance / 2 →
      (v._handleEvent event).1._logic._distance = 0 ∧
      (v._handleEvent event).1._logic._maxDistance = v._logic._maxDistance ∧
      (v._handleEvent event).1.trace =
        v.trace ++
          (if SlidingMenuView._isInsideIgnoredElement event.target
           then [ViewEffect.stopDetect] else []) ++
          [ViewEffect.tapOff, ViewEffect.emit "preclose", ViewEffect.lock,
           ViewEffect.closeMenu false]) ∧
    ((v._logic._distance = 0 ∨ v._logic._distance = v._logic._maxDistance) →
      (v._handleEvent event).1._logic = v._logic ∧
      (v._handleEvent event).1._doorLock = v._doorLock ∧
      (v._handleEvent event).1.running = v.running ∧
      (v._handleEvent event).1.tapBound = v.tapBound ∧
      (v._handleEvent event).1.trace =
        v.trace ++
          (if SlidingMenuView._isInsideIgnoredElement event.target
           then [ViewEffect.stopDetect] else [])) := by
  rw [handleEvent_release v event ht hl]
  refine ⟨?_, ?_, ?_⟩
  · intro _ hne hge
    have hso : v._logic.shouldOpen = true := (shouldOpen_iff _).mpr ⟨hge, hne⟩
    have hno : v._logic.isOpened = false := by
      simpa [SlidingMenuViewModel.isOpened] using hne
    simp only [hso, if_true]
    rw [view_open_of_not_opened
      { v with _lastDistance := none,
               trace := v.trace ++
                 (if SlidingMenuView._isInsideIgnoredElement event.target
                  then [ViewEffect.stopDetect] else []) }
      OptionsArg.undefined hl hno]
    simp [normalizeOptions]
  · intro hne0 _ hlt
    have hso : v._logic.shouldOpen = false := by
      rw [← Bool.not_eq_true]
      intro h
      exact absurd hlt (not_lt.mpr ((shouldOpen_iff _).mp h).1)
    have hsc : v._logic.shouldClose = true := (shouldClose_iff _).mpr ⟨hlt, hne0⟩
    have hnc : v._logic.isClosed = false := by
      simpa [SlidingMenuViewModel.isClosed] using hne0
    simp only [hso, hsc, if_true, Bool.false_eq_true, if_false]
    rw [view_close_of_not_closed
      { v with _lastDistance := none,
               trace := v.trace ++
                 (if SlidingMenuView._isInsideIgnoredElement event.target
                  then [ViewEffect.stopDetect] else []) }
      OptionsArg.undefined hl hnc]
    simp [normalizeOptions]
  · intro hd
    have hso : v._logic.shouldOpen = false := by
      rw [← Bool.not_eq_true]
      intro h
      have h2 := (shouldOpen_iff _).mp h
      rcases hd with h0 | hmx
      · rw [h0] at h2
        have := h2.1
        linarith
      · exact h2.2 hmx
    have hsc : v._logic.shouldClose = false := by
      rw [← Bool.not_eq_true]
      intro h
      have h2 := (shouldClose_iff _).mp h
      rcases hd with h0 | hmx
      · exact h2.2 h0
      · rw [hmx] at h2
        have := h2.1
        linarith
    simp only [hso, hsc, Bool.false_eq_true, if_false]
    simp

/-- C7 witness: a release at distance `200` of `300` ends with distance
`300`. -/
theorem release_commits_witness :
    ((SlidingMenuView._handleEvent
        { _logic := ⟨200, 300⟩, _doorLock := ⟨false, [], false⟩, _isRightMenu := false,
          _lastDistance := none, swipeTargetWidth := AttrValue.undefined, clientWidth := 320,
          running := [], tapBound := false, trace := [] }
        { type := EventType.release, target := [none],
          gesture := ⟨0, 0, ⟨none, none⟩⟩ }).1)._logic._distance = 300 := by
  have h := release_commits
    { _logic := ⟨200, 300⟩, _doorLock := ⟨false, [], false⟩, _isRightMenu := false,
      _lastDistance := none, swipeTargetWidth := AttrValue.undefined, clientWidth := 320,
      running := [], tapBound := false, trace := [] }
    { type := EventType.release, target := [none], gesture := ⟨0, 0, ⟨none, none⟩⟩ }
    rfl rfl (by norm_num)
  exact (h.1 (by norm_num) (by norm_num) (by norm_num)).1

theorem handleEvent_drag (v : SlidingMenuView) (event : Event) (delta : ℚ) (w : SlidingMenuView)
    (se : StartEvent)
    (ht : event.type = EventType.dragleft ∨ event.type = EventType.dragright)
    (hl : v._doorLock.locked = false)
    (hdelta : delta = if v._isRightMenu then -event.gesture.deltaX else event.gesture.deltaX)
    (hw : w = { v with trace := v.trace ++
            (if SlidingMenuView._isInsideIgnoredElement event.target
             then [ViewEffect.stopDetect] else []) ++ [ViewEffect.preventDefault] })
    (hse : se = { event.gesture.startEvent with
         isOpened := some (event.gesture.startEvent.isOpened.getD v._logic.isOpened) }) :
    v._handleEvent event =
      if delta < 0 ∧ v._logic.isClosed = true then (w, se)
      else if delta > 0 ∧ v._logic.isOpened = true then (w, se)
      else
        (w.afterLogic
          (v._logic.translate
            (if event.gesture.startEvent.isOpened.getD v._logic.isOpened = true then
              delta + v._logic._maxDistance
             else delta)), se) := by
  subst hw hse hdelta
  obtain ⟨ty, target, ⟨dx, px, ⟨io, stw⟩⟩⟩ := event
  simp only at ht
  unfold SlidingMenuView._handleEvent
  simp only [hl, Bool.false_eq_true, if_false]
  rcases ht with ht | ht <;> cases io <;>
    by_cases hi : SlidingMenuView._isInsideIgnoredElement target = true <;>
    simp [ht, hi, SlidingMenuView.log, SlidingMenuViewModel.getMaxDistance]

theorem afterLogic_translate (w : SlidingMenuView) (m : SlidingMenuViewModel) (x : ℚ) :
    w.afterLogic (m.translate x) =
      { w with _logic := (m.translate x).1,
               trace := w.trace ++
                 [ViewEffect.translateMenu (m.translate x).1._distance m._maxDistance] } := by
  simp [SlidingMenuView.afterLogic, SlidingMenuViewModel.translate, SlidingMenuView.listen,
    SlidingMenuView._translate, SlidingMenuView.log]

/-- On finite numbers: a `dragleft` or `dragright` event handled with the
guard unlocked.
`delta` is `-deltaX` for a right-mounted menu and `deltaX` otherwise;
`startedOpened` is the value cached on the gesture's `startEvent`, or, at the
first drag sample of the gesture, the model's `isOpened()`, which the event
then caches on `startEvent`.  If `delta < 0` while the model is closed, or
`delta > 0` while it is opened, nothing is translated and the view (model,
guard, animator) is unchanged; otherwise `translate(delta + maxDistance)` is
called when `startedOpened` and `translate(delta)` when not, and the payload
reaches `animator.translateMenu`.  In both cases the gesture gets
`preventDefault`, after `stopDetect` for a target inside an ignored
element. -/
theorem drag_translates (v : SlidingMenuView) (event : Event) (delta : ℚ)
    (startedOpened : Bool)
    (ht : event.type = EventType.dragleft ∨ event.type = EventType.dragright)
    (hl : v._doorLock.locked = false)
    (hdelta : delta = if v._isRightMenu then -event.gesture.deltaX else event.gesture.deltaX)
    (hstart : startedOpened = event.gesture.startEvent.isOpened.getD v._logic.isOpened) :
    (v._handleEvent event).2 =
      { event.gesture.startEvent with isOpened := some startedOpened } ∧
    ((delta < 0 ∧ v._logic.isClosed = true) ∨ (delta > 0 ∧ v._logic.isOpened = true) →
      (v._handleEvent event).1 =
        { v with trace := v.trace ++
            (if SlidingMenuView._isInsideIgnoredElement event.target
             then [ViewEffect.stopDetect] else []) ++ [ViewEffect.preventDefault] }) ∧
    (¬ ((delta < 0 ∧ v._logic.isClosed = true) ∨ (delta > 0 ∧ v._logic.isOpened = true)) →
      (v._handleEvent event).1 =
        { v with
          _logic :=
            (v._logic.translate
              (if startedOpened then delta + v._logic._maxDistance else delta)).1,
          trace := v.trace ++
            (if SlidingMenuView._isInsideIgnoredElement event.target
             then [ViewEffect.stopDetect] else []) ++
            [ViewEffect.preventDefault,
             ViewEffect.translateMenu
               (v._logic.translate
                 (if startedOpened then delta + v._logic._maxDistance else delta)).1._distance
               v._logic._maxDistance] }) := by
  rw [handleEvent_drag v event delta _ _ ht hl hdelta rfl rfl, ← hstart]
  refine ⟨?_, ?_, ?_⟩
  · split_ifs <;> rfl
  · rintro (h | h)
    · rw [if_pos h]
    · by_cases h1 : delta < 0 ∧ v._logic.isClosed = true
      · rw [if_pos h1]
      · rw [if_neg h1, if_pos h]
  · intro h
    rw [not_or] at h
    rw [if_neg h.1, if_neg h.2, afterLogic_translate]
    simp

/-- An instance on finite numbers: `maxDistance = 300`, a right-mounted menu, a closed start and
`deltaX = -200`: `translate(200)` is called and the distance is `200`. -/
theorem drag_translates_witness :
    (SlidingMenuView._handleEvent
        { _logic := ⟨0, 300⟩, _doorLock := ⟨false, [], false⟩, _isRightMenu := true,
          _lastDistance := none, swipeTargetWidth := AttrValue.undefined, clientWidth := 320,
          running := [], tapBound := false, trace := [] }
        { type := EventType.dragleft, target := [none],
          gesture := ⟨-200, 100, ⟨none, none⟩⟩ }).1 =
      { _logic := ⟨200, 300⟩, _doorLock := ⟨false, [], false⟩, _isRightMenu := true,
        _lastDistance := none, swipeTargetWidth := AttrValue.undefined, clientWidth := 320,
        running := [], tapBound := false,
        trace := [ViewEffect.preventDefault, ViewEffect.translateMenu 200 300] } := by
  have h := drag_translates
    { _logic := ⟨0, 300⟩, _doorLock := ⟨false, [], false⟩, _isRightMenu := true,
      _lastDistance := none, swipeTargetWidth := AttrValue.undefined, clientWidth := 320,
      running := [], tapBound := false, trace := [] }
    { type := EventType.dragleft, target := [none], gesture := ⟨-200, 100, ⟨none, none⟩⟩ }
    200 false (Or.inl rfl) rfl (by norm_num) (by simp [SlidingMenuViewModel.isOpened])
  rw [h.2.2 (by norm_num [SlidingMenuViewModel.isClosed, SlidingMenuViewModel.isOpened])]
  norm_num [SlidingMenuViewModel.translate, SlidingMenuView._isInsideIgnoredElement]

/-! ## Theorems: the guard -/

theorem lockDiscipline_append (t1 t2 : List ViewEffect) (b : Bool) :
    lockDiscipline b (t1 ++ t2) = (lockDiscipline b t1 && lockDiscipline (lockAfter b t1) t2) := by
  induction t1 generalizing b with
  | nil => simp [lockDiscipline, lockAfter]
  | cons e t ih =>
    cases e <;> simp [lockDiscipline, lockAfter, ih, Bool.and_assoc]

theorem lockAfter_append (t1 t2 : List ViewEffect) (b : Bool) :
    lockAfter b (t1 ++ t2) = lockAfter (lockAfter b t1) t2 := by
  induction t1 generalizing b with
  | nil => simp [lockAfter]
  | cons e t ih =>
    cases e <;> simp [lockAfter, ih]

theorem oneAtATime_append (t1 t2 : List ViewEffect) (n : Nat) :
    oneAtATime n (t1 ++ t2) = (oneAtATime n t1 && oneAtATime (flightAfter n t1) t2) := by
  induction t1 generalizing n with
  | nil => simp [oneAtATime, flightAfter]
  | cons e t ih =>
    cases e <;> simp [oneAtATime, flightAfter, ih, Bool.and_assoc]

theorem flightAfter_append (t1 t2 : List ViewEffect) (n : Nat) :
    flightAfter n (t1 ++ t2) = flightAfter (flightAfter n t1) t2 := by
  induction t1 generalizing n with
  | nil => simp [flightAfter]
  | cons e t ih =>
    cases e <;> simp [flightAfter, ih]

theorem neutral_scan (es : List ViewEffect) (h : ∀ e ∈ es, e.neutral = true) (b : Bool)
    (n : Nat) :
    lockDiscipline b es = true ∧ lockAfter b es = b ∧
    oneAtATime n es = true ∧ flightAfter n es = n := by
  induction es with
  | nil => simp [lockDiscipline, lockAfter, oneAtATime, flightAfter]
  | cons e t ih =>
    have he := h e (List.mem_cons_self _ _)
    have ht := ih (fun x hx => h x (List.mem_cons_of_mem _ hx))
    cases e <;> simp_all [lockDiscipline, lockAfter, oneAtATime, flightAfter, ViewEffect.neutral]

theorem callbackEffects_neutral (options : Options) :
    ∀ e ∈ SlidingMenuView.callbackEffects options, e.neutral = true := by
  intro e he
  unfold SlidingMenuView.callbackEffects at he
  split at he
  · simp only [List.mem_singleton] at he
    subst he
    rfl
  · simp at he

theorem traceOk_extend (v w : SlidingMenuView) (es : List ViewEffect) (h : v.TraceOk)
    (hn : ∀ e ∈ es, e.neutral = true) (ht : w.trace = v.trace ++ es)
    (hl : w._doorLock.locked = v._doorLock.locked) (hr : w.running = v.running) :
    w.TraceOk := by
  obtain ⟨h1, h2, h3, h4⟩ := h
  have hs := neutral_scan es hn (lockAfter false v.trace) (flightAfter 0 v.trace)
  unfold SlidingMenuView.TraceOk
  rw [ht, hl, hr, lockDiscipline_append, lockAfter_append, oneAtATime_append,
    flightAfter_append, h1, h3, hs.1, hs.2.1, hs.2.2.1, hs.2.2.2]
  exact ⟨rfl, h2, rfl, h4⟩

theorem traceOk_start (v w : SlidingMenuView) (e : ViewEffect) (h : v.TraceOk)
    (hl : v._doorLock.locked = false) (hr : v.running = [])
    (he : e.neutral = false) (hne : e ≠ ViewEffect.unlock) (hnl : e ≠ ViewEffect.lock)
    (hnd : ∀ k, e ≠ ViewEffect.done k)
    (ht : w.trace = v.trace ++ [ViewEffect.lock, e])
    (hl2 : w._doorLock.locked = true) (hr2 : w.running.length = 1) :
    w.TraceOk := by
  obtain ⟨h1, h2, h3, h4⟩ := h
  rw [hl] at h2
  rw [hr] at h4
  unfold SlidingMenuView.TraceOk
  rw [ht, hl2, hr2, lockDiscipline_append, lockAfter_append, oneAtATime_append,
    flightAfter_append, h1, h2, h3, h4]
  cases e <;> simp_all [lockDiscipline, lockAfter, oneAtATime, flightAfter, ViewEffect.neutral]

theorem runWaiter_open_of_opened (v : SlidingMenuView) (options : Options)
    (ho : v._logic.isOpened = true) :
    v.runWaiter (Waiter.open options) =
      { v with trace := v.trace ++ SlidingMenuView.callbackEffects options } := by
  simp only [SlidingMenuView.runWaiter, SlidingMenuView.afterLogic, open_of_opened _ _ ho,
    invokeCallback, SlidingMenuView.callbackEffects]
  cases hcb : options.callback <;> simp [SlidingMenuView.listen, SlidingMenuView.log]

theorem runWaiter_open_of_not_opened (v : SlidingMenuView) (options : Options)
    (ho : v._logic.isOpened = false) :
    v.runWaiter (Waiter.open options) =
      { v with
        _logic := { v._logic with _distance := v._logic._maxDistance },
        _doorLock := { v._doorLock with locked := true },
        running := v.running ++ [{ kind := Transition.opening, options := options }],
        trace := v.trace ++
          [ViewEffect.lock, ViewEffect.openMenu (decide (options.animation = some "none"))] } := by
  simp [SlidingMenuView.runWaiter, SlidingMenuView.afterLogic, open_of_not_opened _ _ ho,
    SlidingMenuView.listen, SlidingMenuView._open, SlidingMenuView.lock]

theorem runWaiter_close_of_closed (v : SlidingMenuView) (options : Options)
    (hc : v._logic.isClosed = true) :
    v.runWaiter (Waiter.close options) =
      { v with trace := v.trace ++ SlidingMenuView.callbackEffects options } := by
  simp only [SlidingMenuView.runWaiter, SlidingMenuView.afterLogic, close_of_closed _ _ hc,
    invokeCallback, SlidingMenuView.callbackEffects]
  cases hcb : options.callback <;> simp [SlidingMenuView.listen, SlidingMenuView.log]

theorem runWaiter_close_of_not_closed (v : SlidingMenuView) (options : Options)
    (hc : v._logic.isClosed = false) :
    v.runWaiter (Waiter.close options) =
      { v with
        _logic := { v._logic with _distance := 0 },
        _doorLock := { v._doorLock with locked := true },
        running := v.running ++ [{ kind := Transition.closing, options := options }],
        trace := v.trace ++
          [ViewEffect.lock, ViewEffect.closeMenu (decide (options.animation = some "none"))] } := by
  simp [SlidingMenuView.runWaiter, SlidingMenuView.afterLogic, close_of_not_closed _ _ hc,
    SlidingMenuView.listen, SlidingMenuView._close, SlidingMenuView.lock]

theorem runWaiter_ok (v : SlidingMenuView) (w : Waiter) (h : v.TraceOk)
    (hl : v._doorLock.locked = false) (hr : v.running = []) :
    (v.runWaiter w).TraceOk ∧ (v.runWaiter w).Settled ∧
    (v.runWaiter w)._doorLock.waitList = v._doorLock.waitList ∧
    (v.runWaiter w)._doorLock.drainAll = v._doorLock.drainAll := by
  cases w with
  | «open» options =>
    cases ho : v._logic.isOpened with
    | true =>
      rw [runWaiter_open_of_opened v options ho]
      exact ⟨traceOk_extend v _ _ h (callbackEffects_neutral options) rfl rfl rfl,
        Or.inl ⟨hl, hr⟩, rfl, rfl⟩
    | false =>
      rw [runWaiter_open_of_not_opened v options ho]
      refine ⟨traceOk_start v _
          (ViewEffect.openMenu (decide (options.animation = some "none"))) h hl hr rfl (by simp) (by simp) (by simp) rfl rfl ?_,
        Or.inr ⟨rfl, ?_⟩, rfl, rfl⟩ <;> simp [hr]
  | close options =>
    cases hc : v._logic.isClosed with
    | true =>
      rw [runWaiter_close_of_closed v options hc]
      exact ⟨traceOk_extend v _ _ h (callbackEffects_neutral options) rfl rfl rfl,
        Or.inl ⟨hl, hr⟩, rfl, rfl⟩
    | false =>
      rw [runWaiter_close_of_not_closed v options hc]
      refine ⟨traceOk_start v _
          (ViewEffect.closeMenu (decide (options.animation = some "none"))) h hl hr rfl (by simp) (by simp) (by simp) rfl rfl ?_,
        Or.inr ⟨rfl, ?_⟩, rfl, rfl⟩ <;> simp [hr]

theorem listen_waitList (v : SlidingMenuView) (e : Effect) :
    (v.listen e)._doorLock.waitList = v._doorLock.waitList := by
  cases e with
  | emit signal => cases signal <;> rfl
  | call c => rfl

theorem afterLogic_waitList (v : SlidingMenuView) (r : SlidingMenuViewModel × List Effect) :
    (v.afterLogic r)._doorLock.waitList = v._doorLock.waitList := by
  have key : ∀ (es : List Effect) (w : SlidingMenuView),
      (es.foldl SlidingMenuView.listen w)._doorLock.waitList = w._doorLock.waitList := by
    intro es
    induction es with
    | nil => intro w; rfl
    | cons e es ih =>
      intro w
      rw [List.foldl_cons, ih, listen_waitList]
  unfold SlidingMenuView.afterLogic
  rw [key]

theorem runWaiter_waitList (v : SlidingMenuView) (w : Waiter) :
    (v.runWaiter w)._doorLock.waitList = v._doorLock.waitList := by
  cases w <;> exact afterLogic_waitList v _

/-- The bound given to `drain` by `unlock` when `drainAll` holds, the length
of the queue, is enough: a larger bound gives the same result, so the loop
stops because the guard is held again or the queue is empty. -/
theorem drain_fuel (n k : Nat) (v : SlidingMenuView)
    (hn : v._doorLock.waitList.length ≤ n) (hk : v._doorLock.waitList.length ≤ k) :
    SlidingMenuView.drain n v = SlidingMenuView.drain k v := by
  induction n generalizing v k with
  | zero =>
    have hnil : v._doorLock.waitList = [] := List.length_eq_zero.mp (Nat.le_zero.mp hn)
    cases k with
    | zero => rfl
    | succ k =>
      unfold SlidingMenuView.drain
      rw [hnil]
      split <;> rfl
  | succ n ih =>
    cases k with
    | zero =>
      have hnil : v._doorLock.waitList = [] := List.length_eq_zero.mp (Nat.le_zero.mp hk)
      unfold SlidingMenuView.drain
      rw [hnil]
      split <;> rfl
    | succ k =>
      rw [SlidingMenuView.drain, SlidingMenuView.drain]
      cases hl : v._doorLock.locked with
      | true => rfl
      | false =>
        cases hw : v._doorLock.waitList with
        | nil => rfl
        | cons w rest =>
          rw [hw] at hn hk
          simp only [List.length_cons, Nat.add_le_add_iff_right] at hn hk
          simp only [Bool.false_eq_true, if_false]
          apply ih
          · rw [runWaiter_waitList]
            exact hn
          · rw [runWaiter_waitList]
            exact hk

theorem drain_ok (n : Nat) (v : SlidingMenuView) (h : v.TraceOk) (hs : v.Settled) :
    (SlidingMenuView.drain n v).TraceOk ∧ (SlidingMenuView.drain n v).Settled := by
  induction n generalizing v with
  | zero => exact ⟨h, hs⟩
  | succ n ih =>
    unfold SlidingMenuView.drain
    cases hl : v._doorLock.locked with
    | true => exact ⟨h, hs⟩
    | false =>
      have hr : v.running = [] := by
        rcases hs with hs | hs
        · exact hs.2
        · rw [hl] at hs
          exact absurd hs.1 (by simp)
      cases hw : v._doorLock.waitList with
      | nil => exact ⟨h, hs⟩
      | cons w rest =>
        have hv : ({ v with _doorLock := { v._doorLock with waitList := rest } } :
            SlidingMenuView).TraceOk := h
        have hk := runWaiter_ok _ w hv hl hr
        exact ih _ hk.1 hk.2.1

theorem unlock_ok (v : SlidingMenuView) (h1 : lockDiscipline false v.trace = true)
    (h3 : oneAtATime 0 v.trace = true) (h4 : flightAfter 0 v.trace = 0)
    (hr : v.running = []) :
    v.unlock.TraceOk ∧ v.unlock.Settled := by
  unfold SlidingMenuView.unlock
  apply drain_ok
  · unfold SlidingMenuView.TraceOk
    simp only [lockDiscipline_append, lockAfter_append, oneAtATime_append, flightAfter_append,
      h1, h3, h4, hr]
    simp [lockDiscipline, lockAfter, oneAtATime, flightAfter]
  · exact Or.inl ⟨rfl, hr⟩

theorem animationDone_ok (v : SlidingMenuView) (i : Nat) (h : v.TraceOk) (hs : v.Settled) :
    (v.animationDone i).TraceOk ∧ (v.animationDone i).Settled := by
  unfold SlidingMenuView.animationDone
  cases hget : v.running.get? i with
  | none => exact ⟨h, hs⟩
  | some c =>
    have hlen : v.running.length = 1 := by
      rcases hs with hs | hs
      · rw [hs.2] at hget
        simp at hget
      · exact hs.2
    have hi : i = 0 := by
      have hlt : i < v.running.length := by
        rcases Nat.lt_or_ge i v.running.length with hlt | hge
        · exact hlt
        · rw [List.get?_eq_none.mpr hge] at hget
          simp at hget
      omega
    have hempty : v.running.eraseIdx i = [] := by
      rw [← List.length_eq_zero, List.length_eraseIdx, hi, hlen]
      simp [hlen]
    obtain ⟨h1, _, h3, h4⟩ := h
    rw [hlen] at h4
    have hu := unlock_ok
      { v with running := v.running.eraseIdx i,
               trace := v.trace ++ [ViewEffect.done c.kind] }
      (by simp [lockDiscipline_append, h1, lockDiscipline])
      (by simp [oneAtATime_append, h3, oneAtATime])
      (by simp [flightAfter_append, h4, flightAfter])
      hempty
    dsimp only
    split
    · refine ⟨traceOk_extend _ _
        ([ViewEffect.tapOn, ViewEffect.emit "postopen"] ++
          SlidingMenuView.callbackEffects c.options) hu.1 ?_ rfl rfl rfl, hu.2⟩
      intro e he
      rcases List.mem_append.mp he with he | he
      · simp only [List.mem_cons, List.mem_singleton, List.not_mem_nil, or_false] at he
        rcases he with he | he <;> subst he <;> rfl
      · exact callbackEffects_neutral _ e he
    · refine ⟨traceOk_extend _ _
        ([ViewEffect.emit "postclose"] ++
          SlidingMenuView.callbackEffects c.options) hu.1 ?_ rfl rfl rfl, hu.2⟩
      intro e he
      rcases List.mem_append.mp he with he | he
      · simp only [List.mem_singleton] at he
        subst he
        rfl
      · exact callbackEffects_neutral _ e he

theorem waitUnlock_ok (v : SlidingMenuView) (w : Waiter) (h : v.TraceOk) (hs : v.Settled) :
    (v.waitUnlock w).TraceOk ∧ (v.waitUnlock w).Settled := by
  unfold SlidingMenuView.waitUnlock
  cases hl : v._doorLock.locked with
  | true =>
    simp only [if_true]
    refine ⟨?_, ?_⟩
    · exact h
    · exact hs
  | false =>
    have hr : v.running = [] := by
      rcases hs with hs | hs
      · exact hs.2
      · rw [hl] at hs
        exact absurd hs.1 (by simp)
    simp only [Bool.false_eq_true, if_false]
    have hk := runWaiter_ok v w h hl hr
    exact ⟨hk.1, hk.2.1⟩

theorem view_open_ok (v : SlidingMenuView) (arg : OptionsArg) (h : v.TraceOk)
    (hs : v.Settled) : (v.open arg).TraceOk ∧ (v.open arg).Settled := by
  unfold SlidingMenuView.open
  apply waitUnlock_ok
  · refine traceOk_extend v _ [ViewEffect.emit "preopen"] h ?_ rfl rfl rfl
    intro e he
    simp only [List.mem_singleton] at he
    subst he
    rfl
  · exact hs

theorem view_close_ok (v : SlidingMenuView) (arg : OptionsArg) (h : v.TraceOk)
    (hs : v.Settled) : (v.close arg).TraceOk ∧ (v.close arg).Settled := by
  unfold SlidingMenuView.close
  apply waitUnlock_ok
  · refine traceOk_extend v _ [ViewEffect.tapOff, ViewEffect.emit "preclose"] h ?_ rfl rfl rfl
    intro e he
    simp only [List.mem_cons, List.mem_singleton, List.not_mem_nil, or_false] at he
    rcases he with he | he <;> subst he <;> rfl
  · exact hs

theorem run_ok (inputs : List Input) (v : SlidingMenuView) (h : v.TraceOk) (hs : v.Settled) :
    (v.run inputs).TraceOk ∧ (v.run inputs).Settled := by
  induction inputs generalizing v with
  | nil => exact ⟨h, hs⟩
  | cons input rest ih =>
    have hstep : (v.step input).TraceOk ∧ (v.step input).Settled := by
      cases input with
      | «open» arg => exact view_open_ok v arg h hs
      | close arg => exact view_close_ok v arg h hs
      | animationDone i => exact animationDone_ok v i h hs
    exact ih (v.step input) hstep.1 hstep.2

/-- C2: for a view whose guard is free and that has no animation in flight,
and every sequence of `open()` calls, `close()` calls and animator completion
callbacks: in the trace of the run `lock()` is never called while the guard is
held, `animator.openMenu`/`closeMenu` is never called while an earlier
animation has not had its completion callback invoked, and at most one
animation is in flight afterwards; while one is in flight, a further `close()`
or `open()` only emits its `pre` event and is queued on the guard, without a
call of the animator.  The guard is the one of section 4.3, with either way of
draining the queue. -/
theorem transitions_serialized (v : SlidingMenuView) (inputs : List Input)
    (hl : v._doorLock.locked = false) (hr : v.running = []) (ht : v.trace = []) :
    lockDiscipline false (v.run inputs).trace = true ∧
    oneAtATime 0 (v.run inputs).trace = true ∧
    (v.run inputs).running.length ≤ 1 ∧
    (∀ arg, (v.run inputs).running ≠ [] →
      ((v.run inputs).close arg).trace =
        (v.run inputs).trace ++ [ViewEffect.tapOff, ViewEffect.emit "preclose"] ∧
      ((v.run inputs).close arg)._doorLock.waitList =
        (v.run inputs)._doorLock.waitList ++ [Waiter.close (normalizeOptions arg)] ∧
      ((v.run inputs).open arg).trace =
        (v.run inputs).trace ++ [ViewEffect.emit "preopen"] ∧
      ((v.run inputs).open arg)._doorLock.waitList =
        (v.run inputs)._doorLock.waitList ++ [Waiter.open (normalizeOptions arg)]) := by
  have h0 : v.TraceOk := by
    unfold SlidingMenuView.TraceOk
    rw [ht, hl, hr]
    simp [lockDiscipline, lockAfter, oneAtATime, flightAfter]
  have hk := run_ok inputs v h0 (Or.inl ⟨hl, hr⟩)
  refine ⟨hk.1.1, hk.1.2.2.1, ?_, ?_⟩
  · rcases hk.2 with hs | hs
    · rw [hs.2]
      simp
    · rw [hs.2]
  · intro arg hne
    have hlocked : (v.run inputs)._doorLock.locked = true := by
      rcases hk.2 with hs | hs
      · exact absurd hs.2 hne
      · exact hs.1
    simp [SlidingMenuView.close, SlidingMenuView.open, SlidingMenuView.waitUnlock,
      SlidingMenuView.log, hlocked]

/-- C2 witness: a closed menu (`0` of `300`) receives `open()`, then `close()`
while the open animation is in flight, then the completion of the open
animation: `closeMenu` is called after `done`. -/
theorem transitions_serialized_witness :
    (SlidingMenuView.run
        { _logic := ⟨0, 300⟩, _doorLock := ⟨false, [], false⟩, _isRightMenu := false,
          _lastDistance := none, swipeTargetWidth := AttrValue.undefined, clientWidth := 320,
          running := [], tapBound := false, trace := [] }
        [Input.open OptionsArg.undefined, Input.close OptionsArg.undefined,
         Input.animationDone 0]).trace =
      [ViewEffect.emit "preopen", ViewEffect.lock, ViewEffect.openMenu false,
       ViewEffect.tapOff, ViewEffect.emit "preclose",
       ViewEffect.done Transition.opening, ViewEffect.unlock,
       ViewEffect.lock, ViewEffect.closeMenu false,
       ViewEffect.tapOn, ViewEffect.emit "postopen"] ∧
    oneAtATime 0
      (SlidingMenuView.run
        { _logic := ⟨0, 300⟩, _doorLock := ⟨false, [], false⟩, _isRightMenu := false,
          _lastDistance := none, swipeTargetWidth := AttrValue.undefined, clientWidth := 320,
          running := [], tapBound := false, trace := [] }
        [Input.open OptionsArg.undefined, Input.close OptionsArg.undefined,
         Input.animationDone 0]).trace = true := by
  refine ⟨?_, (transitions_serialized _ _ rfl rfl rfl).2.1⟩
  decide

/-! ## Theorems: construction, locked guard, swipes -/

theorem init_eq_setMaxDistance (p : SlidingMenuViewModel) (md : ℚ)
    (hd : p._distance = 0) (ho : p.isOpened = false) :
    SlidingMenuViewModel.init (some md) =
      (match p.setMaxDistance md with
       | (m, none) => Except.ok m
       | (_, some e) => Except.error e) := by
  obtain ⟨d, mx⟩ := p
  simp only at hd
  subst hd
  by_cases h : md ≤ 0
  · simp [SlidingMenuViewModel.init, SlidingMenuViewModel.setMaxDistance, h]
  · simp [SlidingMenuViewModel.init, SlidingMenuViewModel.setMaxDistance, h, ho]

/-- C11: constructing a `SlidingMenuViewModel` raises when
`options.maxDistance` is not a number and when it is a number `<= 0`; for
every number `maxDistance > 0` construction succeeds and yields a closed
model with distance `0` and the given `maxDistance`. -/
theorem init_raises (md : ℚ) :
    (∃ e, SlidingMenuViewModel.init none = Except.error e) ∧
    (md ≤ 0 → ∃ e, SlidingMenuViewModel.init (some md) = Except.error e) ∧
    (0 < md →
      SlidingMenuViewModel.init (some md) = Except.ok ⟨0, md⟩ ∧
      (⟨0, md⟩ : SlidingMenuViewModel).isClosed = true ∧
      (⟨0, md⟩ : SlidingMenuViewModel)._distance = 0 ∧
      (⟨0, md⟩ : SlidingMenuViewModel)._maxDistance = md) := by
  refine ⟨⟨_, rfl⟩, ?_, ?_⟩
  · intro h
    refine ⟨"maxDistance must be greater then zero.", ?_⟩
    simp [SlidingMenuViewModel.init, h]
  · intro h
    have h' : ¬ md ≤ 0 := not_le.mpr h
    simp [SlidingMenuViewModel.init, h', SlidingMenuViewModel.isClosed]

/-- C11 witness: `maxDistance = -5` raises, `maxDistance = 300` gives the
closed model `0` of `300`. -/
theorem init_raises_witness :
    (∃ e, SlidingMenuViewModel.init (some (-5)) = Except.error e) ∧
    SlidingMenuViewModel.init (some 300) = Except.ok ⟨0, 300⟩ :=
  ⟨(init_raises (-5)).2.1 (by norm_num), ((init_raises 300).2.2 (by norm_num)).1⟩

/-- C12: while the guard is locked, `_handleEvent` returns at once for every
event: the view (model, guard with its queue, animations, tap listener, trace
of emitted events and of calls on the gesture and on the animator) and the
gesture's `startEvent` are exactly what they were. -/
theorem handleEvent_locked (v : SlidingMenuView) (event : Event)
    (hl : v._doorLock.locked = true) :
    v._handleEvent event = (v, event.gesture.startEvent) := by
  unfold SlidingMenuView._handleEvent
  simp [hl]

/-- C12 witness: a `swipeleft` on a right-mounted menu whose guard is
locked. -/
theorem handleEvent_locked_witness :
    SlidingMenuView._handleEvent
        { _logic := ⟨0, 300⟩, _doorLock := ⟨true, [], false⟩, _isRightMenu := true,
          _lastDistance := none, swipeTargetWidth := AttrValue.undefined, clientWidth := 320,
          running := [], tapBound := false, trace := [ViewEffect.lock] }
        { type := EventType.swipeleft, target := [none], gesture := ⟨-50, 300, ⟨none, none⟩⟩ } =
      ({ _logic := ⟨0, 300⟩, _doorLock := ⟨true, [], false⟩, _isRightMenu := true,
         _lastDistance := none, swipeTargetWidth := AttrValue.undefined, clientWidth := 320,
         running := [], tapBound := false, trace := [ViewEffect.lock] }, ⟨none, none⟩) :=
  handleEvent_locked _ _ rfl

/-- C13: with the guard unlocked, a `swipeleft` event calls `open()` on a
right-mounted menu and `close()` on a left-mounted one, a `swiperight` event
calls `close()` on a right-mounted menu and `open()` on a left-mounted one,
whatever the distance of the model; the call comes after `preventDefault`
(and after `stopDetect` for a target inside an ignored element), and in every
case `stopDetect` is called on the gesture afterwards. -/
theorem swipe_requests (v w : SlidingMenuView) (event : Event)
    (hl : v._doorLock.locked = false)
    (hw : w = { v with trace := v.trace ++
            (if SlidingMenuView._isInsideIgnoredElement event.target
             then [ViewEffect.stopDetect] else []) ++ [ViewEffect.preventDefault] }) :
    (event.type = EventType.swipeleft →
      v._handleEvent event =
        ((if v._isRightMenu then w.open OptionsArg.undefined
          else w.close OptionsArg.undefined).log [ViewEffect.stopDetect],
         event.gesture.startEvent)) ∧
    (event.type = EventType.swiperight →
      v._handleEvent event =
        ((if v._isRightMenu then w.close OptionsArg.undefined
          else w.open OptionsArg.undefined).log [ViewEffect.stopDetect],
         event.gesture.startEvent)) ∧
    (event.type = EventType.swipeleft ∨ event.type = EventType.swiperight →
      (v._handleEvent event).1.trace.getLast? = some ViewEffect.stopDetect) := by
  subst hw
  have h1 : event.type = EventType.swipeleft →
      v._handleEvent event =
        ((if v._isRightMenu then
            SlidingMenuView.open { v with trace := v.trace ++
              (if SlidingMenuView._isInsideIgnoredElement event.target
               then [ViewEffect.stopDetect] else []) ++ [ViewEffect.preventDefault] }
              OptionsArg.undefined
          else
            SlidingMenuView.close { v with trace := v.trace ++
              (if SlidingMenuView._isInsideIgnoredElement event.target
               then [ViewEffect.stopDetect] else []) ++ [ViewEffect.preventDefault] }
              OptionsArg.undefined).log [ViewEffect.stopDetect],
         event.gesture.startEvent) := by
    intro ht
    unfold SlidingMenuView._handleEvent
    by_cases hi : SlidingMenuView._isInsideIgnoredElement event.target = true <;>
      simp [hl, ht, hi, SlidingMenuView.log]
  have h2 : event.type = EventType.swiperight →
      v._handleEvent event =
        ((if v._isRightMenu then
            SlidingMenuView.close { v with trace := v.trace ++
              (if SlidingMenuView._isInsideIgnoredElement event.target
               then [ViewEffect.stopDetect] else []) ++ [ViewEffect.preventDefault] }
              OptionsArg.undefined
          else
            SlidingMenuView.open { v with trace := v.trace ++
              (if SlidingMenuView._isInsideIgnoredElement event.target
               then [ViewEffect.stopDetect] else []) ++ [ViewEffect.preventDefault] }
              OptionsArg.undefined).log [ViewEffect.stopDetect],
         event.gesture.startEvent) := by
    intro ht
    unfold SlidingMenuView._handleEvent
    by_cases hi : SlidingMenuView._isInsideIgnoredElement event.target = true <;>
      simp [hl, ht, hi, SlidingMenuView.log]
  refine ⟨h1, h2, ?_⟩
  rintro (ht | ht)
  · rw [h1 ht]
    simp [SlidingMenuView.log]
  · rw [h2 ht]
    simp [SlidingMenuView.log]

/-- C13 witness: a `swipeleft` on a closed right-mounted menu (`0` of `300`)
opens it and then stops the detection. -/
theorem swipe_requests_witness :
    (SlidingMenuView._handleEvent
        { _logic := ⟨0, 300⟩, _doorLock := ⟨false, [], false⟩, _isRightMenu := true,
          _lastDistance := none, swipeTargetWidth := AttrValue.undefined, clientWidth := 320,
          running := [], tapBound := false, trace := [] }
        { type := EventType.swipeleft, target := [none],
          gesture := ⟨-50, 300, ⟨none, none⟩⟩ }).1.trace =
      [ViewEffect.preventDefault, ViewEffect.emit "preopen", ViewEffect.lock,
       ViewEffect.openMenu false, ViewEffect.stopDetect] := by
  have h := (swipe_requests
    { _logic := ⟨0, 300⟩, _doorLock := ⟨false, [], false⟩, _isRightMenu := true,
      _lastDistance := none, swipeTargetWidth := AttrValue.undefined, clientWidth := 320,
      running := [], tapBound := false, trace := [] } _
    { type := EventType.swipeleft, target := [none], gesture := ⟨-50, 300, ⟨none, none⟩⟩ }
    rfl rfl).1 rfl
  rw [h]
  decide

/-! ## Theorems: the order of effects of `open` -/

theorem runWaiter_trace (v : SlidingMenuView) (w : Waiter) :
    ∃ es, (v.runWaiter w).trace = v.trace ++ es := by
  cases w with
  | «open» options =>
    cases ho : v._logic.isOpened with
    | true => exact ⟨_, by rw [runWaiter_open_of_opened v options ho]⟩
    | false => exact ⟨_, by rw [runWaiter_open_of_not_opened v options ho]⟩
  | close options =>
    cases hc : v._logic.isClosed with
    | true => exact ⟨_, by rw [runWaiter_close_of_closed v options hc]⟩
    | false => exact ⟨_, by rw [runWaiter_close_of_not_closed v options hc]⟩

theorem drain_trace (n : Nat) (v : SlidingMenuView) :
    ∃ es, (SlidingMenuView.drain n v).trace = v.trace ++ es ∧
      (v._doorLock.waitList = [] → es = []) := by
  induction n generalizing v with
  | zero => exact ⟨[], by simp [SlidingMenuView.drain], fun _ => rfl⟩
  | succ n ih =>
    unfold SlidingMenuView.drain
    cases hl : v._doorLock.locked with
    | true => exact ⟨[], by simp, fun _ => rfl⟩
    | false =>
      cases hw : v._doorLock.waitList with
      | nil => exact ⟨[], by simp, fun _ => rfl⟩
      | cons w rest =>
        obtain ⟨es1, h1⟩ := runWaiter_trace
          { v with _doorLock := { v._doorLock with waitList := rest } } w
        obtain ⟨es2, h2, _⟩ := ih
          (SlidingMenuView.runWaiter
            { v with _doorLock := { v._doorLock with waitList := rest } } w)
        refine ⟨es1 ++ es2, ?_, fun h => absurd h (by simp)⟩
        simp only [Bool.false_eq_true, if_false]
        rw [h2, h1, List.append_assoc]

theorem unlock_trace (v : SlidingMenuView) :
    ∃ es, v.unlock.trace = v.trace ++ [ViewEffect.unlock] ++ es ∧
      (v._doorLock.waitList = [] → es = []) := by
  unfold SlidingMenuView.unlock
  obtain ⟨es, h1, h2⟩ := drain_trace
    (if v._doorLock.drainAll then v._doorLock.waitList.length else 1)
    { v with _doorLock := { v._doorLock with locked := false },
             trace := v.trace ++ [ViewEffect.unlock] }
  exact ⟨es, h1, h2⟩

theorem animationDone_opening (u : SlidingMenuView) (i : Nat) (options : Options)
    (h : u.running.get? i = some { kind := Transition.opening, options := options }) :
    (u.animationDone i).tapBound = true ∧
    ∃ drained,
      (u.animationDone i).trace =
        u.trace ++ [ViewEffect.done Transition.opening, ViewEffect.unlock] ++ drained ++
          ([ViewEffect.tapOn, ViewEffect.emit "postopen"] ++
            SlidingMenuView.callbackEffects options) ∧
      (u._doorLock.waitList = [] → drained = []) := by
  unfold SlidingMenuView.animationDone
  rw [h]
  dsimp only
  refine ⟨rfl, ?_⟩
  obtain ⟨es, h1, h2⟩ := unlock_trace
    { u with running := u.running.eraseIdx i,
             trace := u.trace ++ [ViewEffect.done Transition.opening] }
  refine ⟨es, ?_, h2⟩
  rw [h1]
  simp

/-- C14: on a view whose guard is unlocked and whose model is not opened,
`open(options)` produces, in this order, the `preopen` event, the taking of
the guard and one call of `animator.openMenu`, with `instant` true exactly
when `options.animation == 'none'`, and hands the animator the completion
callback for these options.  When the animator invokes that callback, in
whatever state, the effects are, in this order: the release of the guard
(followed by what the waiters drained from the queue do, nothing when the
queue is empty), the attachment of the tap listener, the `postopen` event and
the invocation of `options.callback`, once when there is one.  A bare
function given as `options` is the callback. -/
theorem view_open_sequence (v : SlidingMenuView) (arg : OptionsArg)
    (hl : v._doorLock.locked = false) (ho : v._logic.isOpened = false) :
    (v.open arg).trace =
      v.trace ++ [ViewEffect.emit "preopen", ViewEffect.lock,
        ViewEffect.openMenu (decide ((normalizeOptions arg).animation = some "none"))] ∧
    (v.open arg)._doorLock.locked = true ∧
    (v.open arg).running =
      v.running ++ [{ kind := Transition.opening, options := normalizeOptions arg }] ∧
    (∀ (u : SlidingMenuView) (i : Nat),
      u.running.get? i =
        some { kind := Transition.opening, options := normalizeOptions arg } →
      (u.animationDone i).tapBound = true ∧
      ∃ drained,
        (u.animationDone i).trace =
          u.trace ++ [ViewEffect.done Transition.opening, ViewEffect.unlock] ++ drained ++
            ([ViewEffect.tapOn, ViewEffect.emit "postopen"] ++
              SlidingMenuView.callbackEffects (normalizeOptions arg)) ∧
        (u._doorLock.waitList = [] → drained = [])) ∧
    (∀ c, (normalizeOptions arg).callback = some c →
      SlidingMenuView.callbackEffects (normalizeOptions arg) = [ViewEffect.call c]) ∧
    (∀ c, normalizeOptions (OptionsArg.function c) = { callback := some c, animation := none }) := by
  rw [view_open_of_not_opened v arg hl ho]
  refine ⟨rfl, rfl, rfl, ?_, ?_, fun _ => rfl⟩
  · intro u i h
    exact animationDone_opening u i _ h
  · intro c hc
    simp [SlidingMenuView.callbackEffects, hc]

/-- C14 witness: a closed menu (`0` of `300`) opened with a bare function `7`
and `animation` unset, then the completion of the animation. -/
theorem view_open_sequence_witness :
    (SlidingMenuView.animationDone
      (SlidingMenuView.open
        { _logic := ⟨0, 300⟩, _doorLock := ⟨false, [], false⟩, _isRightMenu := false,
          _lastDistance := none, swipeTargetWidth := AttrValue.undefined, clientWidth := 320,
          running := [], tapBound := false, trace := [] }
        (OptionsArg.function 7)) 0).trace =
      [ViewEffect.emit "preopen", ViewEffect.lock, ViewEffect.openMenu false,
       ViewEffect.done Transition.opening, ViewEffect.unlock,
       ViewEffect.tapOn, ViewEffect.emit "postopen", ViewEffect.call 7] := by
  have h := view_open_sequence
    { _logic := ⟨0, 300⟩, _doorLock := ⟨false, [], false⟩, _isRightMenu := false,
      _lastDistance := none, swipeTargetWidth := AttrValue.undefined, clientWidth := 320,
      running := [], tapBound := false, trace := [] }
    (OptionsArg.function 7) rfl (by decide)
  obtain ⟨drained, h1, h2⟩ := (h.2.2.2.1
    (SlidingMenuView.open
      { _logic := ⟨0, 300⟩, _doorLock := ⟨false, [], false⟩, _isRightMenu := false,
        _lastDistance := none, swipeTargetWidth := AttrValue.undefined, clientWidth := 320,
        running := [], tapBound := false, trace := [] }
      (OptionsArg.function 7)) 0 (by decide)).2
  rw [h1, h2 (by decide), h.1]
  decide

/-- C15 (as amended): on a view whose guard is unlocked and whose model is
already opened, `open(options)` emits `preopen`, invokes `options.callback`
exactly once when there is one, and does nothing else: no call of the
animator, the guard is not taken, nothing is queued, the model and the tap
listener are as they were, and `postopen` is not emitted. -/
theorem view_open_opened (v : SlidingMenuView) (arg : OptionsArg)
    (hl : v._doorLock.locked = false) (ho : v._logic.isOpened = true) :
    v.open arg =
      { v with trace := v.trace ++
          ([ViewEffect.emit "preopen"] ++
            SlidingMenuView.callbackEffects (normalizeOptions arg)) } ∧
    (∀ c, (normalizeOptions arg).callback = some c →
      SlidingMenuView.callbackEffects (normalizeOptions arg) = [ViewEffect.call c]) ∧
    ((normalizeOptions arg).callback = none →
      SlidingMenuView.callbackEffects (normalizeOptions arg) = []) := by
  refine ⟨view_open_of_opened v arg hl ho, ?_, ?_⟩
  · intro c hc
    simp [SlidingMenuView.callbackEffects, hc]
  · intro hc
    simp [SlidingMenuView.callbackEffects, hc]

/-- C15 witness: an opened menu (`300` of `300`) opened again with callback
`7`. -/
theorem view_open_opened_witness :
    SlidingMenuView.open
        { _logic := ⟨300, 300⟩, _doorLock := ⟨false, [], false⟩, _isRightMenu := false,
          _lastDistance := none, swipeTargetWidth := AttrValue.undefined, clientWidth := 320,
          running := [], tapBound := true, trace := [] }
        (OptionsArg.object ⟨some 7, none⟩) =
      { _logic := ⟨300, 300⟩, _doorLock := ⟨false, [], false⟩, _isRightMenu := false,
        _lastDistance := none, swipeTargetWidth := AttrValue.undefined, clientWidth := 320,
        running := [], tapBound := true,
        trace := [ViewEffect.emit "preopen", ViewEffect.call 7] } := by
  have h := view_open_opened
    { _logic := ⟨300, 300⟩, _doorLock := ⟨false, [], false⟩, _isRightMenu := false,
      _lastDistance := none, swipeTargetWidth := AttrValue.undefined, clientWidth := 320,
      running := [], tapBound := true, trace := [] }
    (OptionsArg.object ⟨some 7, none⟩) rfl (by decide)
  rw [h.1, h.2.1 7 rfl]
  rfl

/-- C15 counterexample: an opened menu (`300` of `300`) with the guard
unlocked, opened again: the `preopen` event is emitted. -/
theorem view_open_opened_counterexample :
    (SlidingMenuView._doorLock
      { _logic := ⟨300, 300⟩, _doorLock := ⟨false, [], false⟩, _isRightMenu := false,
        _lastDistance := none, swipeTargetWidth := AttrValue.undefined, clientWidth := 320,
        running := [], tapBound := true, trace := [] }).locked = false ∧
    SlidingMenuViewModel.isOpened ⟨300, 300⟩ = true ∧
    ViewEffect.emit "preopen" ∈
      (SlidingMenuView.open
        { _logic := ⟨300, 300⟩, _doorLock := ⟨false, [], false⟩, _isRightMenu := false,
          _lastDistance := none, swipeTargetWidth := AttrValue.undefined, clientWidth := 320,
          running := [], tapBound := true, trace := [] }
        (OptionsArg.object ⟨some 7, none⟩)).trace := by
  decide

/-! ## Theorems: the animator registry -/

/-- C16: `_getAnimatorOption` returns `copy()` of the registry entry under the
type key when that entry is a `SlidingMenuAnimator`, and `copy()` of the
`default` entry for every other key (no entry, or an entry that is not an
animator); after `registerSlidingMenuAnimator('custom', a)` with an animator
`a`, which does not raise, a menu with `type = 'custom'` obtains the copy of
`a`, which is not a copy of a `default` entry that is another instance. -/
theorem getAnimatorOption_copy (dict : AnimatorDict) (type : Option String) :
    (∀ id, dict (typeKey type) = some (JSObject.animator id) →
      _getAnimatorOption dict type = copyOf (dict (typeKey type)) ∧
      _getAnimatorOption dict type = some { source := id }) ∧
    ((∀ id, dict (typeKey type) ≠ some (JSObject.animator id)) →
      _getAnimatorOption dict type = copyOf (dict "default")) ∧
    (∀ id,
      (registerSlidingMenuAnimator dict "custom" (JSObject.animator id)).2 = none ∧
      _getAnimatorOption (registerSlidingMenuAnimator dict "custom" (JSObject.animator id)).1
        (some "custom") = some { source := id } ∧
      (∀ d, dict "default" = some (JSObject.animator d) → d ≠ id →
        _getAnimatorOption (registerSlidingMenuAnimator dict "custom" (JSObject.animator id)).1
          (some "custom") ≠
        copyOf ((registerSlidingMenuAnimator dict "custom" (JSObject.animator id)).1
          "default"))) := by
  refine ⟨?_, ?_, ?_⟩
  · intro id h
    simp [_getAnimatorOption, h, copyOf]
  · intro h
    unfold _getAnimatorOption
    cases hk : dict (typeKey type) with
    | none => rfl
    | some a =>
      cases a with
      | animator id => exact absurd hk (h id)
      | other => rfl
  · intro id
    refine ⟨rfl, ?_, ?_⟩
    · simp [_getAnimatorOption, registerSlidingMenuAnimator, typeKey, copyOf]
    · intro d hd hne
      simp [_getAnimatorOption, registerSlidingMenuAnimator, typeKey, copyOf, hd]
      exact fun h => hne h.symm

/-- C16 witness: in the preset registry the key `push` gives a copy of the
`push` entry and an unknown key a copy of the `default` entry; after
registering animator `9` as `custom`, the key `custom` gives a copy of `9`. -/
theorem getAnimatorOption_copy_witness :
    _getAnimatorOption _animatorDict (some "push") = some { source := 3 } ∧
    _getAnimatorOption _animatorDict (some "fancy") = some { source := 0 } ∧
    _getAnimatorOption (registerSlidingMenuAnimator _animatorDict "custom" (JSObject.animator 9)).1
      (some "custom") = some { source := 9 } := by
  refine ⟨((getAnimatorOption_copy _animatorDict (some "push")).1 3 (by decide)).2, ?_,
    ((getAnimatorOption_copy _animatorDict none).2.2 9).2.1⟩
  have hk : _animatorDict (typeKey (some "fancy")) = none := by decide
  rw [(getAnimatorOption_copy _animatorDict (some "fancy")).2.1
    (fun id h => by rw [hk] at h; exact absurd h (by simp))]
  decide

/-- C17: `registerSlidingMenuAnimator(name, a)` raises if and only if `a` is
not a `SlidingMenuAnimator`; when it raises the registry is unchanged, and
when it does not the registry maps `name` to `a` and every other key to what
it was mapped to before. -/
theorem register_raises (dict : AnimatorDict) (name : String) (a : JSObject) :
    ((registerSlidingMenuAnimator dict name a).2.isSome = true ↔
      ∀ id, a ≠ JSObject.animator id) ∧
    ((registerSlidingMenuAnimator dict name a).2.isSome = true →
      (registerSlidingMenuAnimator dict name a).1 = dict) ∧
    ((registerSlidingMenuAnimator dict name a).2 = none →
      (registerSlidingMenuAnimator dict name a).1 name = some a ∧
      ∀ key, key ≠ name → (registerSlidingMenuAnimator dict name a).1 key = dict key) := by
  cases a with
  | animator id =>
    refine ⟨?_, ?_, ?_⟩
    · simp [registerSlidingMenuAnimator]
    · simp [registerSlidingMenuAnimator]
    · intro _
      refine ⟨by simp [registerSlidingMenuAnimator], ?_⟩
      intro key hk
      simp [registerSlidingMenuAnimator, hk]
  | other =>
    refine ⟨?_, ?_, ?_⟩
    · simp [registerSlidingMenuAnimator]
    · intro _
      rfl
    · simp [registerSlidingMenuAnimator]

/-- C17 witness: registering something that is not an animator raises and
leaves the preset registry as it is; registering animator `9` as `custom`
does not raise, maps `custom` to it and leaves `default` as it was. -/
theorem register_raises_witness :
    (registerSlidingMenuAnimator _animatorDict "custom" JSObject.other).1 = _animatorDict ∧
    (registerSlidingMenuAnimator _animatorDict "custom" (JSObject.animator 9)).1 "custom"
      = some (JSObject.animator 9) ∧
    (registerSlidingMenuAnimator _animatorDict "custom" (JSObject.animator 9)).1 "default"
      = _animatorDict "default" := by
  have h1 := register_raises _animatorDict "custom" JSObject.other
  have h2 := register_raises _animatorDict "custom" (JSObject.animator 9)
  exact ⟨h1.2.1 (h1.1.mpr (fun id => by simp)), (h2.2.2 rfl).1,
    (h2.2.2 rfl).2 "default" (by decide)⟩

/-! ## Theorems: the swipe target width -/

/-- C18 (failing input): with `swipeTargetWidth = "abc"` and a main page of
width `320`, `_getSwipeTargetWidth` returns `NaN` and not the width of the
main page, and then no touch lies inside the swipe target area, wherever it
is. -/
theorem getSwipeTargetWidth_not_a_number (pageX : ℚ) (isRight : Bool) :
    SlidingMenuView._getSwipeTargetWidth
        { _logic := ⟨0, 300⟩, _doorLock := ⟨false, [], false⟩, _isRightMenu := isRight,
          _lastDistance := none, swipeTargetWidth := AttrValue.string "abc", clientWidth := 320,
          running := [], tapBound := false, trace := [] } = none ∧
    (SlidingMenuView._isInsideSwipeTargetArea
        { _logic := ⟨0, 300⟩, _doorLock := ⟨false, [], false⟩, _isRightMenu := isRight,
          _lastDistance := none, swipeTargetWidth := AttrValue.string "abc", clientWidth := 320,
          running := [], tapBound := false, trace := [] }
        { type := EventType.touch, target := [none],
          gesture := ⟨0, pageX, ⟨none, none⟩⟩ }).1 = false := by
  have h : SlidingMenuView._getSwipeTargetWidth
        { _logic := ⟨0, 300⟩, _doorLock := ⟨false, [], false⟩, _isRightMenu := isRight,
          _lastDistance := none, swipeTargetWidth := AttrValue.string "abc", clientWidth := 320,
          running := [], tapBound := false, trace := [] } = none := by
    simp only [SlidingMenuView._getSwipeTargetWidth]
    have h1 : removeFirstPx "abc".toList = ['a', 'b', 'c'] := by decide
    have h2 : parseIntChars ['a', 'b', 'c'] = none := by decide
    rw [h1, h2]
    simp
  refine ⟨h, ?_⟩
  simp only [SlidingMenuView._isInsideSwipeTargetArea, h]

/-! ## Theorems: the setup window -/

theorem view_init_eq (side swipeTargetWidth : AttrValue) (clientWidth maxDistance : ℚ)
    (drainAll : Bool) :
    SlidingMenuView.init side swipeTargetWidth clientWidth maxDistance drainAll =
      Except.ok
        { _logic := ⟨0, max maxDistance 1⟩,
          _doorLock := { locked := true, waitList := [], drainAll := drainAll },
          _isRightMenu := decide (side = AttrValue.string "right"),
          _lastDistance := none,
          swipeTargetWidth := swipeTargetWidth,
          clientWidth := clientWidth,
          running := [],
          tapBound := false,
          trace := [ViewEffect.lock] } := by
  have h : ¬ max maxDistance 1 ≤ 0 := by
    intro h
    have h1 : (1 : ℚ) ≤ max maxDistance 1 := le_max_right _ _
    linarith
  simp [SlidingMenuView.init, SlidingMenuViewModel.init, h, SlidingMenuView.lock]

theorem deliver_locked (v : SlidingMenuView) (call : Call)
    (hl : v._doorLock.locked = true) :
    (v.deliver call)._doorLock.locked = true ∧
    (v.deliver call)._logic = v._logic ∧
    (v.deliver call).running = v.running ∧
    ∃ es, (v.deliver call).trace = v.trace ++ es ∧
      es.all ViewEffect.allowedBeforeSetup = true := by
  have hopen : ∀ arg, (v.open arg)._doorLock.locked = true ∧
      (v.open arg)._logic = v._logic ∧ (v.open arg).running = v.running ∧
      ∃ es, (v.open arg).trace = v.trace ++ es ∧
        es.all ViewEffect.allowedBeforeSetup = true := by
    intro arg
    have heq : v.open arg =
        { v with
          _doorLock := { v._doorLock with
            waitList := v._doorLock.waitList ++ [Waiter.open (normalizeOptions arg)] },
          trace := v.trace ++ [ViewEffect.emit "preopen"] } := by
      simp [SlidingMenuView.open, SlidingMenuView.log, SlidingMenuView.waitUnlock, hl]
    rw [heq]
    exact ⟨hl, rfl, rfl, [ViewEffect.emit "preopen"], rfl, by decide⟩
  have hclose : ∀ arg, (v.close arg)._doorLock.locked = true ∧
      (v.close arg)._logic = v._logic ∧ (v.close arg).running = v.running ∧
      ∃ es, (v.close arg).trace = v.trace ++ es ∧
        es.all ViewEffect.allowedBeforeSetup = true := by
    intro arg
    have heq : v.close arg =
        { v with
          _doorLock := { v._doorLock with
            waitList := v._doorLock.waitList ++ [Waiter.close (normalizeOptions arg)] },
          tapBound := false,
          trace := v.trace ++ [ViewEffect.tapOff, ViewEffect.emit "preclose"] } := by
      simp [SlidingMenuView.close, SlidingMenuView.waitUnlock, hl]
    rw [heq]
    exact ⟨hl, rfl, rfl, [ViewEffect.tapOff, ViewEffect.emit "preclose"], rfl, by decide⟩
  cases call with
  | event e =>
    have heq : v.deliver (Call.event e) = v := by
      simp only [SlidingMenuView.deliver, handleEvent_locked v e hl]
    rw [heq]
    exact ⟨hl, rfl, rfl, [], by simp, rfl⟩
  | «open» arg => exact hopen arg
  | close arg => exact hclose arg
  | toggle arg =>
    simp only [SlidingMenuView.deliver, SlidingMenuView.toggle]
    split
    · exact hopen arg
    · exact hclose arg

theorem deliverAll_locked (calls : List Call) (v : SlidingMenuView)
    (hl : v._doorLock.locked = true) :
    (v.deliverAll calls)._doorLock.locked = true ∧
    (v.deliverAll calls)._logic = v._logic ∧
    (v.deliverAll calls).running = v.running ∧
    ∃ es, (v.deliverAll calls).trace = v.trace ++ es ∧
      es.all ViewEffect.allowedBeforeSetup = true := by
  induction calls generalizing v with
  | nil => exact ⟨hl, rfl, rfl, [], by simp [SlidingMenuView.deliverAll], rfl⟩
  | cons call rest ih =>
    obtain ⟨h1, h2, h3, es1, h4, h5⟩ := deliver_locked v call hl
    obtain ⟨k1, k2, k3, es2, k4, k5⟩ := ih (v.deliver call) h1
    refine ⟨k1, k2.trans h2, k3.trans h3, es1 ++ es2, ?_, ?_⟩
    · show ((v.deliver call).deliverAll rest).trace = v.trace ++ (es1 ++ es2)
      rw [k4, h4, List.append_assoc]
    · rw [List.all_append, h5, k5]
      rfl

/-! ## Theorems: the tap listener -/

/-- C20 (failing input): a closed menu (`0` of `300`), guard unlocked, tap
listener not attached, receives `open()`, then `close()` while the open
animation is in flight, then the completion of the open animation and the
completion of the close animation.  Afterwards no animation is in flight, no
request is queued, the guard is free and the model is closed, yet the tap
listener is attached; this holds for both ways of draining the guard. -/
theorem tap_listener_after_queued_close (drainAll : Bool) :
    (SlidingMenuView.run
        { _logic := ⟨0, 300⟩, _doorLock := ⟨false, [], drainAll⟩, _isRightMenu := false,
          _lastDistance := none, swipeTargetWidth := AttrValue.undefined, clientWidth := 320,
          running := [], tapBound := false, trace := [] }
        [Input.open OptionsArg.undefined, Input.close OptionsArg.undefined,
         Input.animationDone 0, Input.animationDone 0]) =
      { _logic := ⟨0, 300⟩, _doorLock := ⟨false, [], drainAll⟩, _isRightMenu := false,
        _lastDistance := none, swipeTargetWidth := AttrValue.undefined, clientWidth := 320,
        running := [], tapBound := true,
        trace :=
          [ViewEffect.emit "preopen", ViewEffect.lock, ViewEffect.openMenu false,
           ViewEffect.tapOff, ViewEffect.emit "preclose",
           ViewEffect.done Transition.opening, ViewEffect.unlock,
           ViewEffect.lock, ViewEffect.closeMenu false,
           ViewEffect.tapOn, ViewEffect.emit "postopen",
           ViewEffect.done Transition.closing, ViewEffect.unlock,
           ViewEffect.emit "postclose"] } ∧
    SlidingMenuViewModel.isClosed ⟨0, 300⟩ = true := by
  cases drainAll <;> decide

/-! ## Theorems: the deferred setup -/

theorem deferredSetup_raised (v : SlidingMenuView) (maxSlideDistance : Option AttrValue)
    (dict : AnimatorDict) (type : Option String) (q : ℚ)
    (hn : v._normalizeMaxSlideDistanceAttr maxSlideDistance
      = Except.ok (JSValue.number (JSNumber.finite q)))
    (hq : q ≤ 0) :
    v.deferredSetup maxSlideDistance dict type =
      SetupOutcome.raised "maxDistance must be greater then zero." v := by
  unfold SlidingMenuView.deferredSetup
  rw [hn]
  simp [SlidingMenuViewModel.setMaxDistance, hq]

theorem deferredSetup_completed (v : SlidingMenuView) (maxSlideDistance : Option AttrValue)
    (dict : AnimatorDict) (type : Option String) (q : ℚ) (animator : AnimatorCopy)
    (hn : v._normalizeMaxSlideDistanceAttr maxSlideDistance
      = Except.ok (JSValue.number (JSNumber.finite q)))
    (hq : 0 < q) (ha : _getAnimatorOption dict type = some animator) :
    v.deferredSetup maxSlideDistance dict type =
      SetupOutcome.completed animator (setupWidth maxSlideDistance)
        (SlidingMenuView.unlock { v with _logic := (v._logic.setMaxDistance q).1 }) := by
  have hq' : ¬ q ≤ 0 := not_le.mpr hq
  unfold SlidingMenuView.deferredSetup
  rw [hn]
  simp [SlidingMenuViewModel.setMaxDistance, hq', ha]

theorem deliver_locked_clientWidth (v : SlidingMenuView) (call : Call)
    (hl : v._doorLock.locked = true) :
    (v.deliver call).clientWidth = v.clientWidth := by
  have hopen : ∀ arg, (v.open arg).clientWidth = v.clientWidth := by
    intro arg
    simp [SlidingMenuView.open, SlidingMenuView.log, SlidingMenuView.waitUnlock, hl]
  have hclose : ∀ arg, (v.close arg).clientWidth = v.clientWidth := by
    intro arg
    simp [SlidingMenuView.close, SlidingMenuView.waitUnlock, hl]
  cases call with
  | event e => simp only [SlidingMenuView.deliver, handleEvent_locked v e hl]
  | «open» arg => exact hopen arg
  | close arg => exact hclose arg
  | toggle arg =>
    simp only [SlidingMenuView.deliver, SlidingMenuView.toggle]
    split
    · exact hopen arg
    · exact hclose arg

theorem deliverAll_locked_clientWidth (calls : List Call) (v : SlidingMenuView)
    (hl : v._doorLock.locked = true) :
    (v.deliverAll calls).clientWidth = v.clientWidth := by
  induction calls generalizing v with
  | nil => rfl
  | cons call rest ih =>
    have h1 := (deliver_locked v call hl).1
    have h2 := deliver_locked_clientWidth v call hl
    show ((v.deliver call).deliverAll rest).clientWidth = v.clientWidth
    rw [ih (v.deliver call) h1, h2]

/-- C21 (failing input): a view constructed without a `maxSlideDistance`
attribute while its main page has width `0`.  Construction succeeds (the
model gets `Math.max(0, 1)`) and takes the guard.  Whatever is delivered
before the deferred setup runs, the setup callback computes
`0.9 * 0 = 0`, `setMaxDistance(0)` raises, and the callback ends there: the
view is as it was, with the guard still locked and the queue as it was; and
whatever is delivered afterwards, the guard stays locked and no animator
operation is ever invoked. -/
theorem deferredSetup_leaves_guard_locked (side swipeTargetWidth : AttrValue)
    (drainAll : Bool) (dict : AnimatorDict) (type : Option String)
    (calls later : List Call) :
    ∃ v0, SlidingMenuView.init side swipeTargetWidth 0 0 drainAll = Except.ok v0 ∧
      v0._normalizeMaxSlideDistanceAttr none = Except.ok (JSValue.number (JSNumber.finite 0)) ∧
      (v0.deliverAll calls).deferredSetup none dict type =
        SetupOutcome.raised "maxDistance must be greater then zero." (v0.deliverAll calls) ∧
      (v0.deliverAll calls)._doorLock.locked = true ∧
      ((v0.deliverAll calls).deliverAll later)._doorLock.locked = true ∧
      ((v0.deliverAll calls).deliverAll later).trace.any ViewEffect.isAnimatorOp = false := by
  refine ⟨_, view_init_eq side swipeTargetWidth 0 0 drainAll, ?_, ?_⟩
  · simp [SlidingMenuView._normalizeMaxSlideDistanceAttr]
  obtain ⟨h1, _, _, es, h4, h5⟩ := deliverAll_locked calls
    { _logic := ⟨0, max 0 1⟩,
      _doorLock := { locked := true, waitList := [], drainAll := drainAll },
      _isRightMenu := decide (side = AttrValue.string "right"),
      _lastDistance := none,
      swipeTargetWidth := swipeTargetWidth,
      clientWidth := 0,
      running := [],
      tapBound := false,
      trace := [ViewEffect.lock] } rfl
  have hw := deliverAll_locked_clientWidth calls
    { _logic := ⟨0, max 0 1⟩,
      _doorLock := { locked := true, waitList := [], drainAll := drainAll },
      _isRightMenu := decide (side = AttrValue.string "right"),
      _lastDistance := none,
      swipeTargetWidth := swipeTargetWidth,
      clientWidth := 0,
      running := [],
      tapBound := false,
      trace := [ViewEffect.lock] } rfl
  obtain ⟨k1, _, _, es2, k4, k5⟩ := deliverAll_locked later _ h1
  refine ⟨?_, h1, k1, ?_⟩
  · apply deferredSetup_raised _ none dict type (9 / 10 * 0)
    · simp only [SlidingMenuView._normalizeMaxSlideDistanceAttr, hw]
    · norm_num
  · rw [k4, h4, Bool.eq_false_iff]
    intro hany
    rw [List.any_eq_true] at hany
    obtain ⟨e, he, hop⟩ := hany
    have hall : (([ViewEffect.lock] ++ es) ++ es2).all ViewEffect.allowedBeforeSetup = true := by
      rw [List.all_append, List.all_append, h5, k5]
      rfl
    have := List.all_eq_true.mp hall e he
    simp [ViewEffect.allowedBeforeSetup, hop] at this

/-- The two ways the deferred setup ends for a view in its setup window with
one `open()` queued: with a main page of width `320` the setup sets
`maxDistance = 288`, chooses the default animator and releases the guard, and
the queued `open()` starts its animation; with width `0` it raises and the
request stays queued behind the locked guard. -/
theorem deferredSetup_both_ways :
    SlidingMenuView.deferredSetup
        { _logic := ⟨0, 288⟩, _doorLock := ⟨true, [Waiter.open ⟨none, none⟩], true⟩,
          _isRightMenu := false, _lastDistance := none,
          swipeTargetWidth := AttrValue.undefined, clientWidth := 320,
          running := [], tapBound := false,
          trace := [ViewEffect.lock, ViewEffect.emit "preopen"] }
        none _animatorDict none =
      SetupOutcome.completed { source := 0 } "90%"
        { _logic := ⟨288, 288⟩, _doorLock := ⟨true, [], true⟩,
          _isRightMenu := false, _lastDistance := none,
          swipeTargetWidth := AttrValue.undefined, clientWidth := 320,
          running := [{ kind := Transition.opening, options := ⟨none, none⟩ }],
          tapBound := false,
          trace := [ViewEffect.lock, ViewEffect.emit "preopen", ViewEffect.unlock,
                    ViewEffect.lock, ViewEffect.openMenu false] } ∧
    SlidingMenuView.deferredSetup
        { _logic := ⟨0, 1⟩, _doorLock := ⟨true, [Waiter.open ⟨none, none⟩], true⟩,
          _isRightMenu := false, _lastDistance := none,
          swipeTargetWidth := AttrValue.undefined, clientWidth := 0,
          running := [], tapBound := false,
          trace := [ViewEffect.lock, ViewEffect.emit "preopen"] }
        none _animatorDict none =
      SetupOutcome.raised "maxDistance must be greater then zero."
        { _logic := ⟨0, 1⟩, _doorLock := ⟨true, [Waiter.open ⟨none, none⟩], true⟩,
          _isRightMenu := false, _lastDistance := none,
          swipeTargetWidth := AttrValue.undefined, clientWidth := 0,
          running := [], tapBound := false,
          trace := [ViewEffect.lock, ViewEffect.emit "preopen"] } := by
  refine ⟨?_, ?_⟩
  · rw [deferredSetup_completed _ none _animatorDict none 288 { source := 0 }
      (by norm_num [SlidingMenuView._normalizeMaxSlideDistanceAttr]) (by norm_num) (by decide)]
    decide
  · exact deferredSetup_raised _ none _animatorDict none 0
      (by norm_num [SlidingMenuView._normalizeMaxSlideDistanceAttr]) (le_refl _)

/-! ## Theorems: the distance model on JavaScript values -/

theorem js_le_refl (a : JSNumber) (h : a ≠ JSNumber.nan) : JSNumber.le a a = true := by
  cases a with
  | finite q => simp [JSNumber.le]
  | nan => exact absurd rfl h
  | infinity negative => cases negative <;> rfl

theorem js_le_ne_nan (a b : JSNumber) (h : JSNumber.le a b = true) :
    a ≠ JSNumber.nan ∧ b ≠ JSNumber.nan := by
  cases a <;> cases b <;> simp_all [JSNumber.le]

theorem js_lt_le (a b : JSNumber) (h : JSNumber.lt a b = true) : JSNumber.le a b = true := by
  cases a <;> cases b <;> simp_all [JSNumber.le, JSNumber.lt]
  · exact le_of_lt h

theorem js_le_trans (a b c : JSNumber) (h1 : JSNumber.le a b = true)
    (h2 : JSNumber.le b c = true) : JSNumber.le a c = true := by
  rcases a with p | _ | (_ | _) <;> rcases b with q | _ | (_ | _) <;>
    rcases c with r | _ | (_ | _) <;> simp_all [JSNumber.le]
  · exact le_trans h1 h2

theorem js_not_le (a b : JSNumber) (ha : a ≠ JSNumber.nan) (hb : b ≠ JSNumber.nan)
    (h : JSNumber.le a b = false) : JSNumber.lt b a = true := by
  cases a <;> cases b <;> simp_all [JSNumber.le, JSNumber.lt]

theorem js_pred_le (a : JSNumber) (h : a ≠ JSNumber.nan) :
    JSNumber.le (JSNumber.pred a) a = true ∧ JSNumber.pred a ≠ JSNumber.nan := by
  cases a with
  | finite q => simp [JSNumber.pred, JSNumber.le]
  | nan => exact absurd rfl h
  | infinity negative => cases negative <;> simp [JSNumber.pred, JSNumber.le]

theorem js_min_spec (a b : JSNumber) (ha : a ≠ JSNumber.nan) (hb : b ≠ JSNumber.nan) :
    JSNumber.min a b ≠ JSNumber.nan ∧ JSNumber.le (JSNumber.min a b) a = true := by
  unfold JSNumber.min
  rw [if_neg (by simp [ha, hb])]
  cases h : JSNumber.le a b with
  | true => exact ⟨by simpa using ha, by simpa using js_le_refl a ha⟩
  | false => exact ⟨by simpa using hb, by simpa using js_lt_le b a (js_not_le a b ha hb h)⟩

theorem js_max_spec (a b : JSNumber) (ha : a ≠ JSNumber.nan) (hb : b ≠ JSNumber.nan) :
    JSNumber.max a b ≠ JSNumber.nan ∧ JSNumber.le a (JSNumber.max a b) = true ∧
    (JSNumber.max a b = a ∨ JSNumber.max a b = b) := by
  unfold JSNumber.max
  rw [if_neg (by simp [ha, hb])]
  cases h : JSNumber.le a b with
  | true => exact ⟨by simpa using hb, by simpa using h, Or.inr (by simp)⟩
  | false => exact ⟨by simpa using ha, by simpa using js_le_refl a ha, Or.inl (by simp)⟩

theorem js_min_finite (p q : ℚ) :
    JSNumber.min (JSNumber.finite p) (JSNumber.finite q) = JSNumber.finite (min p q) := by
  simp only [JSNumber.min, JSNumber.le]
  by_cases h : p ≤ q
  · simp [h]
  · simp [h, min_eq_right (le_of_not_ge h)]

theorem js_max_finite (p q : ℚ) :
    JSNumber.max (JSNumber.finite p) (JSNumber.finite q) = JSNumber.finite (max p q) := by
  simp only [JSNumber.max, JSNumber.le]
  by_cases h : p ≤ q
  · simp [h]
  · simp [h, max_eq_left (le_of_not_ge h)]

theorem js_strictEquals_finite (p q : ℚ) :
    (JSValue.number (JSNumber.finite p)).strictEquals (JSValue.number (JSNumber.finite q))
      = decide (p = q) := rfl

theorem js_strictEquals_self (v : JSValue) :
    v.strictEquals v = true ↔ v ≠ JSValue.number JSNumber.nan := by
  cases v with
  | number n => cases n <;> simp [JSValue.strictEquals]
  | string s => simp [JSValue.strictEquals]

theorem js_strictEquals_eq (a b : JSValue) (h : a.strictEquals b = true) : a = b := by
  cases a with
  | number n =>
    cases b with
    | number k => cases n <;> cases k <;> simp_all [JSValue.strictEquals]
    | string t => simp [JSValue.strictEquals] at h
  | string s =>
    cases b with
    | number k => simp [JSValue.strictEquals] at h
    | string t => simpa [JSValue.strictEquals] using h

theorem js_open_of_not_opened (m : JS.SlidingMenuViewModel) (options : Options)
    (h : m.isOpened = false) :
    m.open options =
      ({ m with _distance := m._maxDistance }, [JS.Effect.emit (JS.Signal.open options)]) := by
  simp [JS.SlidingMenuViewModel.open, h]

theorem js_open_of_opened (m : JS.SlidingMenuViewModel) (options : Options)
    (h : m.isOpened = true) : m.open options = (m, JS.invokeCallback options) := by
  simp [JS.SlidingMenuViewModel.open, h]

theorem js_close_of_not_closed (m : JS.SlidingMenuViewModel) (options : Options)
    (h : m.isClosed = false) :
    m.close options =
      ({ m with _distance := JSValue.number (JSNumber.finite 0) },
       [JS.Effect.emit (JS.Signal.close options)]) := by
  simp [JS.SlidingMenuViewModel.close, h]

theorem js_close_of_closed (m : JS.SlidingMenuViewModel) (options : Options)
    (h : m.isClosed = true) : m.close options = (m, JS.invokeCallback options) := by
  simp [JS.SlidingMenuViewModel.close, h]

/-- C5 (as amended): on a model that is not opened, `open(options)` sets the
distance to `maxDistance`, leaves `maxDistance` as it is, and its effects are
exactly one `open` signal carrying `options` (no callback invocation);
`isOpened()` holds afterwards when `maxDistance` is not `NaN`.  On a model
that is not closed, `close(options)` sets the distance to `0`, so that
`isClosed()` holds afterwards, leaves `maxDistance` as it is, and its effects
are exactly one `close` signal carrying `options`.  The model holds whatever
the code stores: numbers, `NaN`, the infinities, strings. -/
theorem js_open_close_transition (m : JS.SlidingMenuViewModel) (options : Options) :
    (m.isOpened = false →
      (m.open options).1._distance = m._maxDistance ∧
      (m.open options).1._maxDistance = m._maxDistance ∧
      (m.open options).2 = [JS.Effect.emit (JS.Signal.open options)] ∧
      (m._maxDistance ≠ JSValue.number JSNumber.nan → (m.open options).1.isOpened = true)) ∧
    (m.isClosed = false →
      (m.close options).1._distance = JSValue.number (JSNumber.finite 0) ∧
      (m.close options).1._maxDistance = m._maxDistance ∧
      (m.close options).1.isClosed = true ∧
      (m.close options).2 = [JS.Effect.emit (JS.Signal.close options)]) := by
  refine ⟨?_, ?_⟩
  · intro h
    rw [js_open_of_not_opened m options h]
    refine ⟨rfl, rfl, rfl, ?_⟩
    intro hn
    exact (js_strictEquals_self m._maxDistance).mpr hn
  · intro h
    rw [js_close_of_not_closed m options h]
    exact ⟨rfl, rfl, by simp [JS.SlidingMenuViewModel.isClosed, JSValue.strictEquals], rfl⟩

/-- C5 witness: a model at `50` of `200` opened, and closed; a model whose
maximum is the string `200` opened. -/
theorem js_open_close_transition_witness :
    (JS.SlidingMenuViewModel.open
        ⟨JSValue.number (JSNumber.finite 50), JSValue.number (JSNumber.finite 200)⟩
        ⟨some 7, none⟩).1.isOpened = true ∧
    (JS.SlidingMenuViewModel.close
        ⟨JSValue.number (JSNumber.finite 50), JSValue.number (JSNumber.finite 200)⟩
        ⟨some 7, none⟩).1.isClosed = true ∧
    (JS.SlidingMenuViewModel.open
        ⟨JSValue.number (JSNumber.finite 0), JSValue.string "200"⟩
        ⟨some 7, none⟩).1.isOpened = true := by
  have h1 := js_open_close_transition
    ⟨JSValue.number (JSNumber.finite 50), JSValue.number (JSNumber.finite 200)⟩ ⟨some 7, none⟩
  have h2 := js_open_close_transition
    ⟨JSValue.number (JSNumber.finite 0), JSValue.string "200"⟩ ⟨some 7, none⟩
  exact ⟨(h1.1 (by decide)).2.2.2 (by simp), (h1.2 (by decide)).2.2.1,
    (h2.1 (by decide)).2.2.2 (by simp)⟩

/-- C5 counterexample: a model at distance `0` whose `maxDistance` is `NaN`
(what the view builds for `maxSlideDistance = "abcpx"`) is not opened;
`open(options)` sets the distance to `NaN`, and `isOpened()` does not hold
afterwards. -/
theorem js_open_close_transition_counterexample :
    JS.SlidingMenuViewModel.isOpened
      ⟨JSValue.number (JSNumber.finite 0), JSValue.number JSNumber.nan⟩ = false ∧
    (JS.SlidingMenuViewModel.open
        ⟨JSValue.number (JSNumber.finite 0), JSValue.number JSNumber.nan⟩
        ⟨none, none⟩).1._distance = JSValue.number JSNumber.nan ∧
    (JS.SlidingMenuViewModel.open
        ⟨JSValue.number (JSNumber.finite 0), JSValue.number JSNumber.nan⟩
        ⟨none, none⟩).1.isOpened = false := by
  decide

/-! ## Theorems: the two models agree on finite numbers -/

theorem js_toJS_isClosed (m : SlidingMenuViewModel) : m.toJS.isClosed = m.isClosed := rfl

theorem js_toJS_isOpened (m : SlidingMenuViewModel) : m.toJS.isOpened = m.isOpened := rfl

theorem js_toJS_shouldOpen (m : SlidingMenuViewModel) : m.toJS.shouldOpen = m.shouldOpen := rfl

theorem js_toJS_shouldClose (m : SlidingMenuViewModel) :
    m.toJS.shouldClose = m.shouldClose := rfl

theorem js_toJS_open (m : SlidingMenuViewModel) (options : Options) :
    m.toJS.open options = ((m.open options).1.toJS, (m.open options).2.map Effect.toJS) := by
  simp only [JS.SlidingMenuViewModel.open, SlidingMenuViewModel.open, js_toJS_isOpened]
  by_cases ho : m.isOpened = true <;> cases hc : options.callback <;>
    simp [ho, SlidingMenuViewModel.toJS, Effect.toJS, invokeCallback, JS.invokeCallback, hc]

theorem js_toJS_close (m : SlidingMenuViewModel) (options : Options) :
    m.toJS.close options = ((m.close options).1.toJS, (m.close options).2.map Effect.toJS) := by
  simp only [JS.SlidingMenuViewModel.close, SlidingMenuViewModel.close, js_toJS_isClosed]
  by_cases ho : m.isClosed = true <;> cases hc : options.callback <;>
    simp [ho, SlidingMenuViewModel.toJS, Effect.toJS, invokeCallback, JS.invokeCallback, hc]

theorem js_toJS_translate (m : SlidingMenuViewModel) (x : ℚ) :
    m.toJS.translate (JSValue.number (JSNumber.finite x)) =
      ((m.translate x).1.toJS, (m.translate x).2.map Effect.toJS) := by
  simp [JS.SlidingMenuViewModel.translate, SlidingMenuViewModel.translate,
    SlidingMenuViewModel.toJS, Effect.toJS, JSValue.toNumber, JSNumber.pred, js_min_finite,
    js_max_finite]

theorem js_toJS_setMaxDistance (m : SlidingMenuViewModel) (maxDistance : ℚ) :
    m.toJS.setMaxDistance (JSValue.number (JSNumber.finite maxDistance)) =
      ((m.setMaxDistance maxDistance).1.toJS, (m.setMaxDistance maxDistance).2) := by
  simp only [JS.SlidingMenuViewModel.setMaxDistance, SlidingMenuViewModel.setMaxDistance,
    js_toJS_isOpened, JSValue.toNumber, JSNumber.le, decide_eq_true_eq]
  by_cases h : maxDistance ≤ 0
  · simp [h]
  · by_cases ho : m.isOpened = true <;> simp [h, ho, SlidingMenuViewModel.toJS]

/-! ## Theorems: the range of the distance on JavaScript values -/

theorem js_isNumeric (x : JSValue) (h : JS.isNumeric x = true) :
    ∃ n, x = JSValue.number n ∧ n ≠ JSNumber.nan := by
  cases x with
  | number n => cases n <;> simp_all [JS.isNumeric]
  | string s => simp [JS.isNumeric] at h

theorem js_translate_bounds (mx x : JSNumber) (hmx : mx ≠ JSNumber.nan)
    (hx : x ≠ JSNumber.nan) :
    JSNumber.le (JSNumber.finite 1)
      (JSNumber.max (JSNumber.finite 1) (JSNumber.min (JSNumber.pred mx) x)) = true ∧
    (JSNumber.le (JSNumber.finite 1) mx = true →
      JSNumber.le (JSNumber.max (JSNumber.finite 1) (JSNumber.min (JSNumber.pred mx) x))
        mx = true) := by
  have hp := js_pred_le mx hmx
  have hmin := js_min_spec (JSNumber.pred mx) x hp.2 hx
  have hmax := js_max_spec (JSNumber.finite 1) (JSNumber.min (JSNumber.pred mx) x)
    (by simp) hmin.1
  refine ⟨hmax.2.1, ?_⟩
  intro h1
  rcases hmax.2.2 with h | h
  · rw [h]; exact h1
  · rw [h]; exact js_le_trans _ _ _ hmin.2 hp.1

theorem js_step_pos (m1 : JS.SlidingMenuViewModel) (op : JS.Op) (d mx : JSNumber)
    (hmax : JSNumber.lt (JSNumber.finite 0) mx = true)
    (hd : JSNumber.le (JSNumber.finite 0) d = true)
    (hn : JS.SlidingMenuViewModel.numericArgs [op] = true)
    (h : JS.SlidingMenuViewModel.step ⟨JSValue.number d, JSValue.number mx⟩ op = (m1, none)) :
    ∃ d1 mx1, m1 = ⟨JSValue.number d1, JSValue.number mx1⟩ ∧
      JSNumber.lt (JSNumber.finite 0) mx1 = true ∧
      JSNumber.le (JSNumber.finite 0) d1 = true := by
  cases op with
  | «open» o =>
    simp only [JS.SlidingMenuViewModel.step, JS.SlidingMenuViewModel.open, Prod.mk.injEq,
      and_true] at h
    subst h
    split
    · exact ⟨mx, mx, rfl, hmax, js_lt_le _ _ hmax⟩
    · exact ⟨d, mx, rfl, hmax, hd⟩
  | close o =>
    simp only [JS.SlidingMenuViewModel.step, JS.SlidingMenuViewModel.close, Prod.mk.injEq,
      and_true] at h
    subst h
    split
    · exact ⟨JSNumber.finite 0, mx, rfl, hmax, by simp [JSNumber.le]⟩
    · exact ⟨d, mx, rfl, hmax, hd⟩
  | translate x =>
    simp only [JS.SlidingMenuViewModel.numericArgs, Bool.and_true] at hn
    obtain ⟨n, rfl, hx⟩ := js_isNumeric x hn
    simp only [JS.SlidingMenuViewModel.step, JS.SlidingMenuViewModel.translate, Prod.mk.injEq,
      and_true] at h
    subst h
    have hb := js_translate_bounds mx n (js_le_ne_nan _ _ (js_lt_le _ _ hmax)).2 hx
    exact ⟨_, mx, rfl, hmax,
      js_le_trans _ (JSNumber.finite 1) _ (by simp [JSNumber.le]) hb.1⟩
  | setMaxDistance x =>
    simp only [JS.SlidingMenuViewModel.numericArgs, Bool.and_true] at hn
    obtain ⟨n, rfl, hx⟩ := js_isNumeric x hn
    simp only [JS.SlidingMenuViewModel.step, JS.SlidingMenuViewModel.setMaxDistance] at h
    split at h
    · simp at h
    · rename_i hle
      simp only [Prod.mk.injEq, and_true] at h
      subst h
      have hpos : JSNumber.lt (JSNumber.finite 0) n = true :=
        js_not_le n (JSNumber.finite 0) hx (by simp) (by simpa [JSValue.toNumber] using hle)
      split
      · exact ⟨n, n, rfl, hpos, js_lt_le _ _ hpos⟩
      · exact ⟨d, n, rfl, hpos, hd⟩

theorem js_run_pos (ops : List JS.Op) (m1 : JS.SlidingMenuViewModel) (d mx : JSNumber)
    (hmax : JSNumber.lt (JSNumber.finite 0) mx = true)
    (hd : JSNumber.le (JSNumber.finite 0) d = true)
    (hn : JS.SlidingMenuViewModel.numericArgs ops = true)
    (h : JS.SlidingMenuViewModel.run ⟨JSValue.number d, JSValue.number mx⟩ ops = (m1, none)) :
    ∃ d1 mx1, m1 = ⟨JSValue.number d1, JSValue.number mx1⟩ ∧
      JSNumber.lt (JSNumber.finite 0) mx1 = true ∧
      JSNumber.le (JSNumber.finite 0) d1 = true := by
  induction ops generalizing d mx with
  | nil =>
    simp only [JS.SlidingMenuViewModel.run, Prod.mk.injEq, and_true] at h
    subst h
    exact ⟨d, mx, rfl, hmax, hd⟩
  | cons op ops ih =>
    simp only [JS.SlidingMenuViewModel.run] at h
    have hn1 : JS.SlidingMenuViewModel.numericArgs [op] = true ∧
        JS.SlidingMenuViewModel.numericArgs ops = true := by
      cases op <;> simp_all [JS.SlidingMenuViewModel.numericArgs]
    rcases hs : JS.SlidingMenuViewModel.step ⟨JSValue.number d, JSValue.number mx⟩ op
      with ⟨m2, _ | e⟩
    · rw [hs] at h
      obtain ⟨d2, mx2, rfl, h2, h3⟩ := js_step_pos m2 op d mx hmax hd hn1.1 hs
      exact ih d2 mx2 h2 h3 hn1.2 h
    · rw [hs] at h
      simp at h

theorem js_numericArgs_take (ops : List JS.Op) (n : Nat)
    (h : JS.SlidingMenuViewModel.numericArgs ops = true) :
    JS.SlidingMenuViewModel.numericArgs (ops.take n) = true := by
  induction ops generalizing n with
  | nil => simp [JS.SlidingMenuViewModel.numericArgs]
  | cons op ops ih =>
    cases n with
    | zero => simp [JS.SlidingMenuViewModel.numericArgs]
    | succ n =>
      cases op <;>
        simp_all [JS.SlidingMenuViewModel.numericArgs, List.take_succ_cons]

theorem js_init_pos (maxDistance : JSValue) (m : JS.SlidingMenuViewModel)
    (h : JS.SlidingMenuViewModel.init maxDistance = Except.ok m) :
    ∃ md, maxDistance = JSValue.number md ∧
      m = ⟨JSValue.number (JSNumber.finite 0), JSValue.number md⟩ ∧
      JSNumber.le md (JSNumber.finite 0) = false := by
  cases maxDistance with
  | string s => simp [JS.SlidingMenuViewModel.init] at h
  | number md =>
    simp only [JS.SlidingMenuViewModel.init] at h
    split at h
    · simp at h
    · rename_i hx
      simp only [Except.ok.injEq] at h
      exact ⟨md, rfl, h.symm, by simpa using hx⟩

theorem js_step_range (m1 : JS.SlidingMenuViewModel) (op : JS.Op) (d mx : JSNumber)
    (hmax : JSNumber.le (JSNumber.finite 1) mx = true)
    (hle : JSNumber.le d mx = true)
    (hn : JS.SlidingMenuViewModel.numericArgs [op] = true)
    (hk : JS.SlidingMenuViewModel.keepsRange ⟨JSValue.number d, JSValue.number mx⟩ [op] = true)
    (h : JS.SlidingMenuViewModel.step ⟨JSValue.number d, JSValue.number mx⟩ op = (m1, none)) :
    ∃ d1 mx1, m1 = ⟨JSValue.number d1, JSValue.number mx1⟩ ∧
      JSNumber.le (JSNumber.finite 1) mx1 = true ∧ JSNumber.le d1 mx1 = true := by
  have hmxn : mx ≠ JSNumber.nan := (js_le_ne_nan _ _ hmax).2
  cases op with
  | «open» o =>
    simp only [JS.SlidingMenuViewModel.step, JS.SlidingMenuViewModel.open, Prod.mk.injEq,
      and_true] at h
    subst h
    split
    · exact ⟨mx, mx, rfl, hmax, js_le_refl mx hmxn⟩
    · exact ⟨d, mx, rfl, hmax, hle⟩
  | close o =>
    simp only [JS.SlidingMenuViewModel.step, JS.SlidingMenuViewModel.close, Prod.mk.injEq,
      and_true] at h
    subst h
    split
    · exact ⟨JSNumber.finite 0, mx, rfl, hmax,
        js_le_trans _ (JSNumber.finite 1) _ (by simp [JSNumber.le]) hmax⟩
    · exact ⟨d, mx, rfl, hmax, hle⟩
  | translate x =>
    simp only [JS.SlidingMenuViewModel.numericArgs, Bool.and_true] at hn
    obtain ⟨n, rfl, hx⟩ := js_isNumeric x hn
    simp only [JS.SlidingMenuViewModel.step, JS.SlidingMenuViewModel.translate, Prod.mk.injEq,
      and_true] at h
    subst h
    have hb := js_translate_bounds mx n hmxn hx
    exact ⟨_, mx, rfl, hmax, hb.2 hmax⟩
  | setMaxDistance x =>
    simp only [JS.SlidingMenuViewModel.numericArgs, Bool.and_true] at hn
    obtain ⟨n, rfl, hx⟩ := js_isNumeric x hn
    simp only [JS.SlidingMenuViewModel.keepsRange, Bool.and_true, Bool.and_eq_true,
      Bool.or_eq_true, JSValue.toNumber] at hk
    simp only [JS.SlidingMenuViewModel.step, JS.SlidingMenuViewModel.setMaxDistance] at h
    split at h
    · simp at h
    · simp only [Prod.mk.injEq, and_true] at h
      subst h
      split
      · exact ⟨n, n, rfl, hk.1, js_le_refl n hx⟩
      · rename_i ho
        rcases hk.2 with ho2 | hdx
        · exact absurd ho2 ho
        · exact ⟨d, n, rfl, hk.1, hdx⟩

theorem js_run_range (ops : List JS.Op) (m1 : JS.SlidingMenuViewModel) (n : Nat)
    (d mx : JSNumber)
    (hmax : JSNumber.le (JSNumber.finite 1) mx = true)
    (hle : JSNumber.le d mx = true)
    (hn : JS.SlidingMenuViewModel.numericArgs ops = true)
    (hk : JS.SlidingMenuViewModel.keepsRange ⟨JSValue.number d, JSValue.number mx⟩ ops = true)
    (h : JS.SlidingMenuViewModel.run ⟨JSValue.number d, JSValue.number mx⟩ (ops.take n)
      = (m1, none)) :
    ∃ d1 mx1, m1 = ⟨JSValue.number d1, JSValue.number mx1⟩ ∧
      JSNumber.le (JSNumber.finite 1) mx1 = true ∧ JSNumber.le d1 mx1 = true := by
  induction ops generalizing d mx n with
  | nil =>
    simp only [List.take_nil, JS.SlidingMenuViewModel.run, Prod.mk.injEq, and_true] at h
    subst h
    exact ⟨d, mx, rfl, hmax, hle⟩
  | cons op ops ih =>
    cases n with
    | zero =>
      simp only [List.take_zero, JS.SlidingMenuViewModel.run, Prod.mk.injEq, and_true] at h
      subst h
      exact ⟨d, mx, rfl, hmax, hle⟩
    | succ n =>
      simp only [List.take_succ_cons, JS.SlidingMenuViewModel.run] at h
      simp only [JS.SlidingMenuViewModel.keepsRange, Bool.and_eq_true] at hk
      have hn1 : JS.SlidingMenuViewModel.numericArgs [op] = true ∧
          JS.SlidingMenuViewModel.numericArgs ops = true := by
        cases op <;> simp_all [JS.SlidingMenuViewModel.numericArgs]
      rcases hs : JS.SlidingMenuViewModel.step ⟨JSValue.number d, JSValue.number mx⟩ op
        with ⟨m2, _ | e⟩
      · rw [hs] at h hk
        have hk1 : JS.SlidingMenuViewModel.keepsRange
            ⟨JSValue.number d, JSValue.number mx⟩ [op] = true := by
          simp only [JS.SlidingMenuViewModel.keepsRange, Bool.and_true]
          exact hk.1
        obtain ⟨d2, mx2, rfl, h2, h3⟩ := js_step_range m2 op d mx hmax hle hn1.1 hk1 hs
        exact ih n d2 mx2 h2 h3 hn1.2 hk.2 h
      · rw [hs] at h
        simp at h

/-- C1 (as amended): for a model constructed with `maxDistance > 0` and a
sequence of `open`, `close`, `translate` and `setMaxDistance` operations whose
arguments are numbers other than `NaN`, after every operation of the sequence
reached without a raise the distance and the maximum are numbers and
`0 <= distance`; `distance <= maxDistance` holds as well when the model was
constructed with `maxDistance >= 1` and every `setMaxDistance(x)` of the
sequence has `x >= 1` and is issued while the model is opened or while
`distance <= x`.  The model holds whatever the code stores, and the
comparisons are those of JavaScript, false at `NaN`. -/
theorem js_distance_range_of_run (maxDistance : JSValue) (m0 m : JS.SlidingMenuViewModel)
    (ops : List JS.Op) (n : Nat)
    (h0 : JS.SlidingMenuViewModel.init maxDistance = Except.ok m0)
    (hpos : JSNumber.lt (JSNumber.finite 0) maxDistance.toNumber = true)
    (hn : JS.SlidingMenuViewModel.numericArgs ops = true)
    (hr : m0.run (ops.take n) = (m, none)) :
    (∃ d mx, m = ⟨JSValue.number d, JSValue.number mx⟩) ∧
    JSNumber.le (JSNumber.finite 0) m._distance.toNumber = true ∧
      (JSNumber.le (JSNumber.finite 1) maxDistance.toNumber = true →
        m0.keepsRange ops = true →
        JSNumber.le m._distance.toNumber m._maxDistance.toNumber = true) := by
  obtain ⟨md, rfl, rfl, _⟩ := js_init_pos maxDistance m0 h0
  simp only [JSValue.toNumber] at hpos
  have h00 : JSNumber.le (JSNumber.finite 0) (JSNumber.finite 0) = true := by
    simp [JSNumber.le]
  obtain ⟨d, mx, rfl, _, hd⟩ :=
    js_run_pos (ops.take n) m (JSNumber.finite 0) md hpos h00 (js_numericArgs_take ops n hn) hr
  refine ⟨⟨d, mx, rfl⟩, hd, ?_⟩
  intro h1 hk
  simp only [JSValue.toNumber] at h1
  obtain ⟨d1, mx1, heq, _, hle⟩ :=
    js_run_range ops _ n (JSNumber.finite 0) md h1 (js_lt_le _ _ hpos) hn hk hr
  simp only [JS.SlidingMenuViewModel.mk.injEq, JSValue.number.injEq] at heq
  obtain ⟨rfl, rfl⟩ := heq
  exact hle

/-- C1 witness: the model constructed with `maxDistance = 200`, dragged to
`150`, resized to `300`, then closed. -/
theorem js_distance_range_of_run_witness :
    JS.SlidingMenuViewModel.run
        ⟨JSValue.number (JSNumber.finite 0), JSValue.number (JSNumber.finite 200)⟩
        ([JS.Op.translate (JSValue.number (JSNumber.finite 150)),
          JS.Op.setMaxDistance (JSValue.number (JSNumber.finite 300)),
          JS.Op.close ⟨none, none⟩].take 2)
      = (⟨JSValue.number (JSNumber.finite 150), JSValue.number (JSNumber.finite 300)⟩, none) ∧
    JSNumber.le (JSNumber.finite 0) (JSNumber.finite 150) = true ∧
    JSNumber.le (JSNumber.finite 150) (JSNumber.finite 300) = true := by
  have hi : JS.SlidingMenuViewModel.init (JSValue.number (JSNumber.finite 200)) =
      Except.ok ⟨JSValue.number (JSNumber.finite 0), JSValue.number (JSNumber.finite 200)⟩ := by
    norm_num [JS.SlidingMenuViewModel.init, JSNumber.le]
  have hr : JS.SlidingMenuViewModel.run
        ⟨JSValue.number (JSNumber.finite 0), JSValue.number (JSNumber.finite 200)⟩
        ([JS.Op.translate (JSValue.number (JSNumber.finite 150)),
          JS.Op.setMaxDistance (JSValue.number (JSNumber.finite 300)),
          JS.Op.close ⟨none, none⟩].take 2)
      = (⟨JSValue.number (JSNumber.finite 150), JSValue.number (JSNumber.finite 300)⟩, none) := by
    norm_num [JS.SlidingMenuViewModel.run, JS.SlidingMenuViewModel.step,
      JS.SlidingMenuViewModel.translate, JS.SlidingMenuViewModel.setMaxDistance,
      JS.SlidingMenuViewModel.isOpened, js_strictEquals_finite, JSValue.toNumber,
      JSNumber.le, js_min_finite, js_max_finite, JSNumber.pred]
  have hk : JS.SlidingMenuViewModel.keepsRange
      ⟨JSValue.number (JSNumber.finite 0), JSValue.number (JSNumber.finite 200)⟩
      [JS.Op.translate (JSValue.number (JSNumber.finite 150)),
        JS.Op.setMaxDistance (JSValue.number (JSNumber.finite 300)),
        JS.Op.close ⟨none, none⟩] = true := by
    norm_num [JS.SlidingMenuViewModel.keepsRange, JS.SlidingMenuViewModel.step,
      JS.SlidingMenuViewModel.translate, JS.SlidingMenuViewModel.setMaxDistance,
      JS.SlidingMenuViewModel.isOpened, js_strictEquals_finite, JSValue.toNumber,
      JSNumber.le, js_min_finite, js_max_finite, JSNumber.pred]
  have h := js_distance_range_of_run (JSValue.number (JSNumber.finite 200))
    ⟨JSValue.number (JSNumber.finite 0), JSValue.number (JSNumber.finite 200)⟩
    ⟨JSValue.number (JSNumber.finite 150), JSValue.number (JSNumber.finite 300)⟩
    [JS.Op.translate (JSValue.number (JSNumber.finite 150)),
      JS.Op.setMaxDistance (JSValue.number (JSNumber.finite 300)),
      JS.Op.close ⟨none, none⟩] 2 hi
    (by norm_num [JSValue.toNumber, JSNumber.lt])
    (by simp [JS.SlidingMenuViewModel.numericArgs, JS.isNumeric]) hr
  exact ⟨hr, h.2.1, h.2.2 (by norm_num [JSValue.toNumber, JSNumber.le]) hk⟩

/-- C1 counterexample: constructed with `maxDistance = 200`, `translate(150)`
followed by `setMaxDistance(100)` raises nothing and leaves `distance = 150`
above `maxDistance = 100`; constructed with `maxDistance = 200`,
`setMaxDistance(NaN)` followed by `open()` raises nothing and leaves
`distance = NaN`, for which `0 <= distance` is false; constructed with
`maxDistance = 1/2`, `translate(0)` leaves `distance = 1` above
`maxDistance = 1/2`. -/
theorem js_distance_range_counterexample :
    (∃ m0 m, JS.SlidingMenuViewModel.init (JSValue.number (JSNumber.finite 200)) = Except.ok m0 ∧
      m0.run [JS.Op.translate (JSValue.number (JSNumber.finite 150)),
              JS.Op.setMaxDistance (JSValue.number (JSNumber.finite 100))] = (m, none) ∧
      m._distance = JSValue.number (JSNumber.finite 150) ∧
      m._maxDistance = JSValue.number (JSNumber.finite 100) ∧
      JSNumber.le m._distance.toNumber m._maxDistance.toNumber = false) ∧
    (∃ m0 m, JS.SlidingMenuViewModel.init (JSValue.number (JSNumber.finite 200)) = Except.ok m0 ∧
      m0.run [JS.Op.setMaxDistance (JSValue.number JSNumber.nan),
              JS.Op.open ⟨none, none⟩] = (m, none) ∧
      m._distance = JSValue.number JSNumber.nan ∧
      JSNumber.le (JSNumber.finite 0) m._distance.toNumber = false) ∧
    (∃ m0 m, JS.SlidingMenuViewModel.init (JSValue.number (JSNumber.finite (1 / 2)))
        = Except.ok m0 ∧
      m0.run [JS.Op.translate (JSValue.number (JSNumber.finite 0))] = (m, none) ∧
      m._distance = JSValue.number (JSNumber.finite 1) ∧
      JSNumber.le m._distance.toNumber m._maxDistance.toNumber = false) := by
  refine ⟨⟨⟨JSValue.number (JSNumber.finite 0), JSValue.number (JSNumber.finite 200)⟩,
      ⟨JSValue.number (JSNumber.finite 150), JSValue.number (JSNumber.finite 100)⟩,
      ?_, ?_, rfl, rfl, ?_⟩,
    ⟨⟨JSValue.number (JSNumber.finite 0), JSValue.number (JSNumber.finite 200)⟩,
      ⟨JSValue.number JSNumber.nan, JSValue.number JSNumber.nan⟩,
      ?_, ?_, rfl, ?_⟩,
    ⟨⟨JSValue.number (JSNumber.finite 0), JSValue.number (JSNumber.finite (1 / 2))⟩,
      ⟨JSValue.number (JSNumber.finite 1), JSValue.number (JSNumber.finite (1 / 2))⟩,
      ?_, ?_, rfl, ?_⟩⟩ <;>
  norm_num [JS.SlidingMenuViewModel.init, JS.SlidingMenuViewModel.run,
    JS.SlidingMenuViewModel.step, JS.SlidingMenuViewModel.translate,
    JS.SlidingMenuViewModel.setMaxDistance, JS.SlidingMenuViewModel.open,
    JS.SlidingMenuViewModel.isOpened, js_strictEquals_finite, JSValue.strictEquals,
    JSValue.toNumber, JSNumber.le, js_min_finite, js_max_finite, JSNumber.pred]

/-! ## Theorems: a maximum held as a string -/

theorem js_stringToNumber_200 : stringToNumber "200" = JSNumber.finite 200 := by
  have hcs : (("200".toList.dropWhile isStrWhiteSpaceChar).reverse.dropWhile
      isStrWhiteSpaceChar).reverse = ['2', '0', '0'] := by decide
  have ha : afterFloat ['2', '0', '0'] = [] := by decide
  have hi : (['2', '0', '0'] : List Char).takeWhile Char.isDigit = ['2', '0', '0'] := by
    decide
  have hd : (['2', '0', '0'] : List Char).dropWhile Char.isDigit = [] := by decide
  have hv : digitsValue ['2', '0', '0'] = 200 := by decide
  have hv0 : digitsValue [] = 0 := by decide
  have he : exponentPart [] = 0 := by decide
  have hw : (['2', '0', '0'] : List Char).dropWhile isStrWhiteSpaceChar = ['2', '0', '0'] := by
    decide
  simp only [stringToNumber, hcs, ha]
  simp [parseFloatChars, hw, hi, hd, hv, hv0, he]

theorem js_stringToNumber_joined : stringToNumber "-50200" = JSNumber.finite (-50200) := by
  have hcs : (("-50200".toList.dropWhile isStrWhiteSpaceChar).reverse.dropWhile
      isStrWhiteSpaceChar).reverse = ['-', '5', '0', '2', '0', '0'] := by decide
  have ha : afterFloat ['-', '5', '0', '2', '0', '0'] = [] := by decide
  have hi : (['5', '0', '2', '0', '0'] : List Char).takeWhile Char.isDigit
      = ['5', '0', '2', '0', '0'] := by decide
  have hd : (['5', '0', '2', '0', '0'] : List Char).dropWhile Char.isDigit = [] := by decide
  have hv : digitsValue ['5', '0', '2', '0', '0'] = 50200 := by decide
  have hv0 : digitsValue [] = 0 := by decide
  have he : exponentPart [] = 0 := by decide
  have hw : (['-', '5', '0', '2', '0', '0'] : List Char).dropWhile isStrWhiteSpaceChar
      = ['-', '5', '0', '2', '0', '0'] := by decide
  simp only [stringToNumber, hcs, ha]
  simp [parseFloatChars, hw, hi, hd, hv, hv0, he]

theorem js_numberToString_neg_50 : numberToString (JSNumber.finite (-50)) = "-50" := by
  have hf : Rat.floor (50 : ℚ) = 50 := by
    show Int.floor (50 : ℚ) = 50
    simp
  have ha : |(-50 : ℚ)| = 50 := by norm_num
  have hw : (Rat.floor (50 : ℚ)).toNat = 50 := by rw [hf]; rfl
  have hz : fractionDigits 20 ((50 : ℚ) - ((50 : ℕ) : ℚ)) = [] := by
    norm_num [fractionDigits]
  have hneg : (-50 : ℚ) < 0 := by norm_num
  simp only [numberToString, ha, hw, hz, hneg, if_true]
  decide

theorem js_plus_joined :
    JSValue.plus (JSNumber.finite (-50)) (JSValue.string "200") = JSValue.string "-50200" := by
  simp only [JSValue.plus, js_numberToString_neg_50]
  decide

theorem js_c8_init :
    JS.SlidingMenuView.init AttrValue.undefined AttrValue.undefined
        (some (AttrValue.string "200")) 320 false =
      Except.ok
        { _logic := ⟨JSValue.number (JSNumber.finite 0), JSValue.number (JSNumber.finite 200)⟩,
          _doorLock := ⟨true, [], false⟩,
          _isRightMenu := false, _lastDistance := none,
          swipeTargetWidth := AttrValue.undefined, clientWidth := 320,
          running := [], tapBound := false,
          trace := [JS.ViewEffect.lock] } := by
  have hn : JS.SlidingMenuView._normalizeMaxSlideDistanceAttr 320
      (some (AttrValue.string "200")) = Except.ok (JSValue.string "200") := by
    simp [JS.SlidingMenuView._normalizeMaxSlideDistanceAttr]
  simp only [JS.SlidingMenuView.init, hn, JSValue.toNumber, js_stringToNumber_200,
    js_max_finite]
  norm_num [JS.SlidingMenuViewModel.init, JSNumber.le, JS.SlidingMenuView.lock]
  decide

theorem js_c8_setup :
    JS.SlidingMenuView.deferredSetup
        { _logic := ⟨JSValue.number (JSNumber.finite 0), JSValue.number (JSNumber.finite 200)⟩,
          _doorLock := ⟨true, [], false⟩,
          _isRightMenu := false, _lastDistance := none,
          swipeTargetWidth := AttrValue.undefined, clientWidth := 320,
          running := [], tapBound := false,
          trace := [JS.ViewEffect.lock] }
        (some (AttrValue.string "200")) _animatorDict none =
      JS.SetupOutcome.completed
        { _logic := ⟨JSValue.number (JSNumber.finite 0), JSValue.string "200"⟩,
          _doorLock := ⟨false, [], false⟩,
          _isRightMenu := false, _lastDistance := none,
          swipeTargetWidth := AttrValue.undefined, clientWidth := 320,
          running := [], tapBound := false,
          trace := [JS.ViewEffect.lock, JS.ViewEffect.setup { source := 0 } false "200",
                    JS.ViewEffect.unlock] } := by
  have hn : JS.SlidingMenuView._normalizeMaxSlideDistanceAttr 320
      (some (AttrValue.string "200")) = Except.ok (JSValue.string "200") := by
    simp [JS.SlidingMenuView._normalizeMaxSlideDistanceAttr]
  have hs : JS.SlidingMenuViewModel.setMaxDistance
      ⟨JSValue.number (JSNumber.finite 0), JSValue.number (JSNumber.finite 200)⟩
      (JSValue.string "200") =
      (⟨JSValue.number (JSNumber.finite 0), JSValue.string "200"⟩, none) := by
    simp only [JS.SlidingMenuViewModel.setMaxDistance, JSValue.toNumber, js_stringToNumber_200]
    norm_num [JSNumber.le, JS.SlidingMenuViewModel.isOpened, js_strictEquals_finite]
  have ha : _getAnimatorOption _animatorDict none = some { source := 0 } := by decide
  simp only [JS.SlidingMenuView.deferredSetup, hn, hs, ha]
  simp [JS.SlidingMenuView.unlock, JS.SlidingMenuView.drain, setupWidth]

theorem js_c8_open :
    JS.SlidingMenuView.animationDone
        (JS.SlidingMenuView.open
          { _logic := ⟨JSValue.number (JSNumber.finite 0), JSValue.string "200"⟩,
            _doorLock := ⟨false, [], false⟩,
            _isRightMenu := false, _lastDistance := none,
            swipeTargetWidth := AttrValue.undefined, clientWidth := 320,
            running := [], tapBound := false,
            trace := [JS.ViewEffect.lock, JS.ViewEffect.setup { source := 0 } false "200",
                      JS.ViewEffect.unlock] }
          OptionsArg.undefined) 0 =
      { _logic := ⟨JSValue.string "200", JSValue.string "200"⟩,
        _doorLock := ⟨false, [], false⟩,
        _isRightMenu := false, _lastDistance := none,
        swipeTargetWidth := AttrValue.undefined, clientWidth := 320,
        running := [], tapBound := true,
        trace := [JS.ViewEffect.lock, JS.ViewEffect.setup { source := 0 } false "200",
                  JS.ViewEffect.unlock, JS.ViewEffect.emit "preopen", JS.ViewEffect.lock,
                  JS.ViewEffect.openMenu false, JS.ViewEffect.done Transition.opening,
                  JS.ViewEffect.unlock, JS.ViewEffect.tapOn, JS.ViewEffect.emit "postopen"] } := by
  decide

theorem js_c8_drag :
    JS.SlidingMenuView._handleEvent
        { _logic := ⟨JSValue.string "200", JSValue.string "200"⟩,
          _doorLock := ⟨false, [], false⟩,
          _isRightMenu := false, _lastDistance := none,
          swipeTargetWidth := AttrValue.undefined, clientWidth := 320,
          running := [], tapBound := true,
          trace := [JS.ViewEffect.lock, JS.ViewEffect.setup { source := 0 } false "200",
                    JS.ViewEffect.unlock, JS.ViewEffect.emit "preopen", JS.ViewEffect.lock,
                    JS.ViewEffect.openMenu false, JS.ViewEffect.done Transition.opening,
                    JS.ViewEffect.unlock, JS.ViewEffect.tapOn, JS.ViewEffect.emit "postopen"] }
        ⟨EventType.dragleft, [], ⟨-50, 100, ⟨none, none⟩⟩⟩ =
      ({ _logic := ⟨JSValue.number (JSNumber.finite 1), JSValue.string "200"⟩,
         _doorLock := ⟨false, [], false⟩,
         _isRightMenu := false, _lastDistance := none,
         swipeTargetWidth := AttrValue.undefined, clientWidth := 320,
         running := [], tapBound := true,
         trace := [JS.ViewEffect.lock, JS.ViewEffect.setup { source := 0 } false "200",
                   JS.ViewEffect.unlock, JS.ViewEffect.emit "preopen", JS.ViewEffect.lock,
                   JS.ViewEffect.openMenu false, JS.ViewEffect.done Transition.opening,
                   JS.ViewEffect.unlock, JS.ViewEffect.tapOn, JS.ViewEffect.emit "postopen",
                   JS.ViewEffect.preventDefault,
                   JS.ViewEffect.translateMenu (JSValue.number (JSNumber.finite 1))
                     (JSValue.string "200")] },
       ⟨some true, none⟩) := by
  have ht : JS.SlidingMenuViewModel.translate
      ⟨JSValue.string "200", JSValue.string "200"⟩ (JSValue.string "-50200") =
      (⟨JSValue.number (JSNumber.finite 1), JSValue.string "200"⟩,
       [JS.Effect.emit (JS.Signal.translate (JSValue.number (JSNumber.finite 1))
          (JSValue.string "200"))]) := by
    simp only [JS.SlidingMenuViewModel.translate, JSValue.toNumber, js_stringToNumber_200,
      js_stringToNumber_joined, JSNumber.pred, js_min_finite, js_max_finite]
    norm_num
  have hig : SlidingMenuView._isInsideIgnoredElement [] = false := by decide
  have hop : JS.SlidingMenuViewModel.isOpened ⟨JSValue.string "200", JSValue.string "200"⟩
      = true := by decide
  have hcl : JS.SlidingMenuViewModel.isClosed ⟨JSValue.string "200", JSValue.string "200"⟩
      = false := by decide
  simp only [JS.SlidingMenuView._handleEvent, hig, JS.SlidingMenuView.log, hop, hcl,
    JS.SlidingMenuViewModel.getMaxDistance]
  norm_num [hop, hcl, js_plus_joined, ht, JS.SlidingMenuView.afterLogic, JS.SlidingMenuView.listen,
    JS.SlidingMenuView._translate, JS.SlidingMenuView.log]

/-! ## Theorems: the setup window on JavaScript values -/

theorem js_handleEvent_locked (v : JS.SlidingMenuView) (event : Event)
    (hl : v._doorLock.locked = true) :
    v._handleEvent event = (v, event.gesture.startEvent) := by
  simp [JS.SlidingMenuView._handleEvent, hl]

theorem js_deliver_locked (v : JS.SlidingMenuView) (call : Call)
    (hl : v._doorLock.locked = true) :
    (v.deliver call)._doorLock.locked = true ∧
    (v.deliver call)._logic = v._logic ∧
    (v.deliver call).running = v.running ∧
    (v.deliver call)._isRightMenu = v._isRightMenu ∧
    ∃ es, (v.deliver call).trace = v.trace ++ es ∧
      es.all JS.ViewEffect.allowedBeforeSetup = true := by
  have hopen : ∀ arg, (v.open arg)._doorLock.locked = true ∧
      (v.open arg)._logic = v._logic ∧ (v.open arg).running = v.running ∧
      (v.open arg)._isRightMenu = v._isRightMenu ∧
      ∃ es, (v.open arg).trace = v.trace ++ es ∧
        es.all JS.ViewEffect.allowedBeforeSetup = true := by
    intro arg
    have heq : v.open arg =
        { v with
          _doorLock := { v._doorLock with
            waitList := v._doorLock.waitList ++ [Waiter.open (normalizeOptions arg)] },
          trace := v.trace ++ [JS.ViewEffect.emit "preopen"] } := by
      simp [JS.SlidingMenuView.open, JS.SlidingMenuView.log, JS.SlidingMenuView.waitUnlock, hl]
    rw [heq]
    exact ⟨hl, rfl, rfl, rfl, [JS.ViewEffect.emit "preopen"], rfl, by decide⟩
  have hclose : ∀ arg, (v.close arg)._doorLock.locked = true ∧
      (v.close arg)._logic = v._logic ∧ (v.close arg).running = v.running ∧
      (v.close arg)._isRightMenu = v._isRightMenu ∧
      ∃ es, (v.close arg).trace = v.trace ++ es ∧
        es.all JS.ViewEffect.allowedBeforeSetup = true := by
    intro arg
    have heq : v.close arg =
        { v with
          _doorLock := { v._doorLock with
            waitList := v._doorLock.waitList ++ [Waiter.close (normalizeOptions arg)] },
          tapBound := false,
          trace := v.trace ++ [JS.ViewEffect.tapOff, JS.ViewEffect.emit "preclose"] } := by
      simp [JS.SlidingMenuView.close, JS.SlidingMenuView.waitUnlock, hl]
    rw [heq]
    exact ⟨hl, rfl, rfl, rfl, [JS.ViewEffect.tapOff, JS.ViewEffect.emit "preclose"], rfl,
      by decide⟩
  cases call with
  | event e =>
    have heq : v.deliver (Call.event e) = v := by
      simp only [JS.SlidingMenuView.deliver, js_handleEvent_locked v e hl]
    rw [heq]
    exact ⟨hl, rfl, rfl, rfl, [], by simp, rfl⟩
  | «open» arg => exact hopen arg
  | close arg => exact hclose arg
  | toggle arg =>
    simp only [JS.SlidingMenuView.deliver, JS.SlidingMenuView.toggle]
    split
    · exact hopen arg
    · exact hclose arg

theorem js_deliverAll_locked (calls : List Call) (v : JS.SlidingMenuView)
    (hl : v._doorLock.locked = true) :
    (v.deliverAll calls)._doorLock.locked = true ∧
    (v.deliverAll calls)._logic = v._logic ∧
    (v.deliverAll calls).running = v.running ∧
    (v.deliverAll calls)._isRightMenu = v._isRightMenu ∧
    ∃ es, (v.deliverAll calls).trace = v.trace ++ es ∧
      es.all JS.ViewEffect.allowedBeforeSetup = true := by
  induction calls generalizing v with
  | nil => exact ⟨hl, rfl, rfl, rfl, [], by simp [JS.SlidingMenuView.deliverAll], rfl⟩
  | cons call rest ih =>
    obtain ⟨h1, h2, h3, h3r, es1, h4, h5⟩ := js_deliver_locked v call hl
    obtain ⟨k1, k2, k3, k3r, es2, k4, k5⟩ := ih (v.deliver call) h1
    refine ⟨k1, k2.trans h2, k3.trans h3, k3r.trans h3r, es1 ++ es2, ?_, ?_⟩
    · show ((v.deliver call).deliverAll rest).trace = v.trace ++ (es1 ++ es2)
      rw [k4, h4, List.append_assoc]
    · rw [List.all_append, h5, k5]
      rfl

theorem js_view_init_shape (side swipeTargetWidth : AttrValue)
    (maxSlideDistance : Option AttrValue) (clientWidth : ℚ) (drainAll : Bool)
    (v0 : JS.SlidingMenuView)
    (h0 : JS.SlidingMenuView.init side swipeTargetWidth maxSlideDistance clientWidth drainAll
      = Except.ok v0) :
    v0._doorLock.locked = true ∧
    v0._logic._distance = JSValue.number (JSNumber.finite 0) ∧
    v0.running = [] ∧ v0.trace = [JS.ViewEffect.lock] ∧
    v0._isRightMenu = decide (side = AttrValue.string "right") := by
  unfold JS.SlidingMenuView.init at h0
  split at h0
  · simp at h0
  · split at h0
    · simp at h0
    · rename_i logic hlogic
      obtain ⟨md, _, hm, _⟩ := js_init_pos _ logic hlogic
      simp only [Except.ok.injEq] at h0
      subst h0 hm
      exact ⟨rfl, rfl, rfl, rfl, rfl⟩

theorem js_setupFirst_quiet (es : List JS.ViewEffect) (rest : List JS.ViewEffect)
    (a : AnimatorCopy) (r : Bool) (w : String)
    (h : es.all JS.ViewEffect.allowedBeforeSetup = true) :
    JS.setupFirst false (es ++ JS.ViewEffect.setup a r w :: rest) = true := by
  have hseen : ∀ l : List JS.ViewEffect, JS.setupFirst true l = true := by
    intro l
    induction l with
    | nil => rfl
    | cons e t ih => cases e <;> simp [JS.setupFirst, ih]
  induction es with
  | nil => simp [JS.setupFirst, hseen]
  | cons e t ih =>
    simp only [List.all_cons, Bool.and_eq_true] at h
    have ht := ih h.2
    cases e <;>
      simp_all [JS.setupFirst, JS.ViewEffect.allowedBeforeSetup, JS.ViewEffect.isAnimatorOp]

theorem js_runWaiter_trace (v : JS.SlidingMenuView) (w : Waiter) :
    ∃ es, (v.runWaiter w).trace = v.trace ++ es := by
  cases w with
  | «open» options =>
    simp only [JS.SlidingMenuView.runWaiter, JS.SlidingMenuViewModel.open]
    split
    · exact ⟨_, by
        simp [JS.SlidingMenuView.afterLogic, JS.SlidingMenuView.listen,
          JS.SlidingMenuView._open, JS.SlidingMenuView.lock, List.append_assoc]; rfl⟩
    · cases hc : options.callback with
      | none => exact ⟨[], by
          simp [JS.SlidingMenuView.afterLogic, JS.invokeCallback, hc]⟩
      | some c => exact ⟨_, by
          simp [JS.SlidingMenuView.afterLogic, JS.invokeCallback, hc,
            JS.SlidingMenuView.listen, JS.SlidingMenuView.log]; rfl⟩
  | close options =>
    simp only [JS.SlidingMenuView.runWaiter, JS.SlidingMenuViewModel.close]
    split
    · exact ⟨_, by
        simp [JS.SlidingMenuView.afterLogic, JS.SlidingMenuView.listen,
          JS.SlidingMenuView._close, JS.SlidingMenuView.lock, List.append_assoc]; rfl⟩
    · cases hc : options.callback with
      | none => exact ⟨[], by
          simp [JS.SlidingMenuView.afterLogic, JS.invokeCallback, hc]⟩
      | some c => exact ⟨_, by
          simp [JS.SlidingMenuView.afterLogic, JS.invokeCallback, hc,
            JS.SlidingMenuView.listen, JS.SlidingMenuView.log]; rfl⟩

theorem js_drain_trace (n : Nat) (v : JS.SlidingMenuView) :
    ∃ es, (JS.SlidingMenuView.drain n v).trace = v.trace ++ es := by
  induction n generalizing v with
  | zero => exact ⟨[], by simp [JS.SlidingMenuView.drain]⟩
  | succ n ih =>
    unfold JS.SlidingMenuView.drain
    cases hl : v._doorLock.locked with
    | true => exact ⟨[], by simp⟩
    | false =>
      cases hw : v._doorLock.waitList with
      | nil => exact ⟨[], by simp⟩
      | cons w rest =>
        obtain ⟨es1, h1⟩ := js_runWaiter_trace
          { v with _doorLock := { v._doorLock with waitList := rest } } w
        obtain ⟨es2, h2⟩ := ih
          (JS.SlidingMenuView.runWaiter
            { v with _doorLock := { v._doorLock with waitList := rest } } w)
        refine ⟨es1 ++ es2, ?_⟩
        simp only [Bool.false_eq_true, if_false]
        rw [h2, h1, List.append_assoc]

theorem js_unlock_trace (v : JS.SlidingMenuView) :
    ∃ es, v.unlock.trace = v.trace ++ [JS.ViewEffect.unlock] ++ es := by
  unfold JS.SlidingMenuView.unlock
  obtain ⟨es, h1⟩ := js_drain_trace
    (if v._doorLock.drainAll then v._doorLock.waitList.length else 1)
    { v with _doorLock := { v._doorLock with locked := false },
             trace := v.trace ++ [JS.ViewEffect.unlock] }
  exact ⟨es, h1⟩

theorem js_deferredSetup_cases (v : JS.SlidingMenuView) (maxSlideDistance : Option AttrValue)
    (dict : AnimatorDict) (type : Option String) :
    (∀ u, v.deferredSetup maxSlideDistance dict type = JS.SetupOutcome.completed u →
      ∃ animator rest,
        u.trace = v.trace ++
          [JS.ViewEffect.setup animator v._isRightMenu (setupWidth maxSlideDistance),
           JS.ViewEffect.unlock] ++ rest) ∧
    (∀ message u, v.deferredSetup maxSlideDistance dict type = JS.SetupOutcome.raised message u →
      u._doorLock = v._doorLock ∧ u.trace = v.trace ∧ u.running = v.running) := by
  unfold JS.SlidingMenuView.deferredSetup
  split
  · refine ⟨fun u h => by simp at h, fun message u h => ?_⟩
    simp only [JS.SetupOutcome.raised.injEq] at h
    obtain ⟨_, rfl⟩ := h
    exact ⟨rfl, rfl, rfl⟩
  · rename_i maxDistance _
    split
    · refine ⟨fun u h => by simp at h, fun message u h => ?_⟩
      simp only [JS.SetupOutcome.raised.injEq] at h
      obtain ⟨_, rfl⟩ := h
      exact ⟨rfl, rfl, rfl⟩
    · rename_i logic hs
      split
      · refine ⟨fun u h => by simp at h, fun message u h => ?_⟩
        simp only [JS.SetupOutcome.raised.injEq] at h
        obtain ⟨_, rfl⟩ := h
        exact ⟨rfl, rfl, rfl⟩
      · rename_i animator _
        refine ⟨fun u h => ?_, fun message u h => by simp at h⟩
        simp only [JS.SetupOutcome.completed.injEq] at h
        subst h
        obtain ⟨es, hes⟩ := js_unlock_trace
          { v with _logic := logic,
                   trace := v.trace ++
                     [JS.ViewEffect.setup animator v._isRightMenu
                       (setupWidth maxSlideDistance)] }
        exact ⟨animator, es, by rw [hes]; simp⟩

/-- C19: for a constructed view and every sequence of gesture events and of
`open()`, `close()` and `toggle()` calls delivered to it before its deferred
setup runs, the guard is locked afterwards and is never released on the way,
the model's distance is `0`, no animation is handed to the animator, and the
trace holds no animator operation (`openMenu`, `closeMenu`, `translateMenu`).
When the deferred setup then runs, at whatever width of the main page and
with whatever attributes and registry, either it completes, and then it has
called `animator.setup(...)` right after the trace of the window and before
the release of the guard, so that every animator operation of the trace
(those of the requests that were queued included) comes after that call; or
it raises, and then the guard is still locked and the trace is that of the
window. -/
theorem js_setup_window_quiet (side swipeTargetWidth : AttrValue)
    (maxSlideDistance : Option AttrValue) (clientWidth : ℚ) (drainAll : Bool)
    (v0 : JS.SlidingMenuView)
    (h0 : JS.SlidingMenuView.init side swipeTargetWidth maxSlideDistance clientWidth drainAll
      = Except.ok v0)
    (calls : List Call) (width : ℚ) (attr : Option AttrValue) (dict : AnimatorDict)
    (type : Option String) :
    (v0.deliverAll calls)._doorLock.locked = true ∧
    (v0.deliverAll calls)._logic._distance = JSValue.number (JSNumber.finite 0) ∧
    (v0.deliverAll calls).running = [] ∧
    (v0.deliverAll calls).trace.all JS.ViewEffect.allowedBeforeSetup = true ∧
    (v0.deliverAll calls).trace.any JS.ViewEffect.isAnimatorOp = false ∧
    (∀ u, JS.SlidingMenuView.deferredSetup
        { v0.deliverAll calls with clientWidth := width } attr dict type
          = JS.SetupOutcome.completed u →
      JS.setupFirst false u.trace = true ∧
      ∃ animator rest,
        u.trace = (v0.deliverAll calls).trace ++
          [JS.ViewEffect.setup animator (decide (side = AttrValue.string "right"))
             (setupWidth attr),
           JS.ViewEffect.unlock] ++ rest) ∧
    (∀ message u, JS.SlidingMenuView.deferredSetup
        { v0.deliverAll calls with clientWidth := width } attr dict type
          = JS.SetupOutcome.raised message u →
      u._doorLock.locked = true ∧ u.running = [] ∧
      u.trace = (v0.deliverAll calls).trace) := by
  obtain ⟨hl, hd, hr, ht, hside⟩ :=
    js_view_init_shape side swipeTargetWidth maxSlideDistance clientWidth drainAll v0 h0
  obtain ⟨h1, h2, h3, h3r, es, h4, h5⟩ := js_deliverAll_locked calls v0 hl
  have hall : (v0.deliverAll calls).trace.all JS.ViewEffect.allowedBeforeSetup = true := by
    rw [h4, ht, List.all_append, h5]
    rfl
  have hcases := js_deferredSetup_cases
    { v0.deliverAll calls with clientWidth := width } attr dict type
  refine ⟨h1, by rw [h2, hd], by rw [h3, hr], hall, ?_, ?_, ?_⟩
  · rw [Bool.eq_false_iff]
    intro hany
    rw [List.any_eq_true] at hany
    obtain ⟨e, he, hop⟩ := hany
    have := List.all_eq_true.mp hall e he
    cases e <;> simp_all [JS.ViewEffect.allowedBeforeSetup, JS.ViewEffect.isAnimatorOp]
  · intro u hu
    obtain ⟨animator, rest, htr⟩ := hcases.1 u hu
    simp only [h3r, hside] at htr
    refine ⟨?_, animator, rest, htr⟩
    rw [htr, List.append_assoc]
    exact js_setupFirst_quiet _ _ _ _ _ hall
  · intro message u hu
    obtain ⟨k1, k2, k3⟩ := hcases.2 message u hu
    exact ⟨by rw [k1]; exact h1, by rw [k3]; exact h3.trans hr, k2⟩

/-- C19 witness: a right-mounted menu without a `maxSlideDistance` attribute
and a main page of width `320`; a drag, `open()`, a release and `toggle()`
arrive before the setup.  The guard stays locked and the trace holds the
`lock` of the construction and the `pre` events only; the setup then calls
`animator.setup(...)`, releases the guard, and the first queued `open()`
starts its animation after that call. -/
theorem js_setup_window_quiet_witness :
    JS.SlidingMenuView.deliverAll
        { _logic := ⟨JSValue.number (JSNumber.finite 0), JSValue.number (JSNumber.finite 288)⟩,
          _doorLock := ⟨true, [], true⟩,
          _isRightMenu := true, _lastDistance := none,
          swipeTargetWidth := AttrValue.undefined, clientWidth := 320,
          running := [], tapBound := false,
          trace := [JS.ViewEffect.lock] }
        [Call.event { type := EventType.dragleft, target := [none],
                      gesture := ⟨-200, 100, ⟨none, none⟩⟩ },
         Call.open OptionsArg.undefined,
         Call.event { type := EventType.release, target := [none],
                      gesture := ⟨-200, 100, ⟨none, none⟩⟩ },
         Call.toggle OptionsArg.undefined] =
      { _logic := ⟨JSValue.number (JSNumber.finite 0), JSValue.number (JSNumber.finite 288)⟩,
        _doorLock := ⟨true, [Waiter.open ⟨none, none⟩, Waiter.open ⟨none, none⟩], true⟩,
        _isRightMenu := true, _lastDistance := none,
        swipeTargetWidth := AttrValue.undefined, clientWidth := 320,
        running := [], tapBound := false,
        trace := [JS.ViewEffect.lock, JS.ViewEffect.emit "preopen",
                  JS.ViewEffect.emit "preopen"] } ∧
    JS.setupFirst false
      [JS.ViewEffect.lock, JS.ViewEffect.emit "preopen", JS.ViewEffect.emit "preopen",
       JS.ViewEffect.setup { source := 0 } true "90%", JS.ViewEffect.unlock,
       JS.ViewEffect.lock, JS.ViewEffect.openMenu false] = true := by
  have h0 : JS.SlidingMenuView.init (AttrValue.string "right") AttrValue.undefined none 320
      true = Except.ok
        { _logic := ⟨JSValue.number (JSNumber.finite 0), JSValue.number (JSNumber.finite 288)⟩,
          _doorLock := ⟨true, [], true⟩,
          _isRightMenu := true, _lastDistance := none,
          swipeTargetWidth := AttrValue.undefined, clientWidth := 320,
          running := [], tapBound := false,
          trace := [JS.ViewEffect.lock] } := by
    norm_num [JS.SlidingMenuView.init, JS.SlidingMenuView._normalizeMaxSlideDistanceAttr,
      JSValue.toNumber, js_max_finite, JS.SlidingMenuViewModel.init, JSNumber.le,
      JS.SlidingMenuView.lock]
  have hdel : JS.SlidingMenuView.deliverAll
        { _logic := ⟨JSValue.number (JSNumber.finite 0), JSValue.number (JSNumber.finite 288)⟩,
          _doorLock := ⟨true, [], true⟩,
          _isRightMenu := true, _lastDistance := none,
          swipeTargetWidth := AttrValue.undefined, clientWidth := 320,
          running := [], tapBound := false,
          trace := [JS.ViewEffect.lock] }
        [Call.event { type := EventType.dragleft, target := [none],
                      gesture := ⟨-200, 100, ⟨none, none⟩⟩ },
         Call.open OptionsArg.undefined,
         Call.event { type := EventType.release, target := [none],
                      gesture := ⟨-200, 100, ⟨none, none⟩⟩ },
         Call.toggle OptionsArg.undefined] =
      { _logic := ⟨JSValue.number (JSNumber.finite 0), JSValue.number (JSNumber.finite 288)⟩,
        _doorLock := ⟨true, [Waiter.open ⟨none, none⟩, Waiter.open ⟨none, none⟩], true⟩,
        _isRightMenu := true, _lastDistance := none,
        swipeTargetWidth := AttrValue.undefined, clientWidth := 320,
        running := [], tapBound := false,
        trace := [JS.ViewEffect.lock, JS.ViewEffect.emit "preopen",
                  JS.ViewEffect.emit "preopen"] } := by
    decide
  have hsetup : JS.SlidingMenuView.deferredSetup
      { JS.SlidingMenuView.deliverAll
          { _logic := ⟨JSValue.number (JSNumber.finite 0),
                       JSValue.number (JSNumber.finite 288)⟩,
            _doorLock := ⟨true, [], true⟩,
            _isRightMenu := true, _lastDistance := none,
            swipeTargetWidth := AttrValue.undefined, clientWidth := 320,
            running := [], tapBound := false,
            trace := [JS.ViewEffect.lock] }
          [Call.event { type := EventType.dragleft, target := [none],
                        gesture := ⟨-200, 100, ⟨none, none⟩⟩ },
           Call.open OptionsArg.undefined,
           Call.event { type := EventType.release, target := [none],
                        gesture := ⟨-200, 100, ⟨none, none⟩⟩ },
           Call.toggle OptionsArg.undefined] with clientWidth := 320 }
      none _animatorDict none =
      JS.SetupOutcome.completed
        { _logic := ⟨JSValue.number (JSNumber.finite 288),
                     JSValue.number (JSNumber.finite 288)⟩,
          _doorLock := ⟨true, [Waiter.open ⟨none, none⟩], true⟩,
          _isRightMenu := true, _lastDistance := none,
          swipeTargetWidth := AttrValue.undefined, clientWidth := 320,
          running := [{ kind := Transition.opening, options := ⟨none, none⟩ }],
          tapBound := false,
          trace := [JS.ViewEffect.lock, JS.ViewEffect.emit "preopen",
                    JS.ViewEffect.emit "preopen",
                    JS.ViewEffect.setup { source := 0 } true "90%", JS.ViewEffect.unlock,
                    JS.ViewEffect.lock, JS.ViewEffect.openMenu false] } := by
    rw [hdel]
    have hn : JS.SlidingMenuView._normalizeMaxSlideDistanceAttr 320 none =
        Except.ok (JSValue.number (JSNumber.finite 288)) := by
      norm_num [JS.SlidingMenuView._normalizeMaxSlideDistanceAttr]
    have hs : JS.SlidingMenuViewModel.setMaxDistance
        ⟨JSValue.number (JSNumber.finite 0), JSValue.number (JSNumber.finite 288)⟩
        (JSValue.number (JSNumber.finite 288)) =
        (⟨JSValue.number (JSNumber.finite 0), JSValue.number (JSNumber.finite 288)⟩, none) := by
      norm_num [JS.SlidingMenuViewModel.setMaxDistance, JSValue.toNumber, JSNumber.le,
        JS.SlidingMenuViewModel.isOpened, js_strictEquals_finite]
    have ha : _getAnimatorOption _animatorDict none = some { source := 0 } := by decide
    simp only [JS.SlidingMenuView.deferredSetup, hn, hs, ha]
    decide
  have h := js_setup_window_quiet (AttrValue.string "right") AttrValue.undefined none 320 true
    _ h0
    [Call.event { type := EventType.dragleft, target := [none],
                  gesture := ⟨-200, 100, ⟨none, none⟩⟩ },
     Call.open OptionsArg.undefined,
     Call.event { type := EventType.release, target := [none],
                  gesture := ⟨-200, 100, ⟨none, none⟩⟩ },
     Call.toggle OptionsArg.undefined] 320 none _animatorDict none
  exact ⟨hdel, (h.2.2.2.2.2.1 _ hsetup).1⟩

theorem js_plus_finite (p q : ℚ) :
    JSValue.plus (JSNumber.finite p) (JSValue.number (JSNumber.finite q)) =
      JSValue.number (JSNumber.finite (p + q)) := rfl

theorem js_handleEvent_drag (v : JS.SlidingMenuView) (event : Event) (delta : ℚ)
    (w : JS.SlidingMenuView) (se : StartEvent)
    (ht : event.type = EventType.dragleft ∨ event.type = EventType.dragright)
    (hl : v._doorLock.locked = false)
    (hdelta : delta = if v._isRightMenu then -event.gesture.deltaX else event.gesture.deltaX)
    (hw : w = { v with trace := v.trace ++
            (if SlidingMenuView._isInsideIgnoredElement event.target
             then [JS.ViewEffect.stopDetect] else []) ++ [JS.ViewEffect.preventDefault] })
    (hse : se = { event.gesture.startEvent with
         isOpened := some (event.gesture.startEvent.isOpened.getD v._logic.isOpened) }) :
    v._handleEvent event =
      if delta < 0 ∧ v._logic.isClosed = true then (w, se)
      else if delta > 0 ∧ v._logic.isOpened = true then (w, se)
      else
        (w.afterLogic
          (v._logic.translate
            (if event.gesture.startEvent.isOpened.getD v._logic.isOpened = true then
              JSValue.plus (JSNumber.finite delta) v._logic._maxDistance
             else JSValue.number (JSNumber.finite delta))), se) := by
  subst hw hse hdelta
  obtain ⟨ty, target, ⟨dx, px, ⟨io, stw⟩⟩⟩ := event
  simp only at ht
  unfold JS.SlidingMenuView._handleEvent
  simp only [hl, Bool.false_eq_true, if_false]
  rcases ht with ht | ht <;> cases io <;>
    by_cases hi : SlidingMenuView._isInsideIgnoredElement target = true <;>
    simp [ht, hi, JS.SlidingMenuView.log, JS.SlidingMenuViewModel.getMaxDistance]

/-- C8 (failing input): a left-mounted menu whose `maxSlideDistance`
attribute is `200`, without a unit, on a main page of width `320`.  The
constructor builds the model with the number `200`; the deferred setup hands
`setMaxDistance` the string the attribute holds, which the model stores;
`open()` and the end of its animation leave the menu opened, with the guard
free.  A `dragleft` event with `deltaX = -50` then computes
`-50 + "200"`, the text `-50200`, and `translate` sets the distance to `1`
and reports `1` and the text `200` to the animator; `translate(150)`, the
call the sum `delta + maxDistance` stands for, would have set the distance to
`150`. -/
theorem js_drag_joins_texts :
    ∃ v0 v1,
      JS.SlidingMenuView.init AttrValue.undefined AttrValue.undefined
        (some (AttrValue.string "200")) 320 false = Except.ok v0 ∧
      v0._logic._maxDistance = JSValue.number (JSNumber.finite 200) ∧
      v0.deferredSetup (some (AttrValue.string "200")) _animatorDict none =
        JS.SetupOutcome.completed v1 ∧
      v1._logic._maxDistance = JSValue.string "200" ∧
      ((v1.open OptionsArg.undefined).animationDone 0)._logic =
        ⟨JSValue.string "200", JSValue.string "200"⟩ ∧
      ((v1.open OptionsArg.undefined).animationDone 0)._logic.isOpened = true ∧
      ((v1.open OptionsArg.undefined).animationDone 0)._doorLock.locked = false ∧
      JSValue.plus (JSNumber.finite (-50)) (JSValue.string "200") = JSValue.string "-50200" ∧
      (((v1.open OptionsArg.undefined).animationDone 0)._handleEvent
          ⟨EventType.dragleft, [], ⟨-50, 100, ⟨none, none⟩⟩⟩).1._logic =
        ⟨JSValue.number (JSNumber.finite 1), JSValue.string "200"⟩ ∧
      (((v1.open OptionsArg.undefined).animationDone 0)._handleEvent
          ⟨EventType.dragleft, [], ⟨-50, 100, ⟨none, none⟩⟩⟩).1.trace =
        ((v1.open OptionsArg.undefined).animationDone 0).trace ++
          [JS.ViewEffect.preventDefault,
           JS.ViewEffect.translateMenu (JSValue.number (JSNumber.finite 1))
             (JSValue.string "200")] ∧
      (JS.SlidingMenuViewModel.translate ⟨JSValue.string "200", JSValue.string "200"⟩
          (JSValue.number (JSNumber.finite 150))).1._distance =
        JSValue.number (JSNumber.finite 150) := by
  refine ⟨_, _, js_c8_init, rfl, js_c8_setup, rfl, ?_⟩
  rw [js_c8_open, js_c8_drag]
  refine ⟨rfl, by decide, rfl, js_plus_joined, rfl, rfl, ?_⟩
  simp only [JS.SlidingMenuViewModel.translate, JSValue.toNumber, js_stringToNumber_200,
    JSNumber.pred, js_min_finite, js_max_finite]
  norm_num

end SlidingMenu
